import Mathlib

/-!
# RAOP streamer: a shallow embedding of `raop_streamer.c`

The streaming engine of the AirPlay receiver is modelled as pure functions on an
explicit session state.  C integers are mathematical integers (`Int`); every
conversion to a fixed-width type that the C code performs is written out as an
explicit reduction (`seq_t`, `int16_t`, `uint32_t`, `uint64_t`, `int64_t`).
-/

namespace Raop

/-! ## Machine integer conversions -/

/-- Conversion of a C integer to `seq_t` (`uint16_t`). -/
def seq_t (x : Int) : Int := x % 65536

/-- Conversion of a C integer to `int16_t` (two's complement wrap). -/
def int16_t (x : Int) : Int := (x + 32768) % 65536 - 32768

/-- Conversion of a C integer to `uint32_t`. -/
def uint32_t (x : Int) : Int := x % 4294967296

/-- Conversion of a C integer to `int32_t` (two's complement wrap). -/
def int32_t (x : Int) : Int := (x + 2147483648) % 4294967296 - 2147483648

/-- Conversion of a C integer to `uint64_t`. -/
def uint64_t (x : Int) : Int := x % 18446744073709551616

/-- Conversion of a C integer to `int64_t` (two's complement wrap). -/
def int64_t (x : Int) : Int :=
  (x + 9223372036854775808) % 18446744073709551616 - 9223372036854775808

/-! ## Constants of `raop_streamer.c` -/

def GAP_THRES : Int := 8
def GAP_COUNT : Int := 20
def BUFFER_FRAMES : Int := 1024
def TAIL_SIZE : Int := 2048 * 1024
def RTP_SYNC : Int := 1
def NTP_SYNC : Int := 2
def RESEND_TO : Int := 200
def ICY_INTERVAL : Int := 16384

/-! ## Clock helpers -/

/-- `#define NTP2MS(ntp) ((((ntp) >> 10) * 1000L) >> 22)`.  The right shifts are
floor divisions (arithmetic shift for a signed operand); for a 64-bit operand the
intermediate product stays inside the 64-bit range, so no wrap is needed. -/
def NTP2MS (ntp : Int) : Int := ((ntp / 1024) * 1000) / 4194304

/-- `#define MS2NTP(ms) (((((uint64_t) (ms)) << 22) / 1000) << 10)`, in 64-bit
unsigned arithmetic. -/
def MS2NTP (ms : Int) : Int :=
  uint64_t ((uint64_t (uint64_t ms * 4194304) / 1000) * 1024)

/-- `seq_order(a, b)`: `int16_t d = b - a; return d > 0;` with both arguments
converted to `seq_t` at the call. -/
def seq_order (a b : Int) : Bool := decide (0 < int16_t (seq_t b - seq_t a))

/-- `#define BUFIDX(seqno) ((seq_t)(seqno) % BUFFER_FRAMES)`. -/
def BUFIDX (seqno : Int) : Int := seq_t seqno % BUFFER_FRAMES

/-- One-bit mask test `x & m` for a mask `m` that is a power of two and `x ≥ 0`. -/
def bit_and (x m : Int) : Int := if (x / m) % 2 = 1 then m else 0

/-- One-bit mask set `x | m` for a mask `m` that is a power of two and `x ≥ 0`. -/
def bit_or (x m : Int) : Int := if (x / m) % 2 = 1 then x else x + m

/-! ## Data model -/

/-- `abuf_t`: one slot of the ring of decoded frames.  `data` holds the `len` valid
payload bytes of the slot. -/
structure abuf_t where
  ready : Bool
  rtptime : Int
  last_resend : Int
  data : List Int
  len : Int

/-- Codec selection (`raopst_encode_t.codec`), in the order of `mime_types`. -/
inductive codec_t where
  | CODEC_MP3
  | CODEC_FLAC
  | CODEC_PCM
  | CODEC_WAV
  deriving DecidableEq, Repr

/-- `struct timing_s` (field `local` is written `local_`). -/
structure timing_s where
  drift : Bool
  local_ : Int
  remote : Int
  count : Int
  gap_count : Int
  gap_sum : Int
  gap_adjust : Int

/-- The anonymous `synchro` struct of `raopst_t`. -/
structure synchro_s where
  rtp : Int
  time : Int
  status : Int
  first : Bool
  required : Bool

/-- The anonymous `record` struct of `raopst_t`. -/
structure record_s where
  time : Int
  seqno : Int
  rtptime : Int

/-- The anonymous `encode` struct of `raopst_t`; `codec` is the selected codec,
`mp3_icy` is `config.mp3.icy`, `handle` tells whether the encoder object exists. -/
structure encode_s where
  codec : codec_t
  mp3_icy : Bool
  handle : Bool
  len : Int
  header : Bool

/-- The anonymous `icy` struct of `raopst_t`. -/
structure icy_s where
  interval : Int
  remain : Int
  updated : Bool

/-- `raopst_t`: the session state.  `events` records the calls of `event_cb` and
`sent` the datagrams handed to `sendto` (socket index, bytes), oldest first. -/
structure raopst_t where
  range : Bool
  frame_size : Int
  in_frames : Int
  out_frames : Int
  peer : Int
  rtp_host : Int
  timing : timing_s
  synchro : synchro_s
  record : record_s
  latency : Int
  delay : Int
  resent_frames : Int
  silent_frames : Int
  silence_count : Int
  filled_frames : Int
  http_fill : Bool
  pause : Bool
  skip : Int
  audio_buffer : Int → abuf_t
  ab_read : Int
  ab_write : Int
  encode : encode_s
  icy : icy_s
  flush_seqno : Int
  playing : Bool
  silence : Bool
  http_ready : Bool
  http_tail : Int → Int
  http_count : Int
  http_length : Int
  events : List Int
  sent : List (Int × List Int)

/-- Socket indices `enum { DATA, CONTROL, TIMING }`. -/
def DATA : Int := 0
def CONTROL : Int := 1
def TIMING : Int := 2

/-- Event code passed to `event_cb` for `RAOP_STREAMER_PLAY`. -/
def RAOP_STREAMER_PLAY : Int := 0

/-- Buffer fill as computed in the source: `short buf_fill = ab_write - ab_read + 1`. -/
def buf_fill (ctx : raopst_t) : Int := int16_t (ctx.ab_write - ctx.ab_read + 1)

/-- The part of `raopst_init` that sets up the session state (zeroed by `calloc`),
with the latency string already split into its numeric parts: `latency_ms` is
`atoi(latencies)`, `fill` the `:f` flag and `delay_ms` is `atoi` of the text after the
first `:` (`none` without a `:`).  The products are formed in 32-bit `int`, the
divisions truncate; `none` is the division by zero of
`(delay * 44100) / (frame_size * 1000)`. -/
def raopst_init (codec : codec_t) (mp3_icy : Bool) (sync drift range : Bool)
    (latency_ms : Int) (fill : Bool) (delay_ms : Option Int) (frame_size : Int)
    (peer : Int) (http_length : Int) : Option raopst_t :=
  if delay_ms.isSome = true ∧ int32_t (frame_size * 1000) = 0 then none
  else some
  { range := range
    frame_size := frame_size
    in_frames := 0
    out_frames := 0
    peer := peer
    rtp_host := 0
    timing := { drift := drift, local_ := 0, remote := 0, count := 0, gap_count := 0,
                gap_sum := 0, gap_adjust := 0 }
    synchro := { rtp := 0, time := 0, status := 0, first := false, required := sync }
    record := { time := 0, seqno := 0, rtptime := 0 }
    latency := Int.tdiv (int32_t (latency_ms * 44100)) 1000
    delay := match delay_ms with
      | none => 0
      | some d => Int.tdiv (int32_t (d * 44100)) (int32_t (frame_size * 1000))
    resent_frames := 0
    silent_frames := 0
    silence_count := 0
    filled_frames := 0
    http_fill := fill
    pause := false
    skip := 0
    audio_buffer := fun _ => { ready := false, rtptime := 0, last_resend := 0, data := [], len := 0 }
    -- write pointer = last written, read pointer = next to read so fill = w-r+1
    ab_read := seq_t (0 + 1)
    ab_write := 0
    encode := { codec := codec, mp3_icy := mp3_icy, handle := false, len := 0, header := false }
    icy := { interval := 0, remain := 0, updated := false }
    flush_seqno := -1
    playing := false
    silence := false
    http_ready := false
    http_tail := fun _ => 0
    http_count := 0
    http_length := http_length
    events := []
    sent := [] }

/-- `buffer_reset`: clear the ready flag of every slot. -/
def buffer_reset (audio_buffer : Int → abuf_t) : Int → abuf_t :=
  fun i => { audio_buffer i with ready := false }

/-- `encoder_close`: drop the encoder object if there is one. -/
def encoder_close (ctx : raopst_t) : raopst_t :=
  if !ctx.encode.handle then ctx
  else { ctx with encode := { ctx.encode with handle := false } }

/-- `raopst_flush` (the mutex is not modelled; `now` is `gettime_ms()`). -/
def raopst_flush (ctx : raopst_t) (now : Int) (seqno rtptime : Int) (silence : Bool) :
    Bool × raopst_t :=
  if now < uint32_t (ctx.record.time + 250) ∨
      (ctx.record.seqno = seqno ∧ ctx.record.rtptime = rtptime) then
    (false, ctx)
  else
    let ctx := { ctx with audio_buffer := buffer_reset ctx.audio_buffer, flush_seqno := seqno }
    if silence then
      (true, { ctx with pause := true })
    else
      (true, encoder_close { ctx with playing := false,
                                      synchro := { ctx.synchro with first := false },
                                      http_ready := false })

/-- `raopst_record` (`now` is `gettime_ms()`). -/
def raopst_record (ctx : raopst_t) (now : Int) (seqno rtptime : Int) : raopst_t :=
  { ctx with record := { seqno := seqno, rtptime := rtptime, time := now } }

/-- `rtp_request_resend`: the 8-byte request is appended to `sent` on the control
socket. -/
def rtp_request_resend (ctx : raopst_t) (first last : Int) : Bool × raopst_t :=
  let first := seq_t first
  let last := seq_t last
  -- do not request silly ranges (happens in case of network large blackouts)
  if seq_order last first || decide (last - first > BUFFER_FRAMES / 2) then (false, ctx)
  else
    let count := seq_t (seq_t (last - first) + 1)
    (true, { ctx with
      resent_frames := uint32_t (ctx.resent_frames + (seq_t (last - first) + 1))
      sent := ctx.sent ++ [(CONTROL, [0x80, 0xd5, 0, 1, first / 256, first % 256,
                                      count / 256, count % 256])] })

/-- Encoder set-up done when playback starts: `flac_init`, `mp3_init`, or arming the
WAV header. -/
def encoder_start (e : encode_s) : encode_s :=
  match e.codec with
  | codec_t.CODEC_FLAC => { e with len := 0, header := true, handle := true }
  | codec_t.CODEC_MP3 => { e with len := 0, handle := true }
  | codec_t.CODEC_WAV => { e with header := true }
  | codec_t.CODEC_PCM => e

/-- `buffer_put_packet`, lines 555-574: the start test made while not playing.
`none` is the early return that drops the packet. -/
def put_start (ctx : raopst_t) (seqno : Int) : Option raopst_t :=
  if !ctx.playing then
    if (ctx.flush_seqno = -1 ∨ seq_order ctx.flush_seqno seqno = true) ∧
        ((ctx.synchro.required = true ∧ ctx.synchro.first = true) ∨
          ctx.synchro.required = false) then
      some { ctx with
        ab_write := seq_t (seqno - 1)
        ab_read := seqno
        skip := 0
        flush_seqno := -1
        playing := true
        silence := true
        synchro := { ctx.synchro with first := false }
        resent_frames := 0
        silent_frames := 0
        http_count := 0
        encode := encoder_start ctx.encode }
    else none
  else some ctx

/-- The loop of `buffer_put_packet` that stamps the slots of a requested range:
`for (i = ab_write + 1; seq_order(i, seqno); i++)`. -/
def stamp_missing (frame_size rtptime seqno now : Int) :
    Nat → Int → (Int → abuf_t) → (Int → abuf_t)
  | 0, _, buf => buf
  | n + 1, i, buf =>
    if seq_order i seqno then
      stamp_missing frame_size rtptime seqno now n (seq_t (i + 1))
        (Function.update buf (BUFIDX i)
          { buf (BUFIDX i) with
            rtptime := uint32_t (rtptime - (seqno - i) * frame_size)
            last_resend := now })
    else buf

/-- `buffer_put_packet`, lines 579-614: choice of the slot (`abuf`, `none` for NULL)
relative to `ab_write` and `ab_read`. -/
def put_place (ctx : raopst_t) (now : Int) (seqno rtptime : Int) : Option Int × raopst_t :=
  if seqno = seq_t (ctx.ab_write + 1) then
    -- expected packet
    (some (BUFIDX seqno), { ctx with ab_write := seqno })
  else if seq_order ctx.ab_write seqno then
    -- newer than expected
    let ctx :=
      if ctx.latency ≠ 0 ∧
          seq_order (Int.tdiv ctx.latency ctx.frame_size) (seqno - ctx.ab_write - 1) = true then
        { ctx with ab_write := seq_t (seqno - Int.tdiv ctx.latency ctx.frame_size) }
      else ctx
    let ctx :=
      if ctx.delay ≠ 0 ∧ seq_order ctx.delay (seqno - ctx.ab_read) = true then
        { ctx with ab_read := seq_t (seqno - ctx.delay + 1) }
      else ctx
    let r := rtp_request_resend ctx (ctx.ab_write + 1) (seqno - 1)
    let ctx :=
      if r.1 then
        { r.2 with
          audio_buffer :=
            stamp_missing ctx.frame_size rtptime seqno now 65536 (seq_t (ctx.ab_write + 1))
              r.2.audio_buffer }
      else r.2
    (some (BUFIDX seqno), { ctx with ab_write := seqno })
  else if seq_order ctx.ab_read (seqno + 1) then
    -- recovered packet, not yet sent
    (some (BUFIDX seqno), ctx)
  else
    -- too late
    (none, ctx)

/-- `memcmp(abuf->data, ctx->silence_frame, abuf->len)` against the all-zero silence
frame: non-zero exactly when one of the `len` payload bytes is non-zero. -/
def memcmp_silence (data : List Int) : Bool := data.any (fun b => b != 0)

/-- `buffer_put_packet`, lines 620-633: decode into the chosen slot, mark it ready,
stamp it, and fire the PLAY event on the first non-silent frame. -/
def put_store (alac_decode : List Int → List Int) (ctx : raopst_t) (abuf : Option Int)
    (rtptime : Int) (data : List Int) : raopst_t :=
  match abuf with
  | none => ctx
  | some idx =>
    let pcm := alac_decode data
    let slot : abuf_t :=
      { ctx.audio_buffer idx with data := pcm, len := pcm.length, ready := true,
                                  rtptime := rtptime }
    let ctx := { ctx with audio_buffer := Function.update ctx.audio_buffer idx slot }
    if ctx.silence && memcmp_silence pcm then
      { ctx with events := ctx.events ++ [RAOP_STREAMER_PLAY], silence := false }
    else ctx

/-- `buffer_put_packet`.  `alac_decode` is the external decrypt-and-decode step,
`now` the value `gettime_ms()` returns inside the call. -/
def buffer_put_packet (alac_decode : List Int → List Int) (ctx : raopst_t) (now : Int)
    (seqno rtptime : Int) (_first : Bool) (data : List Int) : raopst_t :=
  let seqno := seq_t seqno
  let rtptime := uint32_t rtptime
  match put_start ctx seqno with
  | none => ctx
  | some ctx =>
    -- release as soon as one recent frame is received
    let ctx := if ctx.pause && seq_order ctx.flush_seqno seqno then { ctx with pause := false }
               else ctx
    let p := put_place ctx now seqno rtptime
    let ctx := { p.2 with in_frames := p.2.in_frames + 1 }
    put_store alac_decode ctx p.1 rtptime data

/-- The skip loop of `_buffer_get_frame`:
`while (ctx->skip && seq_order(ctx->ab_read, ctx->ab_write))`. -/
def skip_frames : Nat → raopst_t → raopst_t
  | 0, ctx => ctx
  | n + 1, ctx =>
    if ctx.skip ≠ 0 ∧ seq_order ctx.ab_read ctx.ab_write = true then
      skip_frames n { ctx with
        audio_buffer := Function.update ctx.audio_buffer (BUFIDX ctx.ab_read)
          { ctx.audio_buffer (BUFIDX ctx.ab_read) with ready := false }
        ab_read := seq_t (ctx.ab_read + 1)
        skip := ctx.skip - 1 }
    else ctx

/-- Body shared by the two resend loops of `_buffer_get_frame`: request slot
`ab_read + i` again when it is missing and its last request is older than
`RESEND_TO`. -/
def resend_slot (ctx : raopst_t) (now i : Int) : raopst_t :=
  let idx := BUFIDX (ctx.ab_read + i)
  let frame := ctx.audio_buffer idx
  if frame.ready = false ∧ uint32_t (now - frame.last_resend) > RESEND_TO then
    let r := (rtp_request_resend ctx (ctx.ab_read + i) (ctx.ab_read + i)).2
    { r with
      audio_buffer :=
        Function.update r.audio_buffer idx { r.audio_buffer idx with last_resend := now } }
  else ctx

/-- The catch-up loop `for (i = 0; i < min(16, buf_fill); i++)` of the wait path. -/
def catch_up (now n : Int) : Nat → Int → raopst_t → raopst_t
  | 0, _, ctx => ctx
  | k + 1, i, ctx => if i < n then catch_up now n k (i + 1) (resend_slot ctx now i) else ctx

/-- The loop `for (i = 16; seq_order(ctx->ab_read + i, ctx->ab_write); i += 16)`. -/
def resend_ahead (now : Int) : Nat → Int → raopst_t → raopst_t
  | 0, _, ctx => ctx
  | k + 1, i, ctx =>
    if seq_order (ctx.ab_read + i) ctx.ab_write then
      resend_ahead now k (i + 16) (resend_slot ctx now i)
    else ctx

/-- The silence frame: `frame_size * 4` zero bytes. -/
def silence_frame (ctx : raopst_t) : List Int := List.replicate (ctx.frame_size * 4).toNat 0

/-- The overrun step of `_buffer_get_frame` (lines 911-917): the value of `buf_fill`
used by the rest of the call, and the state with `ab_read` rebased on overrun. -/
def overrun_cap (ctx : raopst_t) : Int × raopst_t :=
  let buf_fill := int16_t (ctx.ab_write - ctx.ab_read + 1)
  if buf_fill ≥ BUFFER_FRAMES then
    let ctx := { ctx with ab_read := seq_t (ctx.ab_write - (BUFFER_FRAMES - 64)) }
    (int16_t (ctx.ab_write - ctx.ab_read + 1), ctx)
  else (buf_fill, ctx)

/-- Line 923 of `_buffer_get_frame`: on an empty buffer the slot at `ab_read` takes the
previous slot's rtptime plus `frame_size`. -/
def stamp_empty (ctx : raopst_t) (fill : Int) : raopst_t :=
  let cur := BUFIDX ctx.ab_read
  let prev_rtptime := (ctx.audio_buffer (BUFIDX (ctx.ab_read - 1))).rtptime
  -- use previous frame when buffer is empty or silence continues to be sent
  if fill = 0 then
    { ctx with
      audio_buffer := Function.update ctx.audio_buffer cur
        { ctx.audio_buffer cur with rtptime := uint32_t (prev_rtptime + ctx.frame_size) } }
  else ctx

/-- Lines 944-953 of `_buffer_get_frame`: move the write pointer when silence is
inserted at the top, and count the frame. -/
def advance_write (ctx : raopst_t) (fill : Int) : raopst_t :=
  -- when silence is inserted at the top, need to move write pointer
  let ctx := if fill = 0 then
      { ctx with ab_write := seq_t (ctx.ab_write + 1),
                 filled_frames := uint32_t (ctx.filled_frames + 1) }
    else { ctx with filled_frames := 0 }
  { ctx with out_frames := ctx.out_frames + 1 }

/-- Lines 969-976 of `_buffer_get_frame`: a frame that is not ready is replaced by
zeros and counted as silent. -/
def zero_fill (ctx : raopst_t) (cur : Int) : raopst_t :=
  if (ctx.audio_buffer cur).ready = false then
    { ctx with
      audio_buffer := Function.update ctx.audio_buffer cur
        { ctx.audio_buffer cur with data := silence_frame ctx, len := ctx.frame_size * 4 }
      silent_frames := uint32_t (ctx.silent_frames + 1) }
  else ctx

/-- `_buffer_get_frame` after the overrun step (lines 919-983), with `fill` the value
of `buf_fill`. -/
def get_frame_play (ctx : raopst_t) (fill now : Int) : Option (List Int) × raopst_t :=
  let cur := BUFIDX ctx.ab_read
  let ctx := stamp_empty ctx fill
  -- watch out for 32 bits overflow
  let playtime := uint32_t (ctx.synchro.time +
    Int.tdiv (int32_t (int32_t ((ctx.audio_buffer cur).rtptime - ctx.synchro.rtp) * 1000)) 44100)
  -- wait if not ready but have time, otherwise send silence
  if (fill = 0 ∧ ctx.http_fill = false) ∨ ctx.synchro.status ≠ bit_or RTP_SYNC NTP_SYNC ∨
      (now < playtime ∧ (ctx.audio_buffer cur).ready = false) then
    -- look for "blocking" frames at the top of the queue and try to catch-up
    (none, catch_up now (min 16 fill) 16 0 ctx)
  else
    -- each missing packet will be requested up to (latency_frames / 16) times
    let ctx := resend_ahead now 4096 16 (advance_write ctx fill)
    let ctx := zero_fill ctx cur
    (some (ctx.audio_buffer cur).data,
      { ctx with
        audio_buffer := Function.update ctx.audio_buffer cur
          { ctx.audio_buffer cur with ready := false }
        ab_read := seq_t (ctx.ab_read + 1) })

/-- `_buffer_get_frame` from the overrun step on (lines 911-983); `ctx` is the state
after the skip loop. -/
def get_frame_body (ctx : raopst_t) (now : Int) : Option (List Int) × raopst_t :=
  get_frame_play (overrun_cap ctx).2 (overrun_cap ctx).1 now

/-- `_buffer_get_frame`: the frame handed to the HTTP thread (`none` for NULL) and
the new state; `now` is `gettime_ms()`. -/
def _buffer_get_frame (ctx : raopst_t) (now : Int) : Option (List Int) × raopst_t :=
  if !ctx.playing then (none, ctx)
  -- send silence if required to create enough buffering (want countdown to happen)
  else if ctx.silence_count ≠ 0 then
    (some (silence_frame ctx), { ctx with silence_count := ctx.silence_count - 1 })
  else if ctx.pause then (some (silence_frame ctx), ctx)
  else
    -- skip frames if we are running late and skip could not be done in SYNC
    get_frame_body (skip_frames 32768 ctx) now

/-- The drift adjustment made under the mutex while handling a timing reply
(lines 778-808): `ctx` is the state after `gap_sum += delta`. -/
def drift_adjust (ctx : raopst_t) : raopst_t :=
  let t := ctx.timing
  let ctx :=
    if t.gap_sum > GAP_THRES then
      -- `gap_count++ > GAP_COUNT` is evaluated: the counter moves in either case
      let ctx := { ctx with timing := { t with gap_count := t.gap_count + 1 } }
      if t.gap_count > GAP_COUNT then
        let rd := seq_t (ctx.ab_read - 1)
        { ctx with
          ab_read := rd
          audio_buffer := Function.update ctx.audio_buffer (BUFIDX rd)
            { ctx.audio_buffer (BUFIDX rd) with ready := true }
          timing := { ctx.timing with gap_sum := ctx.timing.gap_sum - GAP_THRES,
                                      gap_adjust := ctx.timing.gap_adjust - GAP_THRES } }
      else ctx
    else if t.gap_sum < -GAP_THRES then
      let ctx := { ctx with timing := { t with gap_count := t.gap_count + 1 } }
      if t.gap_count > GAP_COUNT then
        let ctx :=
          if seq_order ctx.ab_read ctx.ab_write then
            { ctx with
              audio_buffer := Function.update ctx.audio_buffer (BUFIDX ctx.ab_read)
                { ctx.audio_buffer (BUFIDX ctx.ab_read) with ready := false }
              ab_read := seq_t (ctx.ab_read + 1) }
          else { ctx with skip := ctx.skip + 1 }
        { ctx with
          timing := { ctx.timing with gap_sum := ctx.timing.gap_sum + GAP_THRES,
                                      gap_adjust := ctx.timing.gap_adjust + GAP_THRES } }
      else ctx
    else ctx
  -- `llabs(ctx->timing.gap_sum) < 8`
  if -8 < ctx.timing.gap_sum ∧ ctx.timing.gap_sum < 8 then
    { ctx with timing := { ctx.timing with gap_count := 0 } }
  else ctx

/-- The value `delta` of a timing reply (lines 768 and 775):
`expected = timing.remote + MS2NTP(reference - timing.local)` taken before the clock
state is updated, then `NTP2MS((int64_t) expected - (int64_t) remote)`. -/
def timing_delta (ctx : raopst_t) (reference remote : Int) : Int :=
  let expected := uint64_t (ctx.timing.remote + MS2NTP (reference - ctx.timing.local_))
  NTP2MS (int64_t (int64_t expected - int64_t remote))

/-- The `case 0x53` branch of `rtp_thread_func`: a timing reply carrying `reference`
and the sender's NTP value `remote`, received when `gettime_ms()` is `now`. -/
def timing_reply (ctx : raopst_t) (now reference remote : Int) : raopst_t :=
  let roundtrip := uint32_t (now - reference)
  -- better discard sync packets when roundtrip is suspicious and get another one
  if roundtrip > 100 then ctx
  else
    let delta := timing_delta ctx reference remote
    let ctx := { ctx with
      timing := { ctx.timing with remote := remote, local_ := reference,
                                  count := uint32_t (ctx.timing.count + 1) } }
    let ctx :=
      if ctx.timing.drift = false ∧ bit_and ctx.synchro.status NTP_SYNC ≠ 0 then
        drift_adjust { ctx with
          timing := { ctx.timing with gap_sum := ctx.timing.gap_sum + delta } }
      else ctx
    -- now we are synced on NTP (mutex not needed)
    { ctx with synchro := { ctx.synchro with status := bit_or ctx.synchro.status NTP_SYNC } }

/-- `memcpy(dst + d, src + s, n)` on byte-addressed memories. -/
def memcpy (dst : Int → Int) (d : Int) (src : Int → Int) (s n : Int) : Int → Int :=
  fun j => if d ≤ j ∧ j < d + n then src (s + (j - d)) else dst j

/-- The tail store of `http_thread_func` (lines 1136-1140).  `inbuf` is the memory at
the pointer `inbuf`, addressed in bytes; the pointer is declared `int16_t *inbuf`, so
the expression `inbuf + space` lies `2 * space` bytes past it. -/
def http_tail_store (ctx : raopst_t) (inbuf : Int → Int) (len : Int) : raopst_t :=
  let space := min len (TAIL_SIZE - ctx.http_count % TAIL_SIZE)
  let tail := memcpy ctx.http_tail (ctx.http_count % TAIL_SIZE) inbuf 0 space
  let tail := memcpy tail 0 inbuf (2 * space) (len - space)
  { ctx with http_tail := tail, http_count := ctx.http_count + len }

/-- What `http_parse` and the `kd_lookup` calls of `handle_http` extract from the
request: `HTTP_11` is `strstr(proto, "1.1") != NULL`, `head` is
`strstr(method, "HEAD") != NULL`, `range` is the number scanned from a
`Range: bytes=N` header (`none` without the header), `icy_metadata` is `atoi` of the
`Icy-MetaData` header (0 without it). -/
structure http_request where
  parsed : Bool
  HTTP_11 : Bool
  head : Bool
  range : Option Int
  icy_metadata : Int
  connection : Option String

/-- What `handle_http` sends: the status line, the response headers in order, and the
payload of each `send_data` call made for the body. -/
structure http_response where
  status : String
  headers : List (String × String)
  body : List (List Int)
  deriving DecidableEq

/-- `mime_types[codec]`. -/
def mime_types (c : codec_t) : String :=
  match c with
  | codec_t.CODEC_MP3 => "audio/mpeg"
  | codec_t.CODEC_FLAC => "audio/flac"
  | codec_t.CODEC_PCM => "audio/L16;rate=44100;channels=2"
  | codec_t.CODEC_WAV => "audio/wav"

/-- The effective replay offset computed by `handle_http` (line 1244) from the
scanned `Range` value. -/
def range_offset (ctx : raopst_t) (offset : Int) : Int :=
  if ctx.http_count ≠ 0 ∧ ctx.http_count > TAIL_SIZE then
    min offset (ctx.http_count - TAIL_SIZE - 1)
  else 0

/-- The bytes `send_data` reads for one replay chunk: `bytes` bytes of the tail
starting at index `pos`. -/
def tail_chunk (tail : Int → Int) (pos bytes : Int) : List Int :=
  (List.range bytes.toNat).map (fun k => tail (pos + (k : Int)))

/-- The replay loop of `handle_http` (lines 1291-1313), every `send_data` succeeding;
`count` is the number of bytes replayed so far, `out` the chunks sent so far. -/
def range_replay (offset : Int) : Nat → Int → raopst_t → List (List Int) →
    raopst_t × List (List Int)
  | 0, _, ctx, out => (ctx, out)
  | n + 1, count, ctx, out =>
    if count ≠ ctx.http_count - offset then
      let bytes := if ctx.icy.interval ≠ 0 then ctx.icy.remain else ICY_INTERVAL
      let bytes := min bytes (ctx.http_count - offset - count)
      let out := out ++ [tail_chunk ctx.http_tail ((offset + count) % TAIL_SIZE) bytes]
      let sent := bytes
      -- send ICY data if needed
      if ctx.icy.interval ≠ 0 then
        let remain := ctx.icy.remain - sent
        if remain = 0 then
          range_replay offset n (count + sent)
            { ctx with icy := { ctx.icy with remain := ctx.icy.interval } } (out ++ [[1]])
        else
          range_replay offset n (count + sent)
            { ctx with icy := { ctx.icy with remain := remain } } out
      else range_replay offset n (count + sent) ctx out
    else (ctx, out)

/-- `handle_http`, without a header hook (`http_cb == NULL`): the return value, the
response sent, and the new state. -/
def handle_http (ctx : raopst_t) (req : http_request) : Bool × Option http_response × raopst_t :=
  if !req.parsed then (false, none, ctx)
  else
    let resp : List (String × String) :=
      [("Server", "HairTunes"), ("Content-Type", mime_types ctx.encode.codec)]
    -- is there a range request (chromecast non-compliance to HTTP !!!)
    let offset : Int :=
      match ctx.range, req.range with
      | true, some n => range_offset ctx n
      | _, _ => 0
    let head : Option String :=
      if offset ≠ 0 then
        if ctx.http_length = -3 ∧ req.HTTP_11 = true then some "HTTP/1.1 206 Partial Content"
        else some "HTTP/1.0 206 Partial Content"
      else none
    let resp := if offset ≠ 0 then
        resp ++ [("Content-Range",
          "bytes " ++ toString offset ++ "-" ++ toString ctx.http_count ++ "/*")]
      else resp
    -- check if add ICY metadata is needed (only on live stream)
    let icy_on : Bool :=
      decide (ctx.encode.codec = codec_t.CODEC_MP3) && ctx.encode.mp3_icy &&
        decide (req.icy_metadata ≠ 0)
    let resp := if icy_on then resp ++ [("icy-metaint", toString ICY_INTERVAL)] else resp
    let ctx := if icy_on then
        { ctx with icy := { ctx.icy with interval := ICY_INTERVAL, remain := ICY_INTERVAL } }
      else { ctx with icy := { ctx.icy with interval := 0 } }
    let sent : String × List (String × String) :=
      if ctx.http_length = -3 ∧ req.HTTP_11 = true then
        let conn := match req.connection with
          | some v => if v.toLower = "close" ∨ v.toLower = "keep-alive" then v else "close"
          | none => "close"
        (head.getD "HTTP/1.1 200 OK",
          resp ++ [("Connection", conn), ("Transfer-Encoding", "chunked")])
      else
        let resp := if ctx.http_length > 0 then
            resp ++ [("Content-Length", toString ctx.http_length)] else resp
        (head.getD "HTTP/1.0 200 OK", resp ++ [("Connection", "close")])
    -- nothing else to do if this is a HEAD request
    if req.head then (false, some { status := sent.1, headers := sent.2, body := [] }, ctx)
    else if offset ≠ 0 then
      -- need to re-send the range
      let ctx := { ctx with silence_count := 0 }
      let r := range_replay offset (ctx.http_count - offset).toNat 0 ctx []
      (true, some { status := sent.1, headers := sent.2, body := r.2 }, r.1)
    else (true, some { status := sent.1, headers := sent.2, body := [] }, ctx)

/-! ## Traces of operations -/

/-- One call into the session, with the value `gettime_ms()` has during the call. -/
inductive op where
  | put (now seqno rtptime : Int) (first : Bool) (data : List Int)
  | get (now : Int)
  | flush (now seqno rtptime : Int) (silence : Bool)
  | record (now seqno rtptime : Int)
  | timing (now reference remote : Int)

/-- Effect of one operation on the session state. -/
def step (alac_decode : List Int → List Int) (ctx : raopst_t) : op → raopst_t
  | op.put now seqno rtptime first data =>
      buffer_put_packet alac_decode ctx now seqno rtptime first data
  | op.get now => (_buffer_get_frame ctx now).2
  | op.flush now seqno rtptime silence => (raopst_flush ctx now seqno rtptime silence).2
  | op.record now seqno rtptime => raopst_record ctx now seqno rtptime
  | op.timing now reference remote => timing_reply ctx now reference remote

/-- Effect of a sequence of operations, oldest first. -/
def run (alac_decode : List Int → List Int) (ctx : raopst_t) (ops : List op) : raopst_t :=
  ops.foldl (step alac_decode) ctx

/-- A session as `raopst_init` leaves it: WAV output, no sync requirement, drift
flag clear, 1000 ms latency, 352-sample frames. -/
def fresh_session : raopst_t :=
  (raopst_init codec_t.CODEC_WAV false false false false 1000 false none 352 0 (-1)).get
    (by decide)

/-- A session playing since packet 499. -/
def playing_session : raopst_t := run id fresh_session [op.put 0 499 175648 true [1, 2]]

/-- The property of claim C6 for one state: every ready slot carries the rtptime of a
placed packet whose sequence number maps to that slot, or the previous slot's rtptime
plus `frame_size`. `placed` lists the (seqno, rtptime) pairs of the placed packets. -/
def ready_slots_stamped (ctx : raopst_t) (placed : List (Int × Int)) : Prop :=
  ∀ i, 0 ≤ i → i < BUFFER_FRAMES → (ctx.audio_buffer i).ready = true →
    (∃ p ∈ placed, BUFIDX p.1 = i ∧ (ctx.audio_buffer i).rtptime = p.2) ∨
    (ctx.audio_buffer i).rtptime
      = uint32_t ((ctx.audio_buffer (BUFIDX (i - 1))).rtptime + ctx.frame_size)

/-- One placed packet (seqno 10, rtptime 5000), a first timing reply that sets
NTP_SYNC, then 22 timing replies whose accumulated gap of 9 ms stays above GAP_THRES:
the last one performs a drift insert. -/
def drift_insert_trace : List op :=
  [op.put 0 10 5000 true [1, 2], op.timing 0 0 0] ++
    List.replicate 22 (op.timing 1000 1000 (4294967296 - MS2NTP 10))

/-- `b'` has the same rtptime stamps as `b` and no ready flag that `b` lacks. -/
def slots_kept (b b' : Int → abuf_t) : Prop :=
  ∀ j, (b' j).rtptime = (b j).rtptime ∧ ((b' j).ready = true → (b j).ready = true)

/-- An MP3 session with range replay enabled that has emitted 100000 output bytes. -/
def reconnect_session : raopst_t :=
  { (raopst_init codec_t.CODEC_MP3 false false false true 1000 false none 352 0 (-1)).get (by decide) with
    playing := true, http_count := 100000 }

/-- A GET request carrying `Range: bytes=80000-`. -/
def reconnect_request : http_request :=
  { parsed := true, HTTP_11 := false, head := false, range := some 80000, icy_metadata := 0,
    connection := none }

/-- A WAV session whose next output block wraps the tail buffer: 44 header bytes and
1489 frames of 1408 bytes have been emitted. -/
def wrap_session : raopst_t :=
  { fresh_session with playing := true, http_count := 44 + 1489 * 1408 }

/-- A session like `fresh_session` but created with the `drift` argument set. -/
def drift_session : raopst_t :=
  (raopst_init codec_t.CODEC_WAV false false true false 1000 false none 352 0 (-1)).get (by decide)

/-- Two timing replies: the first sets NTP_SYNC, the second arrives with NTP_SYNC set
and a `delta` of 9 ms. -/
def two_replies : List op :=
  [op.timing 0 0 0, op.timing 1000 1000 (4294967296 - MS2NTP 10)]

/-- The first timing reply (sets NTP_SYNC) followed by `n` replies that each leave
`gap_sum` at 9 ms, above GAP_THRES. -/
def gap_samples (n : Nat) : List op :=
  op.timing 0 0 0 :: List.replicate n (op.timing 1000 1000 (4294967296 - MS2NTP 10))

/-- A session at the drop threshold: playing with an empty buffer, NTP_SYNC set,
gap_count = 21 and gap_sum = -9. -/
def drop_session : raopst_t :=
  { playing_session with
    ab_read := 500
    synchro := { playing_session.synchro with status := 3 }
    timing := { playing_session.timing with gap_count := 21, gap_sum := -9 } }

/-- Whether a call of `buffer_put_packet` with this sequence number switches `playing`
from false to true (the start branch, lines 556-569). -/
def put_starts (ctx : raopst_t) (seqno : Int) : Bool :=
  !ctx.playing && (put_start ctx (seq_t seqno)).isSome

/-- The slot `abuf` chosen by a call of `buffer_put_packet` (`none` when the packet is
dropped before the start or is too late): the packet is placed exactly when this is
not `none`. -/
def put_slot (ctx : raopst_t) (now seqno rtptime : Int) : Option Int :=
  match put_start ctx (seq_t seqno) with
  | none => none
  | some s =>
    (put_place (if s.pause && seq_order s.flush_seqno (seq_t seqno) then
        { s with pause := false } else s) now (seq_t seqno) (uint32_t rtptime)).1

/-- Whether an operation is a play start. -/
def starts_play (ctx : raopst_t) : op → Bool
  | op.put _ seqno _ _ _ => put_starts ctx seqno
  | _ => false

/-- A sequence of operations that contains no play start. -/
def no_start (alac_decode : List Int → List Int) : raopst_t → List op → Prop
  | _, [] => True
  | ctx, o :: os => starts_play ctx o = false ∧ no_start alac_decode (step alac_decode ctx o) os

/-- `b` has the same PLAY events and the same silence flag as `a`. -/
def same_play (a b : raopst_t) : Prop := b.events = a.events ∧ b.silence = a.silence

/-- A session created with a latency of 0 ms (the latency is then taken from the first
sync packet), so that a gap is not capped before the resend request. -/
def nolatency_session : raopst_t :=
  (raopst_init codec_t.CODEC_WAV false false false false 0 false none 352 0 (-1)).get (by decide)

/-- `htonl(x)` stored in memory: the four bytes of a 32-bit value, most significant
first. -/
def htonl (x : Int) : List Int :=
  [uint32_t x / 16777216 % 256, uint32_t x / 65536 % 256, uint32_t x / 256 % 256,
   uint32_t x % 256]

/-- `htons(x)` stored in memory: the two bytes of a 16-bit value, most significant
first. -/
def htons (x : Int) : List Int := [seq_t x / 256 % 256, seq_t x % 256]

/-- The 32-byte request built by `rtp_request_timing` (lines 836-842): `0x80`,
`0x52|0x80`, `htons(7)`, a zero dummy word, 16 zero bytes, a zero word, `htonl(now)`. -/
def timing_request (now : Int) : List Int :=
  [0x80, 0xd2] ++ htons 7 ++ htonl 0 ++ List.replicate 16 0 ++ [0, 0, 0, 0] ++ htonl now

/-- `rtp_request_timing`: the request goes to the configured peer, or else to the
source address of the last packet received (`rtp_host`); `INADDR_ANY` is 0.  The
datagram is appended to `sent` on the timing socket. -/
def rtp_request_timing (ctx : raopst_t) (now : Int) : Bool × raopst_t :=
  let req := timing_request now
  let host := if ctx.peer ≠ 0 then ctx.peer else ctx.rtp_host
  -- no address from sender, need to wait for 1st packet to be received
  if host = 0 then (false, ctx)
  else (true, { ctx with sent := ctx.sent ++ [(TIMING, req)] })

/-- The characters of a C string as bytes. -/
def cstr (s : String) : List Int := s.toList.map (fun c => (c.toNat : Int))

/-- One (fmt, type, data) group of the variable arguments of `rtspcl_set_daap`: a
string entry (`'s'`), an integer entry (`'i'`), or an entry of any other type, for
which the `switch` writes nothing after the tag.  `fmt` and string data are given as
their bytes. -/
inductive daap_arg where
  | s (fmt : List Int) (data : List Int)
  | i (fmt : List Int) (data : Int)
  | other (fmt : List Int)

/-- The bytes `rtspcl_set_daap` writes for one entry (lines 338-359): the 4 tag bytes
copied by `memcpy(q, fmt, 4)`, then for `'s'` the four bytes `size >> (24 - 8*i)` and
the string, for `'i'` the bytes 0, 0, 0, 2, `data >> 8`, `data`, each stored into a
`char`. -/
def daap_write_arg : daap_arg → List Int
  | daap_arg.s fmt data =>
      fmt.take 4 ++
      [uint32_t data.length / 16777216 % 256, uint32_t data.length / 65536 % 256,
       uint32_t data.length / 256 % 256, uint32_t data.length % 256] ++ data
  | daap_arg.i fmt data => fmt.take 4 ++ [0, 0, 0, 2] ++ [data / 256 % 256, data % 256]
  | daap_arg.other fmt => fmt.take 4

/-- The loop `while (count-- && (q-str) < 1024)` of `rtspcl_set_daap`, `buf` being the
bytes written so far (`q - str` is its length). -/
def daap_loop : List daap_arg → List Int → List Int
  | [], buf => buf
  | a :: rest, buf =>
    if (buf.length : Int) < 1024 then daap_loop rest (buf ++ daap_write_arg a) else buf

/-- The body `rtspcl_set_daap` hands to `exec_request` (`str`, `q - str`): the
mandatory headers, the entries, and the `mlit` size written last into bytes 4-7. -/
def rtspcl_set_daap_body (args : List daap_arg) : List Int :=
  -- set mandatory headers first, the final size will be set at the end
  let buf := cstr "mlit" ++ [0, 0, 0, 0] ++ cstr "mikd" ++ [0, 0, 0, 1] ++ [2]
  let buf := daap_loop args buf
  -- set "mlit" object size
  let n : Int := buf.length
  buf.take 4 ++
    [(n - 8) / 16777216 % 256, (n - 8) / 65536 % 256, (n - 8) / 256 % 256, (n - 8) % 256] ++
    buf.drop 8

/-- A 32-bit size in network order (`u32 BE`), as the claim words it. -/
def BE32 (n : Int) : List Int :=
  [n / 16777216 % 256, n / 65536 % 256, n / 256 % 256, n % 256]

/-- A DAAP field as the claim words it: `tag(4) || size(u32 BE) || value`, the size
being the length of the value. -/
def daap_field (tag value : List Int) : List Int := tag ++ BE32 value.length ++ value

/-- The entry of the envelope for one argument, as the claim words it: an `'s'` entry
is the field of the string bytes, an `'i'` entry the field of the two low bytes
`hi`, `lo` of the integer. -/
def daap_entry : daap_arg → List Int
  | daap_arg.s tag value => daap_field tag value
  | daap_arg.i tag data => daap_field tag [data / 256 % 256, data % 256]
  | daap_arg.other tag => tag

/-- The DAAP envelope as the claim words it: an `mlit` field whose value is the
mandatory `mikd` field with the one byte 2, followed by the entries. -/
def daap_envelope (args : List daap_arg) : List Int :=
  daap_field (cstr "mlit") (daap_field (cstr "mikd") [2] ++ (args.map daap_entry).flatten)

/-- An argument list of `'s'` and `'i'` entries with 4-byte tags. -/
def daap_args_ok : List daap_arg → Prop
  | [] => True
  | daap_arg.s fmt _ :: rest => fmt.length = 4 ∧ daap_args_ok rest
  | daap_arg.i fmt _ :: rest => fmt.length = 4 ∧ daap_args_ok rest
  | daap_arg.other _ :: _ => False

/-! ## RTSP client (`rtsp_client.c`) -/

/-- `rtspcl_t`: the RTSP client handle.  An extension header whose key starts with the
byte 0xff is marked as deleted. -/
structure rtspcl_t where
  fd : Int
  url : String
  cseq : Int
  exthds : List (String × String)
  session : Option String
  useragent : String

/-- What the socket does during one `exec_request` call: whether `poll` reports the
socket usable, the status line (`none` when the first `http_read_line` returns no
line), the following lines for which `http_read_line` returns a line, in order, and
the bytes `recv` delivers for the body. -/
structure rtsp_reply where
  writable : Bool
  status : Option String
  lines : List String
  body : List Int

/-- Result of `exec_request`: the return value, the handle (CSeq advanced), the
request written (header text and body bytes), the entries `pkd[0..i)` of the header
array, the data pointer a continuation line left in the unused entry `pkd[i]`, and the
response body. -/
structure exec_result where
  rc : Bool
  cl : rtspcl_t
  request : Option (String × List Int)
  headers : List (String × String)
  slot : Option String
  content : Option (List Int)

/-- The second token `strtok` finds in the status line with the delimiter " ". -/
def status_token (line : String) : Option String :=
  let rest := (line.toList.dropWhile (fun c => c == ' ')).dropWhile (fun c => c != ' ')
  let rest := rest.dropWhile (fun c => c == ' ')
  if rest = [] then none else some (String.mk (rest.takeWhile (fun c => c != ' ')))

/-- `atol`: optional white space, optional sign, decimal digits. -/
def atol (s : String) : Int :=
  let cs := s.toList.dropWhile (fun c => c == ' ' || c == '\t')
  let neg := cs.head? == some '-'
  let cs := if cs.head? == some '-' || cs.head? == some '+' then cs.drop 1 else cs
  let v : Int := (cs.takeWhile Char.isDigit).foldl
    (fun acc c => acc * 10 + ((c.toNat : Int) - 48)) 0
  if neg then -v else v

/-- The header loop of `exec_request` (lines 660-686): `kd` are the entries stored so
far (their number is `i`), `slot` the data pointer of the entry `pkd[i]`, `clen` the
content length; `none` is the bad-header failure. -/
def read_headers : List String → List (String × String) → Option String → Int →
    Option (List (String × String) × Option String × Int)
  | [], kd, slot, clen => some (kd, slot, clen)
  | line :: rest, kd, _, clen =>
    if kd.length ≠ 0 ∧ line.toList.head? = some ' ' then
      -- pkd[i].data = strdup(line + j), j the number of leading spaces
      read_headers rest kd (some (String.mk (line.toList.dropWhile (fun c => c == ' ')))) clen
    else if line.toList.all (fun c => c != ':') then none
    else
      let key := String.mk (line.toList.takeWhile (fun c => c != ':'))
      let data := String.mk ((line.toList.dropWhile (fun c => c != ':')).drop 1)
      let clen := if String.mk (key.toList.map Char.toLower) = "content-length"
        then atol data else clen
      read_headers rest (kd ++ [(key, data)]) none clen

/-- `strlen` of a byte string. -/
def strlen (content : List Int) : Int := (content.takeWhile (fun b => b != 0)).length

/-- The request text written by `exec_request` (lines 586-615). -/
def request_text (p : rtspcl_t) (cmd : String) (content_type : Option String)
    (content : Option (List Int)) (length : Int) (hds : List (String × String))
    (url : Option String) : String :=
  let req := cmd ++ " " ++ url.getD p.url ++ " RTSP/1.0\r\n"
  let req := hds.foldl (fun r h => r ++ h.1 ++ ": " ++ h.2 ++ "\r\n") req
  let req := match content_type, content with
    | some ct, some c =>
      req ++ "Content-Type: " ++ ct ++ "\r\nContent-Length: " ++
        toString (if length ≠ 0 then length else strlen c) ++ "\r\n"
    | _, _ => req
  let req := req ++ "CSeq: " ++ toString (p.cseq + 1) ++ "\r\n"
  let req := req ++ "User-Agent: " ++ p.useragent ++ "\r\n"
  let req := p.exthds.foldl
    (fun r h => if h.1.toList.head? = some (Char.ofNat 255) then r
                else r ++ h.1 ++ ": " ++ h.2 ++ "\r\n") req
  let req := match p.session with
    | some s => req ++ "Session: " ++ s ++ "\r\n"
    | none => req
  req ++ "\r\n"

/-- `exec_request` on a non-null handle: send the request and, if `get_response` is
not 0, read the response. -/
def exec_request (p : rtspcl_t) (io : rtsp_reply) (cmd : String)
    (content_type : Option String) (content : Option (List Int)) (length : Int)
    (get_response : Int) (hds : List (String × String)) (url : Option String) : exec_result :=
  let fail : exec_result :=
    { rc := false, cl := p, request := none, headers := [], slot := none, content := none }
  if p.fd = -1 then fail
  else if !io.writable then fail
  else
    let text := request_text p cmd content_type content length hds url
    let body : List Int := match content_type, content with
      | some _, some c => c.take (if length ≠ 0 then length else strlen c).toNat
      | _, _ => []
    let cl := { p with cseq := p.cseq + 1 }
    let sent : exec_result :=
      { rc := true, cl := cl, request := some (text, body), headers := [], slot := none,
        content := none }
    if get_response = 0 then sent
    else
      match io.status with
      | none => if get_response = 1 then { sent with rc := false } else sent
      | some line =>
        if status_token line ≠ some "200" ∧ get_response = 1 then { sent with rc := false }
        else
          match read_headers io.lines [] none 0 with
          | none => { sent with rc := false }
          | some (kd, slot, clen) =>
            { sent with headers := kd, slot := slot,
                        content := if clen ≠ 0 then some io.body else none }

/-- `rtspcl_announce_sdp` (`none` is the null handle). -/
def rtspcl_announce_sdp (p : Option rtspcl_t) (io : rtsp_reply) (sdp : String) : Bool :=
  match p with
  | none => false
  | some p => (exec_request p io "ANNOUNCE" (some "application/sdp") (some (cstr sdp)) 0 1
      [] none).rc

/-- `rtspcl_setup`: `kd_lookup` and `strtrim` are the external helpers; the result is
the return value and the session id stored on success. -/
def rtspcl_setup (kd_lookup : List (String × String) → String → Option String)
    (strtrim : String → String) (p : Option rtspcl_t) (io : rtsp_reply)
    (ctrl_lport time_lport : Int) : Bool × Option String :=
  match p with
  | none => (false, none)
  | some p =>
    let hds := [("Transport",
      "RTP/AVP/UDP;unicast;interleaved=0-1;mode=record;control_port=" ++ toString ctrl_lport ++
        ";timing_port=" ++ toString time_lport)]
    let r := exec_request p io "SETUP" none none 0 1 hds none
    if !r.rc then (false, p.session)
    else match kd_lookup r.headers "Session" with
      | some temp => (true, some (strtrim temp))
      | none => (false, p.session)

/-- `rtspcl_record`. -/
def rtspcl_record (p : Option rtspcl_t) (io : rtsp_reply) (start_seq start_ts : Int) : Bool :=
  match p with
  | none => false
  | some p =>
    match p.session with
    | none => false
    | some _ =>
      (exec_request p io "RECORD" none none 0 1
        [("Range", "npt=0-"),
         ("RTP-Info", "seq=" ++ toString start_seq ++ ";rtptime=" ++ toString start_ts)]
        none).rc

/-- `rtspcl_set_parameter`. -/
def rtspcl_set_parameter (p : Option rtspcl_t) (io : rtsp_reply) (param : String) : Bool :=
  match p with
  | none => false
  | some p => (exec_request p io "SET_PARAMETER" (some "text/parameters") (some (cstr param))
      0 1 [] none).rc

/-- `rtspcl_set_artwork`: `exec_request` is called with `get_response` = 2. -/
def rtspcl_set_artwork (p : Option rtspcl_t) (io : rtsp_reply) (timestamp : Int)
    (content_type : String) (size : Int) (image : List Int) : Bool :=
  match p with
  | none => false
  | some p => (exec_request p io "SET_PARAMETER" (some content_type) (some image) size 2
      [("RTP-Info", "rtptime=" ++ toString timestamp)] none).rc

/-- `rtspcl_set_daap` on a non-null handle, with everything the call does: the return
value, the handle and the request written to the socket.  The body built in the
1024-byte buffer (`str`, see `rtspcl_set_daap_body`) is handed to `exec_request` with
its length `q - str` and `get_response` = 2. -/
def rtspcl_set_daap_exec (p : rtspcl_t) (io : rtsp_reply) (timestamp : Int)
    (args : List daap_arg) : exec_result :=
  exec_request p io "SET_PARAMETER" (some "application/x-dmap-tagged")
    (some (rtspcl_set_daap_body args)) (rtspcl_set_daap_body args).length 2
    [("RTP-Info", "rtptime=" ++ toString timestamp)] none

/-- `rtspcl_set_daap`: the return value (`none` is the null handle). -/
def rtspcl_set_daap (p : Option rtspcl_t) (io : rtsp_reply) (timestamp : Int)
    (args : List daap_arg) : Bool :=
  match p with
  | none => false
  | some p => (rtspcl_set_daap_exec p io timestamp args).rc

/-- `rtspcl_options`. -/
def rtspcl_options (p : Option rtspcl_t) (io : rtsp_reply) : Bool :=
  match p with
  | none => false
  | some p => (exec_request p io "OPTIONS" none none 0 1 [] (some "*")).rc

/-- `rtspcl_flush`. -/
def rtspcl_flush (p : Option rtspcl_t) (io : rtsp_reply) (seq_number timestamp : Int) : Bool :=
  match p with
  | none => false
  | some p =>
    (exec_request p io "FLUSH" none none 0 1
      [("RTP-Info", "seq=" ++ toString seq_number ++ ";rtptime=" ++ toString timestamp)]
      none).rc

/-- `rtspcl_teardown`. -/
def rtspcl_teardown (p : Option rtspcl_t) (io : rtsp_reply) : Bool :=
  match p with
  | none => false
  | some p => (exec_request p io "TEARDOWN" none none 0 1 [] none).rc

/-- A connected client with a session. -/
def connected_client : rtspcl_t :=
  { fd := 5, url := "rtsp://192.168.1.10/3413821438", cseq := 4, exthds := [],
    session := some "1", useragent := "iTunes/7.6.2 (Windows; N;)" }

/-- A response whose status is 500 and whose header lines are well formed. -/
def reply_500 : rtsp_reply :=
  { writable := true, status := some "RTSP/1.0 500 Internal Server Error",
    lines := ["CSeq: 5", "Server: AirTunes/105.1"], body := [] }

/-- The response `reply_continued` without its continuation line. -/
def reply_plain : rtsp_reply :=
  { writable := true, status := some "RTSP/1.0 200 OK",
    lines := ["CSeq: 5", "Public: ANNOUNCE, SETUP", "Server: AirTunes/105.1"], body := [] }

/-- A 200 response in which the `Public` header is continued on a second line. -/
def reply_continued : rtsp_reply :=
  { writable := true, status := some "RTSP/1.0 200 OK",
    lines := ["CSeq: 5", "Public: ANNOUNCE, SETUP", " RECORD, FLUSH", "Server: AirTunes/105.1"],
    body := [] }

/-! ## ICY metadata in the HTTP main loop -/

/-- The strings of `ctx->metadata` read by the HTTP main loop, as their bytes before
the terminating NUL. -/
structure raopsv_metadata_s where
  artist : List Int
  title : List Int
  artwork : List Int

/-- `send_data`: the bytes written to the socket for `len` bytes at `data`, every
`send` taking all it is given.  `itoa` is the external conversion of the chunk length
to hexadecimal text. -/
def send_data (itoa : Int → List Int) (chunked : Bool) (data : Int → Int) (len : Int) :
    List Int :=
  let body := (List.range len.toNat).map (fun (k : Nat) => data (k : Int))
  if chunked then itoa len ++ cstr "\r\n" ++ body ++ cstr "\r\n" else body

/-- The characters `sprintf` writes after the placeholder "N" (lines 1151-1155). -/
def icy_text (m : raopsv_metadata_s) : List Int :=
  let t := cstr "StreamTitle='" ++ m.artist ++ (if m.artist ≠ [] then cstr " - " else []) ++
    m.title ++ cstr "';"
  if m.artwork ≠ [] then t ++ cstr "StreamURL='" ++ m.artwork ++ cstr "';" else t

/-- The array `char buffer[ICY_LEN_MAX]` when it is sent.  `stack` is the memory the
array occupies on entry of the block; the array has no initialiser.  With an update
pending `sprintf` has written the placeholder, the text and a terminating NUL;
`buffer[0] = len_16` then stores the length byte. -/
def icy_buffer (stack : Int → Int) (text : Option (List Int)) (len_16 : Int) : Int → Int :=
  fun j =>
    if j = 0 then len_16 % 256
    else match text with
      | none => stack j
      | some t =>
        if 1 ≤ j ∧ j ≤ t.length then t.getD (j - 1).toNat 0
        else if j = t.length + 1 then 0
        else stack j

/-- The send part of one turn of the HTTP main loop (lines 1128-1185) for an output
block of `len` bytes at `inbuf`: the new state and the bytes written to the socket.
`icy.interval` and `icy.remain` are `size_t` (taken as 64 bits). -/
def http_send (itoa : Int → List Int) (ctx : raopst_t) (m : raopsv_metadata_s)
    (stack : Int → Int) (inbuf : Int → Int) (len : Int) : raopst_t × List Int :=
  if len ≠ 0 then
    let chunked := decide (ctx.http_length = -3)
    -- store data for a potential re-send
    let ctx := http_tail_store ctx inbuf len
    -- check if ICY sending is active (len < ICY_INTERVAL)
    if ctx.icy.interval ≠ 0 ∧ uint64_t len > ctx.icy.remain then
      let len_16 : Int := if ctx.icy.updated then ((icy_text m).length + 15) / 16 else 0
      let buffer := icy_buffer stack (if ctx.icy.updated then some (icy_text m) else none)
        len_16
      let ctx := { ctx with icy := { ctx.icy with updated := false } }
      -- send remaining data first
      let offset := int32_t ctx.icy.remain
      let out := if offset ≠ 0 then send_data itoa chunked inbuf offset else []
      let len := len - offset
      -- then send icy data
      let out := out ++ send_data itoa chunked buffer (len_16 * 16 + 1)
      let ctx := { ctx with icy := { ctx.icy with remain := ctx.icy.interval } }
      let out := out ++ send_data itoa chunked (fun k => inbuf (offset + k)) len
      -- update remaining count with desired length
      ({ ctx with icy := { ctx.icy with remain := uint64_t (ctx.icy.remain - len) } }, out)
    else
      let out := send_data itoa chunked inbuf len
      -- update remaining count with desired length
      (if ctx.icy.interval ≠ 0 then
          { ctx with icy := { ctx.icy with remain := uint64_t (ctx.icy.remain - len) } }
        else ctx, out)
  else (ctx, [])

/-- The chunk length in lower-case hexadecimal digits. -/
def itoa16 (n : Int) : List Int := (Nat.toDigits 16 n.toNat).map (fun c => (c.toNat : Int))

/-- An MP3 session streaming with ICY metadata, 16380 body bytes after the last
metadata block, with a metadata update pending. -/
def icy_session : raopst_t :=
  { (raopst_init codec_t.CODEC_MP3 true false false false 1000 false none 352 0 (-1)).get (by decide) with
    playing := true, http_ready := true, http_count := 16380,
    icy := { interval := ICY_INTERVAL, remain := 4, updated := true } }

/-- Metadata with the title "AB", no artist and no artwork. -/
def title_AB : raopsv_metadata_s := { artist := [], title := cstr "AB", artwork := [] }

/-! ## Port allocation in `raopst_init` -/

/-- Conversion of a C integer to `unsigned short`. -/
def unsigned_short (x : Int) : Int := x % 65536

/-- The socket type passed to `bind_socket`. -/
inductive sock_mode where
  | SOCK_DGRAM
  | SOCK_STREAM
  deriving DecidableEq

/-- The local `port` struct of `raopst_init`. -/
structure port_s where
  count : Int
  offset : Int

/-- State after one bind loop: the `port` struct, the ports handed to `bind_socket` so
far (oldest first), and the port and socket left in the socket entry. -/
structure bind_result where
  port : port_s
  tried : List Int
  lport : Int
  sock : Int

/-- One `do ... while (sock < 0 && port.count < port_range)` loop of `raopst_init`
(lines 371-374 and 382-385).  `bind_socket n port mode` is the external function at
its call number `n`: it returns the socket and the port it leaves in `*port`.  `none`
means that the fuel ran out. -/
def bind_loop (bind_socket : Nat → Int → sock_mode → Int × Int) (mode : sock_mode)
    (port_base port_range : Int) : Nat → port_s → List Int → Option bind_result
  | 0, _, _ => none
  | fuel + 1, port, tried =>
    let lport := unsigned_short (port_base + (port.offset + port.count) % port_range)
    let port := { port with count := unsigned_short (port.count + 1) }
    let r := bind_socket tried.length lport mode
    if r.1 < 0 ∧ port.count < port_range then
      bind_loop bind_socket mode port_base port_range fuel port (tried ++ [lport])
    else some { port := port, tried := tried ++ [lport], lport := r.2, sock := r.1 }

/-- The loop `for (int i = 0; rc && i < 3; i++)` over the UDP sockets (lines 370-379),
`n` being the number of sockets still to bind: the flag `rc`, the `port` struct, the
ports tried and the (lport, sock) entries written. -/
def bind_udp (bind_socket : Nat → Int → sock_mode → Int × Int) (port_base port_range : Int) :
    Nat → Bool → port_s → List Int → Option (Bool × port_s × List Int × List (Int × Int))
  | 0, rc, port, tried => some (rc, port, tried, [])
  | n + 1, rc, port, tried =>
    if rc then
      match bind_loop bind_socket sock_mode.SOCK_DGRAM port_base port_range 65537 port tried with
      | none => none
      | some r =>
        match bind_udp bind_socket port_base port_range n (rc && decide (r.sock > 0)) r.port
            r.tried with
        | none => none
        | some (rc, port, tried, socks) => some (rc, port, tried, (r.lport, r.sock) :: socks)
    else some (rc, port, tried, [])

/-- Result of the port allocation: the flag `rc`, the UDP entries written, the HTTP
port and listener, and every port handed to `bind_socket`, oldest first. -/
structure ports_result where
  rc : Bool
  rtp_sockets : List (Int × Int)
  hport : Int
  http_listener : Int
  tried : List Int
  deriving DecidableEq

/-- The port allocation of `raopst_init` (lines 304-308 and 370-388).  `rand` is the
value of `rand()` (the C remainder is `Int.tmod`), `rc` the flag before the UDP loop, `listen_ok` tells whether
`listen` returns 0.  `port_base` and `port_range` are `unsigned short`.  `none` means
that `rand() % port_range` divides by zero. -/
def raopst_init_ports (rand : Int) (bind_socket : Nat → Int → sock_mode → Int × Int)
    (listen_ok : Bool) (port_base port_range : Int) (rc : Bool) : Option ports_result :=
  let port_range := if port_base = 0 then 1 else port_range
  if port_range = 0 then none
  else
    let port : port_s := { count := 0, offset := unsigned_short (Int.tmod rand port_range) }
    match bind_udp bind_socket port_base port_range 3 rc port [] with
    | none => none
    | some (rc, port, tried, socks) =>
      -- create http port and start listening
      match bind_loop bind_socket sock_mode.SOCK_STREAM port_base port_range 65537 port
          tried with
      | none => none
      | some r =>
        some { rc := rc && decide (r.sock > 0) && listen_ok, rtp_sockets := socks,
               hport := r.lport, http_listener := r.sock, tried := r.tried }

/-- The `k`-th candidate port, counted from 0: `port_base` plus the offset advanced by
`k` modulo `port_range`, stored in an `unsigned short`. -/
def candidate (port_base port_range offset : Int) (k : Nat) : Int :=
  unsigned_short (port_base + (offset + (k : Int) % 65536) % port_range)

/-- A `bind_socket` that fails on the ports listed in `busy`. -/
def bind_busy (busy : List Int) (n : Nat) (port : Int) (_ : sock_mode) : Int × Int :=
  if port ∈ busy then (-1, port) else (10 + n, port)

/-- What the bind loops keep: the offset is unchanged, `port.count` is the number of
ports tried so far as an `unsigned short`, and the ports tried are the candidates in
order. -/
def ports_inv (port_base port_range off : Int) (port : port_s) (tried : List Int) : Prop :=
  port.offset = off ∧ port.count = (tried.length : Int) % 65536 ∧
  tried = (List.range tried.length).map (candidate port_base port_range off)

/-- A playing session whose fill is 1101 frames: `ab_write` = 2000, `ab_read` = 900. -/
def overrun_session : raopst_t :=
  { fresh_session with playing := true, ab_write := 2000, ab_read := 900 }

/-- The value `playtime` computed by `_buffer_get_frame` (line 926) for the slot at
`ab_read`. -/
def frame_playtime (ctx : raopst_t) : Int :=
  uint32_t (ctx.synchro.time +
    Int.tdiv (int32_t (int32_t ((ctx.audio_buffer (BUFIDX ctx.ab_read)).rtptime
      - ctx.synchro.rtp) * 1000)) 44100)

/-- A playing session with `http_fill` set, both sync bits set and an empty buffer
(`ab_write` = 100, `ab_read` = 101), slot 100 carrying rtptime 35200. -/
def underflow_session : raopst_t :=
  { (raopst_init codec_t.CODEC_WAV false false false false 1000 true none 352 0 (-1)).get (by decide) with
    playing := true, ab_write := 100, ab_read := 101,
    synchro := { rtp := 0, time := 0, status := 3, first := false, required := false },
    audio_buffer := fun i =>
      { ready := false, rtptime := if i = 100 then 35200 else 0, last_resend := 0,
        data := [], len := 0 } }

/-- The priming of `silence_count` when `http_thread_func` accepts a connection
(lines 1044-1051); `silence_count` is a `uint32_t`, `buf_fill` a `short`. -/
def http_accept (ctx : raopst_t) : raopst_t :=
  let ctx := { ctx with silence_count := uint32_t ctx.delay }
  if ctx.playing then
    let buf_fill := int16_t (ctx.ab_write - ctx.ab_read + 1)
    if buf_fill > 0 then
      { ctx with
        silence_count := uint32_t (ctx.silence_count - min ctx.silence_count buf_fill) }
    else { ctx with silence_count := 0 }
  else ctx

/-- A playing session with a delay of 10 frames and an empty buffer (`ab_write` = 100,
`ab_read` = 101). -/
def delay_session : raopst_t :=
  { fresh_session with delay := 10, playing := true, ab_write := 100, ab_read := 101 }

/-- The `case 0x54` branch of `rtp_thread_func` (lines 714-746): a sync packet with
first byte `byte0` and the fields `rtp_now_latency`, `remote` (64-bit NTP) and
`rtp_now`, received when `gettime_ms()` is `now`.  `count` is the local countdown to
the next timing request; the result is the new state and the new countdown. -/
def sync_packet (ctx : raopst_t) (now byte0 rtp_now_latency remote rtp_now count : Int) :
    raopst_t × Int :=
  -- re-align timestamp and expected local playback time
  let ctx := if ctx.latency = 0 then
      { ctx with latency := int32_t (uint32_t (rtp_now - rtp_now_latency)) }
    else ctx
  let ctx := { ctx with
    synchro := { ctx.synchro with
      rtp := uint32_t (rtp_now - ctx.latency)
      time := uint32_t (uint64_t (ctx.timing.local_
        + uint32_t (NTP2MS (uint64_t (remote - ctx.timing.remote))))) } }
  -- now we are synced on RTP frames
  let ctx := { ctx with
    synchro := { ctx.synchro with status := bit_or ctx.synchro.status RTP_SYNC } }
  -- 1st sync packet received (signals a restart of playback)
  let ctx := if bit_and byte0 16 ≠ 0 then
      { ctx with synchro := { ctx.synchro with first := true } }
    else ctx
  if count = 0 then ((rtp_request_timing ctx now).2, 3) else (ctx, count - 1)

/-- An MP3 session with ICY metadata and range replay enabled that has emitted
3000000 output bytes. -/
def icy_replay_session : raopst_t :=
  { (raopst_init codec_t.CODEC_MP3 true false false true 1000 false none 352 0 (-1)).get (by decide) with
    playing := true, http_count := 3000000 }

/-- A GET request carrying `Range: bytes=2900000-` and `Icy-MetaData: 1`. -/
def icy_replay_request : http_request :=
  { parsed := true, HTTP_11 := false, head := false, range := some 2900000, icy_metadata := 1,
    connection := none }

/-- The state in which `handle_http` enters the replay loop for `icy_replay_session`
and `icy_replay_request`. -/
def icy_replay_entry : raopst_t :=
  { icy_replay_session with
    icy := { interval := ICY_INTERVAL, remain := ICY_INTERVAL, updated := false },
    silence_count := 0 }

/-- Packet 0 starts playback, packet 32767 follows it (`ab_read` = 0, `ab_write` =
32767), the first timing reply sets NTP_SYNC and 21 replies with a gap of 9 ms are
counted: the next such reply performs a drift insert. -/
def antipodal_trace : List op :=
  [op.put 0 0 0 true [1], op.put 8 32767 11533984 false [1]] ++ gap_samples 21

/-- Whether an operation places a decoded frame that differs from the all-zero frame:
a packet that is placed (as the start of playback or while playing) and whose decoded
payload has a non-zero byte. -/
def places_loud (alac_decode : List Int → List Int) (ctx : raopst_t) : op → Bool
  | op.put now seqno rtptime _ data =>
      (put_slot ctx now seqno rtptime).isSome && memcmp_silence (alac_decode data)
  | _ => false

/-- A sequence of operations none of which places a frame that differs from the
all-zero frame. -/
def all_quiet (alac_decode : List Int → List Int) : raopst_t → List op → Prop
  | _, [] => True
  | ctx, o :: os =>
    places_loud alac_decode ctx o = false ∧ all_quiet alac_decode (step alac_decode ctx o) os

/-- A 200 response with one header line. -/
def reply_200 : rtsp_reply :=
  { writable := true, status := some "RTSP/1.0 200 OK", lines := ["CSeq: 5"], body := [] }

end Raop

/-! ## Theorems -/

namespace Raop

/-- C1 (counterexample): for the pair a = 0, b = 0x8000 neither `seq_order a b` nor
`seq_order b a` holds although a ≠ b, so the stated identity fails there. -/
theorem C1_seq_order_antipodal_counterexample :
    ¬ ((seq_order 0 32768 == !seq_order 32768 0) || decide ((0 : Int) = 32768)) = true := by
  decide

/-- C1 (amended): for 16-bit sequence numbers a ≠ b whose distance is not 0x8000,
exactly one of `seq_order a b` and `seq_order b a` holds; at distance 0x8000 both are
false. -/
theorem C1_seq_order_antisymm (a b : Int) (ha : 0 ≤ a ∧ a < 65536) (hb : 0 ≤ b ∧ b < 65536)
    (hne : a ≠ b) :
    ((b - a) % 65536 ≠ 32768 → seq_order a b = !seq_order b a) ∧
    ((b - a) % 65536 = 32768 → seq_order a b = false ∧ seq_order b a = false) := by
  unfold seq_order int16_t seq_t
  constructor
  · intro h
    by_cases h1 : 0 < (b % 65536 - a % 65536 + 32768) % 65536 - 32768 <;>
    by_cases h2 : 0 < (a % 65536 - b % 65536 + 32768) % 65536 - 32768 <;>
    simp [h1, h2] <;> omega
  · intro h
    constructor <;> simp <;> omega

/-- C1 witness: at a = 3, b = 65000 exactly one order holds, and at a = 0, b = 0x8000
neither does. -/
theorem C1_seq_order_antisymm_witness :
    (seq_order 3 65000 = !seq_order 65000 3) ∧
    (seq_order 0 32768 = false ∧ seq_order 32768 0 = false) :=
  ⟨(C1_seq_order_antisymm 3 65000 (by decide) (by decide) (by decide)).1 (by decide),
   (C1_seq_order_antisymm 0 32768 (by decide) (by decide) (by decide)).2 (by decide)⟩

/-- Round trip of the two clock macros, reduced to one division and one
multiplication. -/
theorem NTP2MS_MS2NTP_eq (x : Int) (h0 : 0 ≤ x) (h1 : x < 4294967296) :
    NTP2MS (MS2NTP x) = ((x * 4194304 / 1000) * 1000) / 4194304 := by
  unfold NTP2MS MS2NTP uint64_t
  have e1 : x % 18446744073709551616 = x := by omega
  have e2 : x * 4194304 % 18446744073709551616 = x * 4194304 := by omega
  rw [e1, e2]
  have e3 : x * 4194304 / 1000 * 1024 % 18446744073709551616
      = x * 4194304 / 1000 * 1024 := by omega
  rw [e3]
  omega

/-- C2 (counterexample): one millisecond does not survive the round trip. -/
theorem C2_roundtrip_counterexample : NTP2MS (MS2NTP 1) ≠ 1 := by
  decide

/-- C2 (amended): for 0 ≤ x < 2^32 the round trip `NTP2MS (MS2NTP x)` returns x when x
is a multiple of 125 and x - 1 otherwise. -/
theorem C2_roundtrip_amended (x : Int) (h0 : 0 ≤ x) (h1 : x < 4294967296) :
    (x % 125 = 0 → NTP2MS (MS2NTP x) = x) ∧
    (x % 125 ≠ 0 → NTP2MS (MS2NTP x) = x - 1) := by
  rw [NTP2MS_MS2NTP_eq x h0 h1]
  constructor
  · intro h
    omega
  · intro h
    have hr : x * 4194304 % 1000 ≠ 0 := by omega
    omega

/-- C2 witness: 1000 ms survives the round trip, 7 ms comes back as 6 ms. -/
theorem C2_roundtrip_amended_witness :
    NTP2MS (MS2NTP 1000) = 1000 ∧ NTP2MS (MS2NTP 7) = 7 - 1 :=
  ⟨(C2_roundtrip_amended 1000 (by decide) (by decide)).1 (by decide),
   (C2_roundtrip_amended 7 (by decide) (by decide)).2 (by decide)⟩

/-! ### C3: buffer fill -/

/-- A resend request leaves both cursors alone. -/
theorem rtp_request_resend_ab (ctx : raopst_t) (a b : Int) :
    (rtp_request_resend ctx a b).2.ab_read = ctx.ab_read ∧
    (rtp_request_resend ctx a b).2.ab_write = ctx.ab_write := by
  unfold rtp_request_resend
  simp only []
  split <;> simp

/-- Re-requesting one slot leaves both cursors alone. -/
theorem resend_slot_ab (ctx : raopst_t) (now i : Int) :
    (resend_slot ctx now i).ab_read = ctx.ab_read ∧
    (resend_slot ctx now i).ab_write = ctx.ab_write := by
  unfold resend_slot
  simp only []
  split
  · simp [rtp_request_resend_ab]
  · simp

/-- The catch-up loop leaves both cursors alone. -/
theorem catch_up_ab (now n : Int) (k : Nat) : ∀ (i : Int) (ctx : raopst_t),
    (catch_up now n k i ctx).ab_read = ctx.ab_read ∧
    (catch_up now n k i ctx).ab_write = ctx.ab_write := by
  induction k with
  | zero => intro i ctx; simp [catch_up]
  | succ k ih =>
    intro i ctx
    unfold catch_up
    split
    · rw [(ih _ _).1, (ih _ _).2]; exact resend_slot_ab ctx now i
    · simp

/-- The look-ahead resend loop leaves both cursors alone. -/
theorem resend_ahead_ab (now : Int) (k : Nat) : ∀ (i : Int) (ctx : raopst_t),
    (resend_ahead now k i ctx).ab_read = ctx.ab_read ∧
    (resend_ahead now k i ctx).ab_write = ctx.ab_write := by
  induction k with
  | zero => intro i ctx; simp [resend_ahead]
  | succ k ih =>
    intro i ctx
    unfold resend_ahead
    split
    · rw [(ih _ _).1, (ih _ _).2]; exact resend_slot_ab ctx now i
    · simp

/-- The skip loop never makes the fill negative and never raises it. -/
theorem skip_frames_fill (n : Nat) : ∀ ctx : raopst_t, 0 ≤ buf_fill ctx →
    0 ≤ buf_fill (skip_frames n ctx) ∧ buf_fill (skip_frames n ctx) ≤ buf_fill ctx := by
  induction n with
  | zero => intro ctx h; simp [skip_frames, h]
  | succ n ih =>
    intro ctx h
    unfold skip_frames
    split
    · rename_i hc
      have hs := hc.2
      simp only [seq_order, seq_t, int16_t, decide_eq_true_eq] at hs
      simp only [buf_fill, int16_t] at h
      have h' : 0 ≤ buf_fill { ctx with
          audio_buffer := Function.update ctx.audio_buffer (BUFIDX ctx.ab_read)
            { ctx.audio_buffer (BUFIDX ctx.ab_read) with ready := false }
          ab_read := seq_t (ctx.ab_read + 1)
          skip := ctx.skip - 1 } := by
        simp only [buf_fill, int16_t, seq_t]; omega
      have := ih _ h'
      refine ⟨this.1, le_trans this.2 ?_⟩
      simp only [buf_fill, int16_t, seq_t]; omega
    · exact ⟨h, le_refl _⟩

/-- After the overrun step the fill stays within 0 and BUFFER_FRAMES - 1. -/
theorem get_frame_body_fill (ctx : raopst_t) (now : Int) (h0 : 0 ≤ buf_fill ctx) :
    0 ≤ buf_fill (get_frame_body ctx now).2 ∧
    buf_fill (get_frame_body ctx now).2 ≤ BUFFER_FRAMES - 1 := by
  unfold get_frame_body get_frame_play overrun_cap zero_fill advance_write stamp_empty
  simp only [buf_fill, int16_t, BUFFER_FRAMES] at h0 ⊢
  split_ifs <;>
  simp only [(catch_up_ab _ _ _ _ _).1, (catch_up_ab _ _ _ _ _).2,
      (resend_ahead_ab _ _ _ _).1, (resend_ahead_ab _ _ _ _).2, seq_t] <;>
  omega

/-- The puller body never raises the fill. -/
theorem get_frame_body_le (ctx : raopst_t) (now : Int) (h0 : 0 ≤ buf_fill ctx) :
    buf_fill (get_frame_body ctx now).2 ≤ buf_fill ctx := by
  unfold get_frame_body get_frame_play overrun_cap zero_fill advance_write stamp_empty
  simp only [buf_fill, int16_t, BUFFER_FRAMES] at h0 ⊢
  split_ifs <;>
  simp only [(catch_up_ab _ _ _ _ _).1, (catch_up_ab _ _ _ _ _).2,
      (resend_ahead_ab _ _ _ _).1, (resend_ahead_ab _ _ _ _).2, seq_t] <;>
  omega

/-- Fill bounds of `_buffer_get_frame`. -/
theorem buffer_get_frame_fill (ctx : raopst_t) (now : Int) (h0 : 0 ≤ buf_fill ctx) :
    0 ≤ buf_fill (_buffer_get_frame ctx now).2 ∧
    buf_fill (_buffer_get_frame ctx now).2 ≤ buf_fill ctx ∧
    (ctx.playing = true → ctx.silence_count = 0 → ctx.pause = false →
      buf_fill (_buffer_get_frame ctx now).2 ≤ BUFFER_FRAMES - 1) := by
  have hs := skip_frames_fill 32768 ctx h0
  have hb := get_frame_body_fill (skip_frames 32768 ctx) now hs.1
  have hb2 := get_frame_body_le (skip_frames 32768 ctx) now hs.1
  unfold _buffer_get_frame
  refine ⟨?_, ?_, ?_⟩
  · split_ifs <;> first | exact h0 | exact hb.1
  · split_ifs <;> first | exact le_refl _ | exact le_trans hb2 hs.2
  · intro hp hc hpa
    simp only [hp, hc, hpa]
    exact hb.2

/-- A drift adjustment lowers the fill or raises it by exactly one (insert). -/
theorem drift_adjust_fill (ctx : raopst_t) (h0 : 0 ≤ buf_fill ctx)
    (h1 : buf_fill ctx ≤ BUFFER_FRAMES) :
    0 ≤ buf_fill (drift_adjust ctx) ∧
    (buf_fill (drift_adjust ctx) ≤ buf_fill ctx ∨
      ((drift_adjust ctx).ab_read = seq_t (ctx.ab_read - 1) ∧
        buf_fill (drift_adjust ctx) = buf_fill ctx + 1)) := by
  unfold drift_adjust
  simp only [buf_fill, int16_t, BUFFER_FRAMES, seq_order, seq_t, decide_eq_true_eq] at h0 h1 ⊢
  split_ifs <;> (try dsimp only) <;>
  first
    | exact ⟨by omega, Or.inl (by omega)⟩
    | exact ⟨by omega, Or.inr ⟨rfl, by omega⟩⟩

/-- Fill bounds of a timing reply. -/
theorem timing_reply_fill (ctx : raopst_t) (now reference remote : Int)
    (h0 : 0 ≤ buf_fill ctx) (h1 : buf_fill ctx ≤ BUFFER_FRAMES) :
    0 ≤ buf_fill (timing_reply ctx now reference remote) ∧
    (buf_fill (timing_reply ctx now reference remote) ≤ buf_fill ctx ∨
      ((timing_reply ctx now reference remote).ab_read = seq_t (ctx.ab_read - 1) ∧
        buf_fill (timing_reply ctx now reference remote) = buf_fill ctx + 1)) := by
  unfold timing_reply
  simp only []
  split_ifs with hr hd
  · exact ⟨h0, Or.inl (le_refl _)⟩
  · exact drift_adjust_fill _ h0 h1
  · exact ⟨h0, Or.inl (le_refl _)⟩

/-- `raopst_flush` does not move the cursors. -/
theorem raopst_flush_fill (ctx : raopst_t) (now seqno rtptime : Int) (silence : Bool) :
    buf_fill (raopst_flush ctx now seqno rtptime silence).2 = buf_fill ctx := by
  unfold raopst_flush encoder_close
  simp only [buf_fill]
  split_ifs <;> rfl

/-- C3 (counterexample): from the initial state, an in-order packet 0 followed by
packet 2000 leaves a fill of 2001, above BUFFER_FRAMES. -/
theorem C3_fill_counterexample :
    ¬ (0 ≤ buf_fill (run id fresh_session
          [op.put 0 0 7000 true [], op.put 23 2000 711000 false []]) ∧
       buf_fill (run id fresh_session
          [op.put 0 0 7000 true [], op.put 23 2000 711000 false []]) ≤ BUFFER_FRAMES) := by
  decide

/-- C3 (amended): from a state with fill ≥ 0, `_buffer_get_frame` keeps the fill
non-negative, never raises it, and leaves at most BUFFER_FRAMES - 1 once it gets past
the silence and pause step; `raopst_flush` leaves the fill unchanged; and from a fill
in [0, BUFFER_FRAMES] a timing reply keeps the fill non-negative and either does not
raise it or is a drift insert that raises it by exactly one. -/
theorem C3_fill_amended (ctx : raopst_t) (now seqno rtptime reference remote : Int)
    (silence : Bool) (h0 : 0 ≤ buf_fill ctx) :
    (0 ≤ buf_fill (_buffer_get_frame ctx now).2 ∧
      buf_fill (_buffer_get_frame ctx now).2 ≤ buf_fill ctx ∧
      (ctx.playing = true → ctx.silence_count = 0 → ctx.pause = false →
        buf_fill (_buffer_get_frame ctx now).2 ≤ BUFFER_FRAMES - 1)) ∧
    buf_fill (raopst_flush ctx now seqno rtptime silence).2 = buf_fill ctx ∧
    (buf_fill ctx ≤ BUFFER_FRAMES →
      0 ≤ buf_fill (timing_reply ctx now reference remote) ∧
      (buf_fill (timing_reply ctx now reference remote) ≤ buf_fill ctx ∨
        ((timing_reply ctx now reference remote).ab_read = seq_t (ctx.ab_read - 1) ∧
          buf_fill (timing_reply ctx now reference remote) = buf_fill ctx + 1))) :=
  ⟨buffer_get_frame_fill ctx now h0, raopst_flush_fill ctx now seqno rtptime silence,
   fun h1 => timing_reply_fill ctx now reference remote h0 h1⟩

/-- C3 witness: the state of the counterexample (fill 2001) is brought back below
BUFFER_FRAMES by the next `_buffer_get_frame`. -/
theorem C3_fill_amended_witness :
    0 ≤ buf_fill (run id fresh_session
          [op.put 0 0 7000 true [], op.put 23 2000 711000 false []]) ∧
    buf_fill (_buffer_get_frame (run id fresh_session
          [op.put 0 0 7000 true [], op.put 23 2000 711000 false []]) 50).2
      ≤ BUFFER_FRAMES - 1 :=
  ⟨by decide,
   (C3_fill_amended (run id fresh_session
      [op.put 0 0 7000 true [], op.put 23 2000 711000 false []]) 50 0 0 0 0 false
      (by decide)).1.2.2 (by decide) (by decide) (by decide)⟩


/-! ### C4, C5: flush -/

/-- Converting the second argument to `seq_t` first does not change `seq_order`. -/
theorem seq_order_seq_t (a b : Int) : seq_order a (seq_t b) = seq_order a b := by
  simp only [seq_order, seq_t, Int.emod_emod_of_dvd b (by decide : (65536 : Int) ∣ 65536)]

/-- While not playing with a pending flush mark, a packet that is not after the mark
is dropped without touching the state. -/
theorem put_dropped_before_flush (alac_decode : List Int → List Int) (ctx : raopst_t)
    (now q rt : Int) (first : Bool) (data : List Int)
    (hp : ctx.playing = false) (hf : ctx.flush_seqno ≠ -1)
    (hq : seq_order ctx.flush_seqno q = false) :
    buffer_put_packet alac_decode ctx now q rt first data = ctx := by
  unfold buffer_put_packet put_start
  simp [hp, hf, seq_order_seq_t, hq]

/-- State left by an accepted flush without silence. -/
theorem raopst_flush_accepted (ctx : raopst_t) (now S rt : Int)
    (hacc : (raopst_flush ctx now S rt false).1 = true) :
    (raopst_flush ctx now S rt false).2.playing = false ∧
    (raopst_flush ctx now S rt false).2.flush_seqno = S ∧
    (raopst_flush ctx now S rt false).2.synchro.required = ctx.synchro.required ∧
    (raopst_flush ctx now S rt false).2.frame_size = ctx.frame_size ∧
    ∀ i, ((raopst_flush ctx now S rt false).2.audio_buffer i).ready = false := by
  unfold raopst_flush encoder_close at hacc ⊢
  by_cases hc : now < uint32_t (ctx.record.time + 250) ∨
      (ctx.record.seqno = S ∧ ctx.record.rtptime = rt)
  · simp [hc] at hacc
  · cases hh : ctx.encode.handle <;> simp [hc, hh, buffer_reset]

/-- C4 (counterexample): after an accepted flush with seqno 500 and silence = false,
packet 501 satisfies `seq_order(501, 500) == false` and is placed (slot ready, stamped
with its rtptime); after an accepted flush with silence = true on a playing session,
packet 500 is placed although it is not after the flush mark either. -/
theorem C4_flush_counterexample :
    ((raopst_flush playing_session 1000 500 176000 false).1 = true ∧
      seq_order 501 500 = false ∧
      ((buffer_put_packet id (raopst_flush playing_session 1000 500 176000 false).2
          1010 501 176352 false [3, 4]).audio_buffer (BUFIDX 501)).ready = true ∧
      ((buffer_put_packet id (raopst_flush playing_session 1000 500 176000 false).2
          1010 501 176352 false [3, 4]).audio_buffer (BUFIDX 501)).rtptime = 176352) ∧
    ((raopst_flush playing_session 1000 500 176000 true).1 = true ∧
      seq_order 500 500 = false ∧
      ((buffer_put_packet id (raopst_flush playing_session 1000 500 176000 true).2
          1010 500 176000 false [3, 4]).audio_buffer (BUFIDX 500)).ready = true ∧
      ((buffer_put_packet id (raopst_flush playing_session 1000 500 176000 true).2
          1010 500 176000 false [3, 4]).audio_buffer (BUFIDX 500)).data = [3, 4]) := by
  decide

/-- C4 (amended): after `raopst_flush` has accepted a flush with seqno S and
silence = false, any run of data packets q with `seq_order(S, q) == false` (q not
after S) leaves the whole session state unchanged: none of them is decoded into a
slot, marked ready or stamped. -/
theorem C4_flush_gate (alac_decode : List Int → List Int) (ctx : raopst_t)
    (now S rt : Int) (ops : List op) (hS : 0 ≤ S ∧ S < 65536)
    (hacc : (raopst_flush ctx now S rt false).1 = true)
    (hops : ∀ o ∈ ops, ∃ t q r f d, o = op.put t q r f d ∧ seq_order S q = false) :
    run alac_decode (raopst_flush ctx now S rt false).2 ops
      = (raopst_flush ctx now S rt false).2 := by
  have hst := raopst_flush_accepted ctx now S rt hacc
  generalize (raopst_flush ctx now S rt false).2 = s at hst ⊢
  unfold run
  induction ops with
  | nil => rfl
  | cons o ops ih =>
    obtain ⟨t, q, r, f, d, ho, hq⟩ := hops o (List.mem_cons_self _ _)
    have hdrop : step alac_decode s o = s := by
      rw [ho]
      exact put_dropped_before_flush alac_decode s t q r f d hst.1
        (by rw [hst.2.1]; omega) (by rw [hst.2.1]; exact hq)
    rw [List.foldl_cons, hdrop]
    exact ih (fun o' ho' => hops o' (List.mem_cons_of_mem _ ho'))

/-- C4 witness: after the flush of a playing session at seqno 500, packets 500 and 499
are dropped. -/
theorem C4_flush_gate_witness :
    run id (raopst_flush playing_session 1000 500 176000 false).2
        [op.put 1010 500 176000 false [3, 4], op.put 1020 499 175648 false [1, 2]]
      = (raopst_flush playing_session 1000 500 176000 false).2 :=
  C4_flush_gate id playing_session 1000 500 176000
    [op.put 1010 500 176000 false [3, 4], op.put 1020 499 175648 false [1, 2]]
    (by decide) (by decide)
    (by
      intro o ho
      simp only [List.mem_cons, List.mem_singleton, List.not_mem_nil, or_false] at ho
      rcases ho with h | h
      · exact ⟨1010, 500, 176000, false, [3, 4], h, by decide⟩
      · exact ⟨1020, 499, 175648, false, [1, 2], h, by decide⟩)

/-- C5 (counterexample): after the accepted flush at seqno 500, processing packet 500
does not start playback: `playing` is still false. -/
theorem C5_flush_record_counterexample :
    (raopst_flush playing_session 1000 500 176000 false).1 = true ∧
    (buffer_put_packet id (raopst_flush playing_session 1000 500 176000 false).2
        1010 500 176000 true [3, 4]).playing = false := by
  decide

/-- The packet right after a flush mark of 500 restarts playback and is placed. -/
theorem put_after_flush_mark (alac_decode : List Int → List Int) (s : raopst_t)
    (t1 r1 : Int) (f1 : Bool) (d1 : List Int)
    (hp : s.playing = false) (hf : s.flush_seqno = 500) (hr : s.synchro.required = false) :
    (buffer_put_packet alac_decode s t1 501 r1 f1 d1).playing = true ∧
    (buffer_put_packet alac_decode s t1 501 r1 f1 d1).ab_read = 501 ∧
    (buffer_put_packet alac_decode s t1 501 r1 f1 d1).ab_write = 501 ∧
    (buffer_put_packet alac_decode s t1 501 r1 f1 d1).audio_buffer
      = Function.update s.audio_buffer 501
          { s.audio_buffer 501 with data := alac_decode d1, len := (alac_decode d1).length,
                                    ready := true, rtptime := uint32_t r1 } := by
  unfold buffer_put_packet put_start put_place put_store
  cases hpa : s.pause <;> cases hm : memcmp_silence (alac_decode d1) <;>
  simp [hp, hf, hr, hpa, hm, seq_t, seq_order, int16_t, BUFIDX, BUFFER_FRAMES]

/-- `BUFIDX` converts to `seq_t` itself. -/
theorem BUFIDX_seq_t (q : Int) : BUFIDX (seq_t q) = BUFIDX q := by
  simp only [BUFIDX, seq_t, Int.emod_emod_of_dvd q (by decide : (65536 : Int) ∣ 65536)]

/-- While playing, the expected packet `ab_write + 1` is placed and advances `ab_write`. -/
theorem put_expected (alac_decode : List Int → List Int) (s : raopst_t)
    (now q rt : Int) (f : Bool) (d : List Int)
    (hp : s.playing = true) (hq : seq_t q = seq_t (s.ab_write + 1)) :
    (buffer_put_packet alac_decode s now q rt f d).playing = true ∧
    (buffer_put_packet alac_decode s now q rt f d).ab_read = s.ab_read ∧
    (buffer_put_packet alac_decode s now q rt f d).ab_write = seq_t q ∧
    (buffer_put_packet alac_decode s now q rt f d).audio_buffer
      = Function.update s.audio_buffer (BUFIDX q)
          { s.audio_buffer (BUFIDX q) with data := alac_decode d, len := (alac_decode d).length,
                                           ready := true, rtptime := uint32_t rt } := by
  have hidx : BUFIDX (s.ab_write + 1) = BUFIDX q := by
    rw [← BUFIDX_seq_t, ← hq, BUFIDX_seq_t]
  unfold buffer_put_packet put_start put_place put_store
  cases hpa : s.pause <;> cases hs : s.silence <;>
  cases hm : memcmp_silence (alac_decode d) <;>
  cases ho : seq_order s.flush_seqno (seq_t (s.ab_write + 1)) <;>
  simp [hp, hpa, hs, hm, ho, hq, BUFIDX_seq_t, hidx]

/-- C5 (amended): with sync not required, after `raopst_flush(500, silence = false)` is
accepted no slot is ready; packet 500 is dropped with the state unchanged (playing
stays false, since the start test wants a seqno after the flush mark); playing becomes
true while processing packet 501, which is the only ready slot afterwards, stamped
with its rtptime; after packet 502 exactly slots 501 and 502 are ready. -/
theorem C5_flush_record_amended (alac_decode : List Int → List Int) (ctx : raopst_t)
    (now rt t0 r0 t1 r1 t2 r2 : Int) (f0 f1 f2 : Bool) (d0 d1 d2 : List Int)
    (hacc : (raopst_flush ctx now 500 rt false).1 = true)
    (hreq : ctx.synchro.required = false) :
    (∀ i, ((raopst_flush ctx now 500 rt false).2.audio_buffer i).ready = false) ∧
    buffer_put_packet alac_decode (raopst_flush ctx now 500 rt false).2 t0 500 r0 f0 d0
      = (raopst_flush ctx now 500 rt false).2 ∧
    (raopst_flush ctx now 500 rt false).2.playing = false ∧
    (buffer_put_packet alac_decode (raopst_flush ctx now 500 rt false).2
      t1 501 r1 f1 d1).playing = true ∧
    (buffer_put_packet alac_decode (raopst_flush ctx now 500 rt false).2
      t1 501 r1 f1 d1).ab_read = 501 ∧
    (∀ i, ((buffer_put_packet alac_decode (raopst_flush ctx now 500 rt false).2
      t1 501 r1 f1 d1).audio_buffer i).ready = true ↔ i = 501) ∧
    ((buffer_put_packet alac_decode (raopst_flush ctx now 500 rt false).2
      t1 501 r1 f1 d1).audio_buffer 501).rtptime = uint32_t r1 ∧
    (∀ i, ((buffer_put_packet alac_decode
      (buffer_put_packet alac_decode (raopst_flush ctx now 500 rt false).2 t1 501 r1 f1 d1)
      t2 502 r2 f2 d2).audio_buffer i).ready = true ↔ (i = 501 ∨ i = 502)) := by
  have hst := raopst_flush_accepted ctx now 500 rt hacc
  generalize (raopst_flush ctx now 500 rt false).2 = s at hst ⊢
  obtain ⟨hp, hf, hr, -, hb⟩ := hst
  rw [hreq] at hr
  refine ⟨hb, ?_, hp, ?_⟩
  · exact put_dropped_before_flush alac_decode s t0 500 r0 f0 d0 hp (by rw [hf]; decide)
      (by rw [hf]; decide)
  · have h1 := put_after_flush_mark alac_decode s t1 r1 f1 d1 hp hf hr
    generalize buffer_put_packet alac_decode s t1 501 r1 f1 d1 = s2 at h1 ⊢
    obtain ⟨h1p, h1r, h1w, h1b⟩ := h1
    have h2 := put_expected alac_decode s2 t2 502 r2 f2 d2 h1p (by rw [h1w]; decide)
    generalize buffer_put_packet alac_decode s2 t2 502 r2 f2 d2 = s3 at h2 ⊢
    obtain ⟨-, -, -, h2b⟩ := h2
    have e502 : BUFIDX 502 = 502 := by decide
    refine ⟨h1p, h1r, ?_, ?_, ?_⟩
    · intro i
      rw [h1b]
      by_cases hi : i = 501
      · subst hi; simp
      · simp [Function.update_noteq hi, hb i, hi]
    · rw [h1b]; simp
    · intro i
      rw [h2b, h1b, e502]
      by_cases hi2 : i = 502
      · subst hi2; simp
      · rw [Function.update_noteq hi2]
        by_cases hi : i = 501
        · subst hi; simp
        · simp [Function.update_noteq hi, hb i, hi, hi2]

/-- C5 witness: the scenario on a session that was playing since packet 499. -/
theorem C5_flush_record_amended_witness :
    (raopst_flush playing_session 1000 500 176000 false).1 = true ∧
    buffer_put_packet id (raopst_flush playing_session 1000 500 176000 false).2
        1010 500 176000 true [3, 4]
      = (raopst_flush playing_session 1000 500 176000 false).2 ∧
    (buffer_put_packet id (raopst_flush playing_session 1000 500 176000 false).2
        1020 501 176352 false [5, 6]).playing = true :=
  ⟨by decide,
   (C5_flush_record_amended id playing_session 1000 176000 1010 176000 1020 176352
      1030 176704 true false false [3, 4] [5, 6] [7, 8] (by decide) (by decide)).2.1,
   (C5_flush_record_amended id playing_session 1000 176000 1010 176000 1020 176352
      1030 176704 true false false [3, 4] [5, 6] [7, 8] (by decide) (by decide)).2.2.2.1⟩

/-! ### C6: rtptime stamps of ready slots -/

/-- C6 (counterexample): after one placed packet (seqno 10, rtptime 5000) and timing
replies that end in a drift insert, slot 9 is ready with rtptime 0, which is neither
the rtptime of a placed packet nor the previous slot's rtptime plus `frame_size`. -/
theorem C6_drift_insert_counterexample :
    ¬ ready_slots_stamped (run id fresh_session drift_insert_trace) [(10, 5000)] := by
  intro h
  have h9 := h 9 (by decide) (by decide) (by decide)
  rcases h9 with ⟨p, hp, hidx, -⟩ | h9
  · simp only [List.mem_singleton] at hp
    subst hp
    exact absurd hidx (by decide)
  · exact absurd h9 (by decide)

/-- `slots_kept` is reflexive. -/
theorem slots_kept_refl (b : Int → abuf_t) : slots_kept b b := fun _ => ⟨rfl, id⟩

/-- `slots_kept` is transitive. -/
theorem slots_kept_trans {a b c : Int → abuf_t} (h1 : slots_kept a b) (h2 : slots_kept b c) :
    slots_kept a c :=
  fun j => ⟨(h2 j).1.trans (h1 j).1, fun h => (h1 j).2 ((h2 j).2 h)⟩

/-- A resend request does not touch the slots. -/
theorem rtp_request_resend_buf (ctx : raopst_t) (a b : Int) :
    (rtp_request_resend ctx a b).2.audio_buffer = ctx.audio_buffer ∧
    (rtp_request_resend ctx a b).2.frame_size = ctx.frame_size := by
  unfold rtp_request_resend
  simp only []
  split <;> simp

/-- Re-requesting one slot changes only its `last_resend`. -/
theorem resend_slot_kept (ctx : raopst_t) (now i : Int) :
    slots_kept ctx.audio_buffer (resend_slot ctx now i).audio_buffer ∧
    (resend_slot ctx now i).frame_size = ctx.frame_size := by
  unfold resend_slot
  simp only []
  split
  · refine ⟨fun j => ?_, by simp [rtp_request_resend_buf]⟩
    simp only [(rtp_request_resend_buf _ _ _).1]
    by_cases hj : j = BUFIDX (ctx.ab_read + i)
    · subst hj; simp
    · simp [Function.update_noteq hj]
  · exact ⟨slots_kept_refl _, rfl⟩

/-- The catch-up loop keeps stamps and sets no ready flag. -/
theorem catch_up_kept (now n : Int) (k : Nat) : ∀ (i : Int) (ctx : raopst_t),
    slots_kept ctx.audio_buffer (catch_up now n k i ctx).audio_buffer ∧
    (catch_up now n k i ctx).frame_size = ctx.frame_size := by
  induction k with
  | zero => intro i ctx; exact ⟨slots_kept_refl _, rfl⟩
  | succ k ih =>
    intro i ctx
    unfold catch_up
    split
    · exact ⟨slots_kept_trans (resend_slot_kept ctx now i).1 (ih _ _).1,
        (ih _ _).2.trans (resend_slot_kept ctx now i).2⟩
    · exact ⟨slots_kept_refl _, rfl⟩

/-- The look-ahead resend loop keeps stamps and sets no ready flag. -/
theorem resend_ahead_kept (now : Int) (k : Nat) : ∀ (i : Int) (ctx : raopst_t),
    slots_kept ctx.audio_buffer (resend_ahead now k i ctx).audio_buffer ∧
    (resend_ahead now k i ctx).frame_size = ctx.frame_size := by
  induction k with
  | zero => intro i ctx; exact ⟨slots_kept_refl _, rfl⟩
  | succ k ih =>
    intro i ctx
    unfold resend_ahead
    split
    · exact ⟨slots_kept_trans (resend_slot_kept ctx now i).1 (ih _ _).1,
        (ih _ _).2.trans (resend_slot_kept ctx now i).2⟩
    · exact ⟨slots_kept_refl _, rfl⟩

/-- The skip loop keeps stamps and only clears ready flags. -/
theorem skip_frames_kept (n : Nat) : ∀ ctx : raopst_t,
    slots_kept ctx.audio_buffer (skip_frames n ctx).audio_buffer ∧
    (skip_frames n ctx).frame_size = ctx.frame_size := by
  induction n with
  | zero => intro ctx; exact ⟨slots_kept_refl _, rfl⟩
  | succ n ih =>
    intro ctx
    unfold skip_frames
    split
    · refine ⟨slots_kept_trans ?_ (ih _).1, (ih _).2⟩
      intro j
      by_cases hj : j = BUFIDX ctx.ab_read
      · subst hj; simp
      · simp [Function.update_noteq hj]
    · exact ⟨slots_kept_refl _, rfl⟩

/-- The slot before slot `BUFIDX x` is `BUFIDX (x - 1)`. -/
theorem BUFIDX_pred (x : Int) : BUFIDX (BUFIDX x - 1) = BUFIDX (x - 1) := by
  simp only [BUFIDX, seq_t, BUFFER_FRAMES]; omega

/-- The empty-buffer stamp changes one rtptime, to the previous slot's plus `frame_size`. -/
theorem stamp_empty_slots (ctx : raopst_t) (fill : Int) (j : Int) :
    ((stamp_empty ctx fill).audio_buffer j).ready = (ctx.audio_buffer j).ready ∧
    (((stamp_empty ctx fill).audio_buffer j).rtptime = (ctx.audio_buffer j).rtptime ∨
      ((stamp_empty ctx fill).audio_buffer j).rtptime
        = uint32_t ((ctx.audio_buffer (BUFIDX (j - 1))).rtptime + ctx.frame_size)) ∧
    (stamp_empty ctx fill).frame_size = ctx.frame_size := by
  unfold stamp_empty
  simp only []
  split
  · by_cases hj : j = BUFIDX ctx.ab_read
    · subst hj; rw [BUFIDX_pred]; simp
    · simp [Function.update_noteq hj]
  · simp

/-- Moving the write pointer does not touch the slots. -/
theorem advance_write_buf (ctx : raopst_t) (fill : Int) :
    (advance_write ctx fill).audio_buffer = ctx.audio_buffer := by
  unfold advance_write
  simp only []
  split <;> rfl

/-- Zero filling keeps stamps and ready flags. -/
theorem zero_fill_kept (ctx : raopst_t) (cur : Int) :
    slots_kept ctx.audio_buffer (zero_fill ctx cur).audio_buffer := by
  unfold zero_fill
  split
  · intro j
    by_cases hj : j = cur
    · subst hj; simp
    · simp [Function.update_noteq hj]
  · exact slots_kept_refl _

/-- After the empty-buffer stamp the puller keeps stamps and sets no ready flag. -/
theorem get_frame_play_kept (ctx : raopst_t) (fill now : Int) :
    slots_kept (stamp_empty ctx fill).audio_buffer (get_frame_play ctx fill now).2.audio_buffer := by
  unfold get_frame_play
  simp only []
  split
  · exact (catch_up_kept now (min 16 fill) 16 0 (stamp_empty ctx fill)).1
  · have h1 := (resend_ahead_kept now 4096 16 (advance_write (stamp_empty ctx fill) fill)).1
    rw [advance_write_buf] at h1
    generalize resend_ahead now 4096 16 (advance_write (stamp_empty ctx fill) fill) = r at h1 ⊢
    have h2 := zero_fill_kept r (BUFIDX ctx.ab_read)
    generalize zero_fill r (BUFIDX ctx.ab_read) = z at h2 ⊢
    refine slots_kept_trans (slots_kept_trans h1 h2) ?_
    intro j
    by_cases hj : j = BUFIDX ctx.ab_read
    · subst hj; simp
    · simp [Function.update_noteq hj]

/-- The overrun step does not touch the slots. -/
theorem overrun_cap_buf (ctx : raopst_t) :
    (overrun_cap ctx).2.audio_buffer = ctx.audio_buffer ∧
    (overrun_cap ctx).2.frame_size = ctx.frame_size := by
  unfold overrun_cap
  simp only []
  split <;> simp

/-- Slots under `_buffer_get_frame`: no ready flag is set, and a slot's rtptime is
either unchanged or the previous slot's rtptime plus `frame_size`. -/
theorem buffer_get_frame_slots (ctx : raopst_t) (now : Int) (j : Int) :
    (((_buffer_get_frame ctx now).2.audio_buffer j).ready = true →
      (ctx.audio_buffer j).ready = true) ∧
    (((_buffer_get_frame ctx now).2.audio_buffer j).rtptime = (ctx.audio_buffer j).rtptime ∨
      ((_buffer_get_frame ctx now).2.audio_buffer j).rtptime
        = uint32_t ((ctx.audio_buffer (BUFIDX (j - 1))).rtptime + ctx.frame_size)) := by
  unfold _buffer_get_frame
  split_ifs
  · exact ⟨id, Or.inl rfl⟩
  · exact ⟨id, Or.inl rfl⟩
  · exact ⟨id, Or.inl rfl⟩
  · unfold get_frame_body
    have hs := skip_frames_kept 32768 ctx
    generalize skip_frames 32768 ctx = c1 at hs ⊢
    have ho := overrun_cap_buf c1
    generalize (overrun_cap c1).2 = c2 at ho ⊢
    generalize (overrun_cap c1).1 = fill
    have hk := get_frame_play_kept c2 fill now
    have he := stamp_empty_slots c2 fill
    generalize (get_frame_play c2 fill now).2 = c4 at hk ⊢
    generalize stamp_empty c2 fill = c3 at hk he
    constructor
    · intro h
      have h3 := (hk j).2 h
      rw [(he j).1, ho.1] at h3
      exact (hs.1 j).2 h3
    · rw [(hk j).1]
      rcases (he j).2.1 with h | h
      · left; rw [h, ho.1]; exact (hs.1 j).1
      · right; rw [h, ho.1, ho.2, (hs.1 _).1, hs.2]

/-- Stamping a requested range changes no ready flag. -/
theorem stamp_missing_ready (fs rt q now : Int) (n : Nat) : ∀ (i : Int) (buf : Int → abuf_t)
    (j : Int), ((stamp_missing fs rt q now n i buf) j).ready = (buf j).ready := by
  induction n with
  | zero => intro i buf j; rfl
  | succ n ih =>
    intro i buf j
    unfold stamp_missing
    split
    · rw [ih]
      by_cases hj : j = BUFIDX i
      · subst hj; simp
      · simp [Function.update_noteq hj]
    · rfl

/-- The slot choice of `buffer_put_packet` is the packet's slot or none, and changes no ready flag. -/
theorem put_place_ready (ctx : raopst_t) (now q rt : Int) :
    ((put_place ctx now q rt).1 = none ∨ (put_place ctx now q rt).1 = some (BUFIDX q)) ∧
    ∀ j, ((put_place ctx now q rt).2.audio_buffer j).ready = (ctx.audio_buffer j).ready := by
  unfold put_place
  simp only []
  split_ifs <;>
  simp [stamp_missing_ready, (rtp_request_resend_buf _ _ _).1]

/-- Starting playback does not touch the slots. -/
theorem put_start_buf (ctx s : raopst_t) (q : Int) (h : put_start ctx q = some s) :
    s.audio_buffer = ctx.audio_buffer := by
  unfold put_start at h
  split_ifs at h <;> simp at h <;> subst h <;> rfl

/-- Storing a frame marks only the chosen slot ready, with the packet's rtptime. -/
theorem put_store_slots (alac_decode : List Int → List Int) (c : raopst_t)
    (abuf : Option Int) (rt : Int) (d : List Int) (j : Int)
    (h : ((put_store alac_decode c abuf rt d).audio_buffer j).ready = true) :
    (abuf = some j ∧ ((put_store alac_decode c abuf rt d).audio_buffer j).rtptime = rt) ∨
    (c.audio_buffer j).ready = true := by
  unfold put_store at h ⊢
  cases abuf with
  | none => right; exact h
  | some idx =>
    simp only [] at h ⊢
    by_cases hj : j = idx
    · subst hj
      left
      split_ifs <;> simp
    · right
      split_ifs at h <;> simpa [Function.update_noteq hj] using h

/-- Slots under `buffer_put_packet`: a slot that is ready afterwards is the packet's
slot, stamped with the packet's rtptime, or was ready before. -/
theorem buffer_put_packet_slots (alac_decode : List Int → List Int) (ctx : raopst_t)
    (now q rt : Int) (f : Bool) (d : List Int) (j : Int)
    (h : ((buffer_put_packet alac_decode ctx now q rt f d).audio_buffer j).ready = true) :
    (j = BUFIDX q ∧
      ((buffer_put_packet alac_decode ctx now q rt f d).audio_buffer j).rtptime = uint32_t rt) ∨
    (ctx.audio_buffer j).ready = true := by
  unfold buffer_put_packet at h ⊢
  simp only [] at h ⊢
  cases hs : put_start ctx (seq_t q) with
  | none => rw [hs] at h; right; exact h
  | some s =>
    rw [hs] at h
    simp only [] at h ⊢
    have hb := put_start_buf ctx s (seq_t q) hs
    have hpause : (if (s.pause && seq_order s.flush_seqno (seq_t q)) = true then
        { s with pause := false } else s).audio_buffer = ctx.audio_buffer := by
      split <;> simpa using hb
    generalize (if (s.pause && seq_order s.flush_seqno (seq_t q)) = true then
        { s with pause := false } else s) = s1 at hpause h ⊢
    have hp := put_place_ready s1 now (seq_t q) (uint32_t rt)
    generalize put_place s1 now (seq_t q) (uint32_t rt) = p at hp h ⊢
    have hst := put_store_slots alac_decode { p.2 with in_frames := p.2.in_frames + 1 } p.1
      (uint32_t rt) d j h
    rcases hst with ⟨h1, h2⟩ | h1
    · left
      rcases hp.1 with h3 | h3
      · rw [h3] at h1; exact absurd h1 (by simp)
      · rw [h3] at h1
        simp only [Option.some.injEq] at h1
        exact ⟨by rw [← h1, BUFIDX_seq_t], h2⟩
    · right
      have := hp.2 j
      simp only [] at h1
      rw [this, hpause] at h1
      exact h1

/-- Changing a ready flag keeps the rtptime. -/
theorem update_ready_rtptime (b : Int → abuf_t) (i j : Int) (r : Bool) :
    (Function.update b i { b i with ready := r } j).rtptime = (b j).rtptime := by
  by_cases h : j = i
  · subst h; simp
  · simp [Function.update_noteq h]

/-- Setting one ready flag: other ready slots were ready before. -/
theorem update_ready_true (b : Int → abuf_t) (i j : Int)
    (h : (Function.update b i { b i with ready := true } j).ready = true) :
    (b j).ready = true ∨ j = i := by
  by_cases hj : j = i
  · exact Or.inr hj
  · left; simpa [Function.update_noteq hj] using h

/-- Clearing one ready flag: ready slots were ready before. -/
theorem update_ready_false (b : Int → abuf_t) (i j : Int)
    (h : (Function.update b i { b i with ready := false } j).ready = true) :
    (b j).ready = true := by
  by_cases hj : j = i
  · subst hj; simp at h
  · simpa [Function.update_noteq hj] using h

/-- A drift adjustment stamps no slot; it may mark slot `ab_read - 1` ready. -/
theorem drift_adjust_slots (ctx : raopst_t) (j : Int) :
    ((drift_adjust ctx).audio_buffer j).rtptime = (ctx.audio_buffer j).rtptime ∧
    (((drift_adjust ctx).audio_buffer j).ready = true →
      (ctx.audio_buffer j).ready = true ∨ j = BUFIDX (ctx.ab_read - 1)) := by
  rw [← BUFIDX_seq_t (ctx.ab_read - 1)]
  unfold drift_adjust
  simp only []
  split_ifs <;>
  first
    | exact ⟨rfl, Or.inl⟩
    | exact ⟨update_ready_rtptime _ _ _ _, update_ready_true _ _ _⟩
    | exact ⟨update_ready_rtptime _ _ _ _, fun h => Or.inl (update_ready_false _ _ _ h)⟩

/-- A timing reply stamps no slot; it may mark slot `ab_read - 1` ready. -/
theorem timing_reply_slots (ctx : raopst_t) (now reference remote : Int) (j : Int) :
    ((timing_reply ctx now reference remote).audio_buffer j).rtptime
      = (ctx.audio_buffer j).rtptime ∧
    (((timing_reply ctx now reference remote).audio_buffer j).ready = true →
      (ctx.audio_buffer j).ready = true ∨ j = BUFIDX (ctx.ab_read - 1)) := by
  unfold timing_reply
  simp only []
  split_ifs
  · exact ⟨rfl, Or.inl⟩
  · exact drift_adjust_slots _ j
  · exact ⟨rfl, Or.inl⟩

/-- C6 (amended): per operation, for every slot j: a slot that is ready after
`buffer_put_packet` is the packet's slot stamped with the packet's rtptime, or was
ready before; `_buffer_get_frame` sets no ready flag and leaves each rtptime unchanged
or equal to the previous slot's rtptime plus `frame_size`; a timing reply (drift
adjustment) changes no rtptime, and the only slot it can newly mark ready is slot
`ab_read - 1`, which keeps whatever rtptime it held. -/
theorem C6_slot_stamps_amended (alac_decode : List Int → List Int) (ctx : raopst_t)
    (now q rt reference remote : Int) (f : Bool) (d : List Int) (j : Int) :
    (((buffer_put_packet alac_decode ctx now q rt f d).audio_buffer j).ready = true →
      (j = BUFIDX q ∧
        ((buffer_put_packet alac_decode ctx now q rt f d).audio_buffer j).rtptime
          = uint32_t rt) ∨
      (ctx.audio_buffer j).ready = true) ∧
    ((((_buffer_get_frame ctx now).2.audio_buffer j).ready = true →
        (ctx.audio_buffer j).ready = true) ∧
      (((_buffer_get_frame ctx now).2.audio_buffer j).rtptime = (ctx.audio_buffer j).rtptime ∨
        ((_buffer_get_frame ctx now).2.audio_buffer j).rtptime
          = uint32_t ((ctx.audio_buffer (BUFIDX (j - 1))).rtptime + ctx.frame_size))) ∧
    (((timing_reply ctx now reference remote).audio_buffer j).rtptime
        = (ctx.audio_buffer j).rtptime ∧
      (((timing_reply ctx now reference remote).audio_buffer j).ready = true →
        (ctx.audio_buffer j).ready = true ∨ j = BUFIDX (ctx.ab_read - 1))) :=
  ⟨buffer_put_packet_slots alac_decode ctx now q rt f d j,
   buffer_get_frame_slots ctx now j,
   timing_reply_slots ctx now reference remote j⟩

/-- C6 witness: packet (10, 5000) placed on a fresh session leaves slot 10 ready with
rtptime 5000. -/
theorem C6_slot_stamps_amended_witness :
    ((buffer_put_packet id fresh_session 0 10 5000 true [1, 2]).audio_buffer 10).ready = true ∧
    (((10 : Int) = BUFIDX 10 ∧
        ((buffer_put_packet id fresh_session 0 10 5000 true [1, 2]).audio_buffer 10).rtptime
          = uint32_t 5000) ∨
      (fresh_session.audio_buffer 10).ready = true) :=
  ⟨by decide,
   (C6_slot_stamps_amended id fresh_session 0 10 5000 0 0 true [1, 2] 10).1 (by decide)⟩

/-! ### C7, C8: range replay and tail buffer -/

/-- C7 (code at the failing input): with 100000 bytes emitted and `Range: bytes=80000`,
the offset computed by `handle_http` is 0 and the response is a plain 200 without a
Content-Range header and without replay; and with 3000000 bytes emitted and
`Range: bytes=2900000` the offset is 902847, below the tail window
[902848, 3000000). -/
theorem C7_range_offset_code :
    range_offset reconnect_session 80000 = 0 ∧
    (handle_http reconnect_session reconnect_request).1 = true ∧
    (handle_http reconnect_session reconnect_request).2.1
      = some { status := "HTTP/1.0 200 OK",
               headers := [("Server", "HairTunes"), ("Content-Type", "audio/mpeg"),
                           ("Connection", "close")],
               body := [] } ∧
    range_offset { reconnect_session with http_count := 3000000 } 2900000 = 902847 ∧
    ((handle_http { reconnect_session with http_count := 3000000 }
        { reconnect_request with range := some 2900000 }).2.1.map
          (fun r => (r.status, r.headers)))
      = some ("HTTP/1.0 206 Partial Content",
              [("Server", "HairTunes"), ("Content-Type", "audio/mpeg"),
               ("Content-Range", "bytes 902847-3000000/*"), ("Connection", "close")]) := by
  decide

/-- C8 (code at the failing input): a 1408-byte block stored at offset 2096556 wraps
after 596 bytes; `http_count` advances by 1408 and the first segment is stored in
order, but tail index 0 receives byte 1192 of the memory at `inbuf` instead of byte
596 of the block. -/
theorem C8_tail_wrap_code :
    (http_tail_store wrap_session (fun i => i % 256) 1408).http_count = 2096556 + 1408 ∧
    (2096556 + 596) % TAIL_SIZE = 0 ∧
    (http_tail_store wrap_session (fun i => i % 256) 1408).http_tail 2097151 = 595 % 256 ∧
    (http_tail_store wrap_session (fun i => i % 256) 1408).http_tail 0 = 1192 % 256 ∧
    (http_tail_store wrap_session (fun i => i % 256) 1408).http_tail 0 ≠ 596 % 256 := by
  decide

/-! ### C9: duplicate flush -/

/-- C9: `raopst_flush(seqno, rtptime)` is ignored, i.e. returns false and leaves the
whole state (every ready flag, flush_seqno, pause, playing, synchro.first, http_ready)
unchanged, if and only if `now < record.time + 250` (the sum in 32-bit unsigned
arithmetic, as in the source) or (seqno, rtptime) equals the pair stored by the last
`raopst_record`; otherwise it returns true, clears every ready flag, sets
flush_seqno = seqno, and sets pause = true when silence is requested, or else
playing = false, synchro.first = false and http_ready = false; `raopst_record` stores
its arguments and the current tick in the record marker, and the 32-bit sum is the
plain sum whenever `record.time + 250` does not wrap. -/
theorem C9_flush_ignored_iff (ctx : raopst_t) (now seqno rtptime : Int) (silence : Bool)
    (t S R : Int) :
    (((raopst_flush ctx now seqno rtptime silence).1 = false ∧
        (raopst_flush ctx now seqno rtptime silence).2 = ctx) ↔
      (now < uint32_t (ctx.record.time + 250) ∨
        (ctx.record.seqno = seqno ∧ ctx.record.rtptime = rtptime))) ∧
    (¬ (now < uint32_t (ctx.record.time + 250) ∨
        (ctx.record.seqno = seqno ∧ ctx.record.rtptime = rtptime)) →
      (raopst_flush ctx now seqno rtptime silence).1 = true ∧
      (∀ i, ((raopst_flush ctx now seqno rtptime silence).2.audio_buffer i).ready = false) ∧
      (raopst_flush ctx now seqno rtptime silence).2.flush_seqno = seqno ∧
      (silence = true →
        (raopst_flush ctx now seqno rtptime silence).2.pause = true ∧
        (raopst_flush ctx now seqno rtptime silence).2.playing = ctx.playing ∧
        (raopst_flush ctx now seqno rtptime silence).2.synchro.first = ctx.synchro.first ∧
        (raopst_flush ctx now seqno rtptime silence).2.http_ready = ctx.http_ready) ∧
      (silence = false →
        (raopst_flush ctx now seqno rtptime silence).2.playing = false ∧
        (raopst_flush ctx now seqno rtptime silence).2.synchro.first = false ∧
        (raopst_flush ctx now seqno rtptime silence).2.http_ready = false ∧
        (raopst_flush ctx now seqno rtptime silence).2.pause = ctx.pause)) ∧
    (raopst_record ctx t S R).record = { time := t, seqno := S, rtptime := R } ∧
    (0 ≤ ctx.record.time → ctx.record.time + 250 < 4294967296 →
      uint32_t (ctx.record.time + 250) = ctx.record.time + 250) := by
  refine ⟨?_, ?_, rfl, fun h0 h1 => by unfold uint32_t; omega⟩
  · by_cases hc : now < uint32_t (ctx.record.time + 250) ∨
        (ctx.record.seqno = seqno ∧ ctx.record.rtptime = rtptime)
    · unfold raopst_flush
      simp [hc]
    · unfold raopst_flush encoder_close
      cases silence <;> cases hh : ctx.encode.handle <;> simp [hc, hh]
  · intro hc
    unfold raopst_flush encoder_close
    cases silence <;> cases hh : ctx.encode.handle <;> simp [hc, hh, buffer_reset]

/-- C9 witness: on a session recorded at tick 5000 with (seqno 500, rtptime 176000), a
flush at tick 5100 is ignored, the same flush as the record is ignored at tick 9000,
and a different flush at tick 9000 is accepted and sets the flush mark. -/
theorem C9_flush_ignored_iff_witness :
    (raopst_flush (raopst_record playing_session 5000 500 176000) 5100 600 200000 false).1
        = false ∧
    (raopst_flush (raopst_record playing_session 5000 500 176000) 9000 500 176000 false).1
        = false ∧
    (raopst_flush (raopst_record playing_session 5000 500 176000) 9000 600 200000 false).1
        = true ∧
    (raopst_flush (raopst_record playing_session 5000 500 176000) 9000 600 200000
        false).2.flush_seqno = 600 :=
  ⟨((C9_flush_ignored_iff (raopst_record playing_session 5000 500 176000) 5100 600 200000
      false 0 0 0).1.2 (by decide)).1,
   ((C9_flush_ignored_iff (raopst_record playing_session 5000 500 176000) 9000 500 176000
      false 0 0 0).1.2 (by decide)).1,
   ((C9_flush_ignored_iff (raopst_record playing_session 5000 500 176000) 9000 600 200000
      false 0 0 0).2.1 (by decide)).1,
   ((C9_flush_ignored_iff (raopst_record playing_session 5000 500 176000) 9000 600 200000
      false 0 0 0).2.1 (by decide)).2.2.1⟩

/-! ### C10: drift gate of the timing reply -/

/-- C10 (counterexample): with `timing.drift` true and NTP_SYNC already set, a reply
with `delta` = 9 ms leaves `gap_sum` at 0; with `timing.drift` false the same reply
raises `gap_sum` to 9 and `gap_count` to 1. -/
theorem C10_drift_flag_counterexample :
    (drift_session.timing.drift = true ∧
      bit_and (run id drift_session [op.timing 0 0 0]).synchro.status NTP_SYNC ≠ 0 ∧
      timing_delta (run id drift_session [op.timing 0 0 0]) 1000 (4294967296 - MS2NTP 10) = 9 ∧
      (run id drift_session two_replies).timing.gap_sum = 0) ∧
    (fresh_session.timing.drift = false ∧
      (run id fresh_session [op.timing 0 0 0]).timing.gap_sum = 0 ∧
      (run id fresh_session two_replies).timing.gap_sum = 9 ∧
      (run id fresh_session two_replies).timing.gap_count = 1) := by
  decide

/-- A drift adjustment moves `gap_sum` and `gap_adjust` by the same amount. -/
theorem drift_adjust_balance (ctx : raopst_t) :
    (drift_adjust ctx).timing.gap_sum - (drift_adjust ctx).timing.gap_adjust
      = ctx.timing.gap_sum - ctx.timing.gap_adjust := by
  unfold drift_adjust
  simp only []
  split_ifs <;> simp only [] <;> omega

/-- A drift adjustment leaves `gap_sum` as it is or moves it by GAP_THRES. -/
theorem drift_adjust_gap_sum (ctx : raopst_t) :
    (drift_adjust ctx).timing.gap_sum = ctx.timing.gap_sum ∨
    (drift_adjust ctx).timing.gap_sum = ctx.timing.gap_sum - GAP_THRES ∨
    (drift_adjust ctx).timing.gap_sum = ctx.timing.gap_sum + GAP_THRES := by
  unfold drift_adjust
  simp only []
  split_ifs <;> simp

/-- C10 (amended): a timing reply whose roundtrip is at most 100 ms accumulates
`delta` into `gap_sum` (the result is `gap_sum + delta`, moved by GAP_THRES when a
frame is inserted or dropped, so that `gap_sum - gap_adjust` grows by exactly `delta`)
when `timing.drift` is false and the NTP_SYNC bit was already set; in every other case
(roundtrip above 100 ms, `timing.drift` true, or NTP_SYNC not yet set) `gap_sum`,
`gap_count`, `gap_adjust`, `ab_read`, `skip` and all slots are left unchanged. -/
theorem C10_drift_gate_amended (ctx : raopst_t) (now reference remote : Int) :
    (uint32_t (now - reference) ≤ 100 → ctx.timing.drift = false →
      bit_and ctx.synchro.status NTP_SYNC ≠ 0 →
      ((timing_reply ctx now reference remote).timing.gap_sum
          - (timing_reply ctx now reference remote).timing.gap_adjust
        = ctx.timing.gap_sum + timing_delta ctx reference remote - ctx.timing.gap_adjust) ∧
      ((timing_reply ctx now reference remote).timing.gap_sum
          = ctx.timing.gap_sum + timing_delta ctx reference remote ∨
        (timing_reply ctx now reference remote).timing.gap_sum
          = ctx.timing.gap_sum + timing_delta ctx reference remote - GAP_THRES ∨
        (timing_reply ctx now reference remote).timing.gap_sum
          = ctx.timing.gap_sum + timing_delta ctx reference remote + GAP_THRES)) ∧
    ((100 < uint32_t (now - reference) ∨ ctx.timing.drift = true ∨
        bit_and ctx.synchro.status NTP_SYNC = 0) →
      (timing_reply ctx now reference remote).timing.gap_sum = ctx.timing.gap_sum ∧
      (timing_reply ctx now reference remote).timing.gap_count = ctx.timing.gap_count ∧
      (timing_reply ctx now reference remote).timing.gap_adjust = ctx.timing.gap_adjust ∧
      (timing_reply ctx now reference remote).ab_read = ctx.ab_read ∧
      (timing_reply ctx now reference remote).skip = ctx.skip ∧
      (timing_reply ctx now reference remote).audio_buffer = ctx.audio_buffer) := by
  constructor
  · intro hr hd hn
    unfold timing_reply
    simp only [not_lt.mpr hr, if_false, hd, hn, ne_eq, not_false_eq_true, and_self, if_true]
    refine ⟨by rw [drift_adjust_balance], ?_⟩
    exact drift_adjust_gap_sum _
  · intro h
    unfold timing_reply
    simp only []
    split_ifs with h1 h2
    · simp
    · rcases h with h | h | h
      · exact absurd h h1
      · rw [h2.1] at h; exact absurd h (by simp)
      · exact absurd h h2.2
    · simp

/-- C10 witness: on a fresh session (drift flag false) whose first reply has set
NTP_SYNC, the second reply accumulates its 9 ms; on a session created with the drift
flag set, the same reply leaves `gap_sum` unchanged. -/
theorem C10_drift_gate_amended_witness :
    ((timing_reply (run id fresh_session [op.timing 0 0 0]) 1000 1000
          (4294967296 - MS2NTP 10)).timing.gap_sum
        - (timing_reply (run id fresh_session [op.timing 0 0 0]) 1000 1000
          (4294967296 - MS2NTP 10)).timing.gap_adjust
      = (run id fresh_session [op.timing 0 0 0]).timing.gap_sum
        + timing_delta (run id fresh_session [op.timing 0 0 0]) 1000 (4294967296 - MS2NTP 10)
        - (run id fresh_session [op.timing 0 0 0]).timing.gap_adjust) ∧
    (timing_reply (run id drift_session [op.timing 0 0 0]) 1000 1000
        (4294967296 - MS2NTP 10)).timing.gap_sum
      = (run id drift_session [op.timing 0 0 0]).timing.gap_sum :=
  ⟨((C10_drift_gate_amended (run id fresh_session [op.timing 0 0 0]) 1000 1000
      (4294967296 - MS2NTP 10)).1 (by decide) (by decide) (by decide)).1,
   ((C10_drift_gate_amended (run id drift_session [op.timing 0 0 0]) 1000 1000
      (4294967296 - MS2NTP 10)).2 (Or.inr (Or.inl (by decide)))).1⟩

/-! ### Loop bounds: the fuel given to the loops is never exhausted -/

/-- The skip loop stops because its condition fails, not because the fuel runs out:
with fuel at least the distance from `ab_read` to `ab_write`, the loop condition is
false in the final state. -/
theorem skip_frames_exits (n : Nat) : ∀ ctx : raopst_t,
    int16_t (seq_t ctx.ab_write - seq_t ctx.ab_read) ≤ n →
    ¬ ((skip_frames n ctx).skip ≠ 0 ∧
        seq_order (skip_frames n ctx).ab_read (skip_frames n ctx).ab_write = true) := by
  induction n with
  | zero =>
    intro ctx h
    simp only [skip_frames, seq_order, decide_eq_true_eq]
    intro hc
    have := hc.2
    simp only [Nat.cast_zero] at h
    omega
  | succ n ih =>
    intro ctx h
    unfold skip_frames
    split
    · rename_i hc
      apply ih
      have hs := hc.2
      simp only [seq_order, seq_t, int16_t, decide_eq_true_eq] at hs
      simp only [seq_t, int16_t, Nat.cast_add, Nat.cast_one] at h ⊢
      omega
    · rename_i hc
      exact hc

/-- The fuel 32768 given to the skip loop in `_buffer_get_frame` is enough. -/
theorem skip_frames_fuel (ctx : raopst_t) :
    ¬ ((skip_frames 32768 ctx).skip ≠ 0 ∧
        seq_order (skip_frames 32768 ctx).ab_read (skip_frames 32768 ctx).ab_write = true) := by
  apply skip_frames_exits
  simp only [int16_t, seq_t, Nat.cast_ofNat]
  omega

/-- More fuel than the length of the requested range does not change the stamping
loop. -/
theorem stamp_missing_fuel (fs rt q now : Int) (n : Nat) : ∀ (i : Int) (buf : Int → abuf_t),
    int16_t (seq_t q - seq_t i) ≤ n →
    stamp_missing fs rt q now (n + 1) i buf = stamp_missing fs rt q now n i buf := by
  induction n with
  | zero =>
    intro i buf h
    have hf : seq_order i q = false := by
      simp only [seq_order, decide_eq_false_iff_not]
      simp only [Nat.cast_zero] at h
      omega
    simp [stamp_missing, hf]
  | succ n ih =>
    intro i buf h
    rw [stamp_missing]
    conv => rhs; rw [stamp_missing]
    split
    · rename_i hc
      apply ih
      simp only [seq_order, seq_t, int16_t, decide_eq_true_eq] at hc
      simp only [seq_t, int16_t, Nat.cast_add, Nat.cast_one] at h ⊢
      omega
    · rfl

/-- More fuel than a sixteenth of the distance to `ab_write` does not change the
look-ahead resend loop. -/
theorem resend_ahead_fuel (now : Int) (k : Nat) : ∀ (i : Int) (ctx : raopst_t),
    int16_t (seq_t ctx.ab_write - seq_t (ctx.ab_read + i)) ≤ 16 * k →
    resend_ahead now (k + 1) i ctx = resend_ahead now k i ctx := by
  induction k with
  | zero =>
    intro i ctx h
    have hf : seq_order (ctx.ab_read + i) ctx.ab_write = false := by
      simp only [seq_order, decide_eq_false_iff_not]
      simp only [Nat.cast_zero] at h
      omega
    simp [resend_ahead, hf]
  | succ k ih =>
    intro i ctx h
    rw [resend_ahead]
    conv => rhs; rw [resend_ahead]
    split
    · rename_i hc
      apply ih
      rw [(resend_slot_ab ctx now i).1, (resend_slot_ab ctx now i).2]
      simp only [seq_order, seq_t, int16_t, decide_eq_true_eq] at hc
      simp only [seq_t, int16_t, Nat.cast_add, Nat.cast_one] at h ⊢
      omega
    · rfl

/-! ### C11, C12: drift insert and drift drop -/

/-- C11 (counterexample): starting from gap_count = 0, after GAP_COUNT + 1 = 21
accumulated samples that each leave gap_sum = 9 above GAP_THRES, gap_count is 21 and
no slot has been replayed: ab_read, gap_adjust and the slot before ab_read are
untouched and gap_sum has not been reduced. -/
theorem C11_drift_insert_counterexample :
    (run id fresh_session (gap_samples 0)).timing.gap_count = 0 ∧
    (run id fresh_session (gap_samples 21)).timing.gap_count = 21 ∧
    (run id fresh_session (gap_samples 21)).timing.gap_sum = 9 ∧
    (run id fresh_session (gap_samples 21)).ab_read = fresh_session.ab_read ∧
    (run id fresh_session (gap_samples 21)).timing.gap_adjust = 0 ∧
    ((run id fresh_session (gap_samples 21)).audio_buffer
        (BUFIDX (fresh_session.ab_read - 1))).ready = false := by
  decide

/-- C11 (amended): for a timing reply that is accumulated (roundtrip at most 100 ms,
`timing.drift` false, NTP_SYNC set), with g = gap_sum + delta: if g > GAP_THRES and
gap_count > GAP_COUNT before the reply, exactly one slot is replayed (ab_read is
decremented by one mod 2^16, the slot at the new ab_read is marked ready, every other
slot, ab_write and skip are unchanged), gap_sum becomes g - GAP_THRES and gap_adjust
decreases by GAP_THRES; if gap_count was not greater than GAP_COUNT there is no insert
and no drop (ab_read, skip, the slots and gap_adjust are unchanged and gap_sum is g);
and a reply with g > GAP_THRES and gap_count ≤ GAP_COUNT increments gap_count, so that
from gap_count = 0 the insert is made by the 22nd such reply. -/
theorem C11_drift_insert_amended (ctx : raopst_t) (now reference remote : Int)
    (hr : uint32_t (now - reference) ≤ 100) (hd : ctx.timing.drift = false)
    (hn : bit_and ctx.synchro.status NTP_SYNC ≠ 0) :
    (ctx.timing.gap_sum + timing_delta ctx reference remote > GAP_THRES →
      ctx.timing.gap_count > GAP_COUNT →
      (timing_reply ctx now reference remote).ab_read = seq_t (ctx.ab_read - 1) ∧
      ((timing_reply ctx now reference remote).audio_buffer
        (BUFIDX (seq_t (ctx.ab_read - 1)))).ready = true ∧
      (∀ j, j ≠ BUFIDX (seq_t (ctx.ab_read - 1)) →
        (timing_reply ctx now reference remote).audio_buffer j = ctx.audio_buffer j) ∧
      (timing_reply ctx now reference remote).ab_write = ctx.ab_write ∧
      (timing_reply ctx now reference remote).skip = ctx.skip ∧
      (timing_reply ctx now reference remote).timing.gap_sum
        = ctx.timing.gap_sum + timing_delta ctx reference remote - GAP_THRES ∧
      (timing_reply ctx now reference remote).timing.gap_adjust
        = ctx.timing.gap_adjust - GAP_THRES) ∧
    (ctx.timing.gap_count ≤ GAP_COUNT →
      (timing_reply ctx now reference remote).ab_read = ctx.ab_read ∧
      (timing_reply ctx now reference remote).ab_write = ctx.ab_write ∧
      (timing_reply ctx now reference remote).skip = ctx.skip ∧
      (timing_reply ctx now reference remote).audio_buffer = ctx.audio_buffer ∧
      (timing_reply ctx now reference remote).timing.gap_adjust = ctx.timing.gap_adjust ∧
      (timing_reply ctx now reference remote).timing.gap_sum
        = ctx.timing.gap_sum + timing_delta ctx reference remote) ∧
    (ctx.timing.gap_sum + timing_delta ctx reference remote > GAP_THRES →
      ctx.timing.gap_count ≤ GAP_COUNT →
      (timing_reply ctx now reference remote).timing.gap_count
        = ctx.timing.gap_count + 1) := by
  unfold timing_reply drift_adjust
  simp only [not_lt.mpr hr, if_false, hd, hn, ne_eq, not_false_eq_true, and_self, if_true,
    GAP_THRES, GAP_COUNT]
  refine ⟨?_, ?_, ?_⟩
  · intro h1 h2
    simp only [h1, h2, if_true]
    split_ifs <;> simp_all
  · intro h2
    simp only [not_lt.mpr h2, if_false]
    split_ifs <;> simp
  · intro h1 h2
    simp only [h1, not_lt.mpr h2, if_true, if_false]
    split_ifs with h3
    · omega
    · rfl

/-- C11 witness: on the state reached after 21 samples, the 22nd reply replays one
slot: ab_read goes from 1 to 0, slot 0 is marked ready, gap_sum drops from 9 to 1 and
gap_adjust from 0 to -8. -/
theorem C11_drift_insert_amended_witness :
    (run id fresh_session (gap_samples 22)).ab_read = 0 ∧
    ((run id fresh_session (gap_samples 22)).audio_buffer 0).ready = true ∧
    (timing_reply (run id fresh_session (gap_samples 21)) 1000 1000
        (4294967296 - MS2NTP 10)).timing.gap_sum
      = (run id fresh_session (gap_samples 21)).timing.gap_sum
        + timing_delta (run id fresh_session (gap_samples 21)) 1000 (4294967296 - MS2NTP 10)
        - GAP_THRES ∧
    (timing_reply (run id fresh_session (gap_samples 21)) 1000 1000
        (4294967296 - MS2NTP 10)).timing.gap_adjust
      = (run id fresh_session (gap_samples 21)).timing.gap_adjust - GAP_THRES :=
  ⟨by decide, by decide,
   ((C11_drift_insert_amended (run id fresh_session (gap_samples 21)) 1000 1000
      (4294967296 - MS2NTP 10) (by decide) (by decide) (by decide)).1
      (by decide) (by decide)).2.2.2.2.2.1,
   ((C11_drift_insert_amended (run id fresh_session (gap_samples 21)) 1000 1000
      (4294967296 - MS2NTP 10) (by decide) (by decide) (by decide)).1
      (by decide) (by decide)).2.2.2.2.2.2⟩

/-- Cursor moves of a drift adjustment on a buffer with non-negative fill. -/
theorem drift_adjust_cursor (ctx : raopst_t) (h : 0 ≤ buf_fill ctx) :
    seq_order ((drift_adjust ctx).ab_write + 1) (drift_adjust ctx).ab_read = false ∧
    ((drift_adjust ctx).ab_read = seq_t (ctx.ab_read + 1) → 2 ≤ buf_fill ctx) ∧
    (ctx.timing.gap_sum < -GAP_THRES → ctx.timing.gap_count > GAP_COUNT →
      buf_fill ctx = 0 →
      (drift_adjust ctx).ab_read = ctx.ab_read ∧ (drift_adjust ctx).skip = ctx.skip + 1) := by
  unfold drift_adjust
  simp only [buf_fill, int16_t, seq_order, seq_t, GAP_THRES, GAP_COUNT,
    decide_eq_true_eq, decide_eq_false_iff_not] at h ⊢
  refine ⟨?_, ?_, ?_⟩
  · split_ifs <;> (try dsimp only) <;> omega
  · split_ifs <;> (try dsimp only) <;> omega
  · intro h1 h2 h3
    have h4 : ¬ ctx.timing.gap_sum > 8 := by omega
    have h5 : ¬ (0 < (ctx.ab_write % 65536 - ctx.ab_read % 65536 + 32768) % 65536 - 32768) := by
      omega
    simp only [h4, h1, h2, h5, if_true, if_false]
    split_ifs <;> simp

set_option maxRecDepth 100000 in
/-- C12, counterexample: after `antipodal_trace` on a fresh session `ab_read` = 0 and
`ab_write` = 32767, so `ab_read` is not after `ab_write + 1` (seq_order(32768, 0) is
false; the two are 0x8000 apart).  The next timing reply performs a drift insert:
`ab_read` becomes 65535, which is after `ab_write + 1` = 32768. -/
theorem C12_drift_counterexample :
    (run id fresh_session antipodal_trace).ab_read = 0 ∧
    (run id fresh_session antipodal_trace).ab_write = 32767 ∧
    seq_order ((run id fresh_session antipodal_trace).ab_write + 1)
      (run id fresh_session antipodal_trace).ab_read = false ∧
    (timing_reply (run id fresh_session antipodal_trace) 1000 1000
      (4294967296 - MS2NTP 10)).ab_read = 65535 ∧
    (timing_reply (run id fresh_session antipodal_trace) 1000 1000
      (4294967296 - MS2NTP 10)).ab_write = 32767 ∧
    seq_order
      ((timing_reply (run id fresh_session antipodal_trace) 1000 1000
        (4294967296 - MS2NTP 10)).ab_write + 1)
      (timing_reply (run id fresh_session antipodal_trace) 1000 1000
        (4294967296 - MS2NTP 10)).ab_read = true := by
  decide

/-- C12, amended: for every state whose fill (int16_t)(ab_write - ab_read + 1) is not
negative, after a timing reply ab_read is still not after ab_write + 1; ab_read is
advanced only when the buffer is non-empty (it then holds at least two frames); and a
drift drop (accumulated reply with gap_sum + delta below -GAP_THRES and gap_count
above GAP_COUNT) on an empty buffer leaves ab_read unchanged and increments skip by
one. -/
theorem C12_drift_never_past_write (ctx : raopst_t) (now reference remote : Int)
    (h : 0 ≤ buf_fill ctx) :
    seq_order ((timing_reply ctx now reference remote).ab_write + 1)
      (timing_reply ctx now reference remote).ab_read = false ∧
    ((timing_reply ctx now reference remote).ab_read = seq_t (ctx.ab_read + 1) →
      2 ≤ buf_fill ctx) ∧
    (uint32_t (now - reference) ≤ 100 → ctx.timing.drift = false →
      bit_and ctx.synchro.status NTP_SYNC ≠ 0 →
      ctx.timing.gap_sum + timing_delta ctx reference remote < -GAP_THRES →
      ctx.timing.gap_count > GAP_COUNT → buf_fill ctx = 0 →
      (timing_reply ctx now reference remote).ab_read = ctx.ab_read ∧
      (timing_reply ctx now reference remote).skip = ctx.skip + 1) := by
  have h0 : seq_order (ctx.ab_write + 1) ctx.ab_read = false := by
    simp only [buf_fill, int16_t] at h
    simp only [seq_order, int16_t, seq_t, decide_eq_false_iff_not]
    omega
  have hne : ctx.ab_read ≠ seq_t (ctx.ab_read + 1) := by
    simp only [seq_t]; omega
  refine ⟨?_, ?_, ?_⟩
  · unfold timing_reply
    simp only []
    split_ifs
    · exact h0
    · dsimp only
      refine (drift_adjust_cursor _ ?_).1
      exact h
    · exact h0
  · unfold timing_reply
    simp only []
    split_ifs
    · intro he; exact absurd he hne
    · dsimp only
      refine (drift_adjust_cursor _ ?_).2.1
      exact h
    · intro he; exact absurd he hne
  · intro hr hd hn hg hc hf
    unfold timing_reply
    simp only [not_lt.mpr hr, if_false, hd, hn, ne_eq, not_false_eq_true, and_self, if_true]
    refine (drift_adjust_cursor _ ?_).2.2 hg hc hf
    exact h

/-- C12, witness: a drift drop on the empty buffer of `drop_session` leaves ab_read at
500, still not after ab_write + 1, and raises skip from 0 to 1. -/
theorem C12_drift_never_past_write_witness :
    buf_fill drop_session = 0 ∧
    seq_order ((timing_reply drop_session 50 0 0).ab_write + 1)
      (timing_reply drop_session 50 0 0).ab_read = false ∧
    (timing_reply drop_session 50 0 0).ab_read = drop_session.ab_read ∧
    (timing_reply drop_session 50 0 0).skip = drop_session.skip + 1 :=
  ⟨by decide,
   (C12_drift_never_past_write drop_session 50 0 0 (by decide)).1,
   ((C12_drift_never_past_write drop_session 50 0 0 (by decide)).2.2
      (by decide) (by decide) (by decide) (by decide) (by decide) (by decide)).1,
   ((C12_drift_never_past_write drop_session 50 0 0 (by decide)).2.2
      (by decide) (by decide) (by decide) (by decide) (by decide) (by decide)).2⟩

/-! ### C13: the PLAY event -/

/-- The slot choice fires no event and keeps the silence flag. -/
theorem put_place_play (ctx : raopst_t) (now q rt : Int) :
    (put_place ctx now q rt).2.events = ctx.events ∧
    (put_place ctx now q rt).2.silence = ctx.silence := by
  unfold put_place rtp_request_resend
  simp only []
  split_ifs <;> simp

/-- The start test fires no event; a play start sets the silence flag. -/
theorem put_start_play (ctx s : raopst_t) (q : Int) (h : put_start ctx q = some s) :
    s.events = ctx.events ∧ s.silence = (!ctx.playing || ctx.silence) := by
  unfold put_start at h
  cases hp : ctx.playing
  · simp only [hp, Bool.not_false, if_true] at h
    split_ifs at h
    simp only [Option.some.injEq] at h
    subst h
    simp
  · simp only [hp, Bool.not_true, Bool.false_eq_true, if_false, Option.some.injEq] at h
    subst h
    simp [hp]

/-- Storing a frame fires PLAY exactly for a non-zero frame while the flag is set. -/
theorem put_store_play (alac_decode : List Int → List Int) (c : raopst_t)
    (abuf : Option Int) (rt : Int) (d : List Int) :
    (put_store alac_decode c abuf rt d).events
      = (if c.silence = true ∧ abuf.isSome = true ∧ memcmp_silence (alac_decode d) = true
          then c.events ++ [RAOP_STREAMER_PLAY] else c.events) ∧
    (put_store alac_decode c abuf rt d).silence
      = (c.silence && !(abuf.isSome && memcmp_silence (alac_decode d))) := by
  unfold put_store
  cases abuf with
  | none => simp
  | some idx =>
    cases hs : c.silence <;> cases hm : memcmp_silence (alac_decode d) <;> simp [hs, hm]

/-- The PLAY event of one `buffer_put_packet` call. -/
theorem put_play_event (alac_decode : List Int → List Int) (ctx : raopst_t)
    (now q rt : Int) (f : Bool) (d : List Int) :
    (buffer_put_packet alac_decode ctx now q rt f d).events
      = (if (put_starts ctx q || ctx.silence) = true ∧ (put_slot ctx now q rt).isSome = true ∧
            memcmp_silence (alac_decode d) = true
          then ctx.events ++ [RAOP_STREAMER_PLAY] else ctx.events) ∧
    (buffer_put_packet alac_decode ctx now q rt f d).silence
      = ((put_starts ctx q || ctx.silence) &&
          !((put_slot ctx now q rt).isSome && memcmp_silence (alac_decode d))) := by
  unfold buffer_put_packet put_slot put_starts
  simp only []
  cases hs : put_start ctx (seq_t q) with
  | none => simp
  | some s =>
    have h1 := put_start_play ctx s (seq_t q) hs
    simp only [(put_store_play _ _ _ _ _).1, (put_store_play _ _ _ _ _).2,
      (put_place_play _ _ _ _).1, (put_place_play _ _ _ _).2]
    split <;> simp only [h1.1, h1.2, Option.isSome_some, Bool.and_true] <;>
    cases ctx.playing <;> cases ctx.silence <;> simp

/-- `same_play` is transitive. -/
theorem same_play_trans {a b c : raopst_t} (h1 : same_play a b) (h2 : same_play b c) :
    same_play a c := ⟨h2.1.trans h1.1, h2.2.trans h1.2⟩

/-- A resend request fires no event. -/
theorem rtp_request_resend_play (ctx : raopst_t) (a b : Int) :
    same_play ctx (rtp_request_resend ctx a b).2 := by
  unfold rtp_request_resend same_play
  simp only []
  split <;> simp

/-- Re-requesting a slot fires no event. -/
theorem resend_slot_play (ctx : raopst_t) (now i : Int) :
    same_play ctx (resend_slot ctx now i) := by
  unfold resend_slot
  simp only []
  split
  · exact ⟨(rtp_request_resend_play ctx _ _).1, (rtp_request_resend_play ctx _ _).2⟩
  · exact ⟨rfl, rfl⟩

/-- The catch-up loop fires no event. -/
theorem catch_up_play (now n : Int) (k : Nat) : ∀ (i : Int) (ctx : raopst_t),
    same_play ctx (catch_up now n k i ctx) := by
  induction k with
  | zero => intro i ctx; exact ⟨rfl, rfl⟩
  | succ k ih =>
    intro i ctx
    unfold catch_up
    split
    · exact same_play_trans (resend_slot_play ctx now i) (ih _ _)
    · exact ⟨rfl, rfl⟩

/-- The look-ahead resend loop fires no event. -/
theorem resend_ahead_play (now : Int) (k : Nat) : ∀ (i : Int) (ctx : raopst_t),
    same_play ctx (resend_ahead now k i ctx) := by
  induction k with
  | zero => intro i ctx; exact ⟨rfl, rfl⟩
  | succ k ih =>
    intro i ctx
    unfold resend_ahead
    split
    · exact same_play_trans (resend_slot_play ctx now i) (ih _ _)
    · exact ⟨rfl, rfl⟩

/-- The skip loop fires no event. -/
theorem skip_frames_play (n : Nat) : ∀ ctx : raopst_t, same_play ctx (skip_frames n ctx) := by
  induction n with
  | zero => intro ctx; exact ⟨rfl, rfl⟩
  | succ n ih =>
    intro ctx
    unfold skip_frames
    split
    · exact same_play_trans ⟨rfl, rfl⟩ (ih _)
    · exact ⟨rfl, rfl⟩

/-- The puller after the overrun step fires no event. -/
theorem get_frame_play_play (ctx : raopst_t) (fill now : Int) :
    same_play ctx (get_frame_play ctx fill now).2 := by
  have h0 : same_play ctx (stamp_empty ctx fill) := by
    unfold stamp_empty same_play; simp only []; split <;> simp
  unfold get_frame_play
  simp only []
  split
  · exact same_play_trans h0 (catch_up_play now (min 16 fill) 16 0 (stamp_empty ctx fill))
  · have h1 : same_play (stamp_empty ctx fill) (advance_write (stamp_empty ctx fill) fill) := by
      unfold advance_write same_play; simp only []; split <;> simp
    have h2 := resend_ahead_play now 4096 16 (advance_write (stamp_empty ctx fill) fill)
    generalize resend_ahead now 4096 16 (advance_write (stamp_empty ctx fill) fill) = r at h2 ⊢
    have h3 : same_play r (zero_fill r (BUFIDX ctx.ab_read)) := by
      unfold zero_fill same_play; split <;> simp
    generalize zero_fill r (BUFIDX ctx.ab_read) = z at h3 ⊢
    exact same_play_trans (same_play_trans (same_play_trans h0 h1) h2)
      (same_play_trans h3 ⟨rfl, rfl⟩)

/-- `_buffer_get_frame` fires no event and keeps the silence flag. -/
theorem buffer_get_frame_play (ctx : raopst_t) (now : Int) :
    same_play ctx (_buffer_get_frame ctx now).2 := by
  unfold _buffer_get_frame
  split_ifs
  · exact ⟨rfl, rfl⟩
  · exact ⟨rfl, rfl⟩
  · exact ⟨rfl, rfl⟩
  · unfold get_frame_body
    have hs := skip_frames_play 32768 ctx
    generalize skip_frames 32768 ctx = c1 at hs ⊢
    have ho : same_play c1 (overrun_cap c1).2 := by
      unfold overrun_cap same_play; simp only []; split <;> simp
    exact same_play_trans (same_play_trans hs ho) (get_frame_play_play _ _ now)

/-- `raopst_flush` fires no event and keeps the silence flag. -/
theorem raopst_flush_play (ctx : raopst_t) (now seqno rtptime : Int) (silence : Bool) :
    same_play ctx (raopst_flush ctx now seqno rtptime silence).2 := by
  unfold raopst_flush encoder_close same_play
  cases hh : ctx.encode.handle <;> split_ifs <;> simp [hh]

/-- A timing reply fires no event and keeps the silence flag. -/
theorem timing_reply_play (ctx : raopst_t) (now reference remote : Int) :
    same_play ctx (timing_reply ctx now reference remote) := by
  unfold timing_reply drift_adjust same_play
  simp only []
  split_ifs <;> simp

/-- Operations other than a packet leave the PLAY events and the silence flag alone. -/
theorem step_play (alac_decode : List Int → List Int) (ctx : raopst_t) (o : op)
    (h : ∀ t q r f d, o ≠ op.put t q r f d) : same_play ctx (step alac_decode ctx o) := by
  cases o with
  | put t q r f d => exact absurd rfl (h t q r f d)
  | get now => exact buffer_get_frame_play ctx now
  | flush now q r sil => exact raopst_flush_play ctx now q r sil
  | record now q r => exact ⟨rfl, rfl⟩
  | timing now ref rem => exact timing_reply_play ctx now ref rem

/-- One operation that is not a play start either keeps events and silence, or fires
the single PLAY of a run that was still silent. -/
theorem step_no_start (alac_decode : List Int → List Int) (ctx : raopst_t) (o : op)
    (h : starts_play ctx o = false) :
    same_play ctx (step alac_decode ctx o) ∨
    (ctx.silence = true ∧ (step alac_decode ctx o).silence = false ∧
      (step alac_decode ctx o).events = ctx.events ++ [RAOP_STREAMER_PLAY]) := by
  cases ho : o with
  | put t q r f d =>
    subst ho
    simp only [starts_play] at h
    have hp := put_play_event alac_decode ctx t q r f d
    simp only [h, Bool.false_or] at hp
    simp only [step, same_play]
    rw [hp.1, hp.2]
    cases ctx.silence <;> cases (put_slot ctx t q r).isSome <;>
      cases memcmp_silence (alac_decode d) <;> simp
  | get now => left; exact step_play alac_decode ctx _ (by intro _ _ _ _ _ hc; cases hc)
  | flush now q r sil =>
    left; exact step_play alac_decode ctx _ (by intro _ _ _ _ _ hc; cases hc)
  | record now q r => left; exact step_play alac_decode ctx _ (by intro _ _ _ _ _ hc; cases hc)
  | timing now ref rem =>
    left; exact step_play alac_decode ctx _ (by intro _ _ _ _ _ hc; cases hc)

/-- A run without a play start fires PLAY at most once, and only if it began silent. -/
theorem run_no_start (alac_decode : List Int → List Int) (ops : List op) :
    ∀ ctx : raopst_t, no_start alac_decode ctx ops →
    same_play ctx (run alac_decode ctx ops) ∨
    (ctx.silence = true ∧ (run alac_decode ctx ops).silence = false ∧
      (run alac_decode ctx ops).events = ctx.events ++ [RAOP_STREAMER_PLAY]) := by
  induction ops with
  | nil => intro ctx _; left; exact ⟨rfl, rfl⟩
  | cons o os ih =>
    intro ctx h
    have h1 := step_no_start alac_decode ctx o h.1
    have h2 := ih (step alac_decode ctx o) h.2
    have hr : run alac_decode ctx (o :: os) = run alac_decode (step alac_decode ctx o) os := rfl
    rw [hr]
    rcases h1 with h1 | ⟨a1, a2, a3⟩
    · rcases h2 with h2 | ⟨b1, b2, b3⟩
      · left; exact same_play_trans h1 h2
      · right; exact ⟨by rw [← h1.2]; exact b1, b2, by rw [b3, h1.1]⟩
    · rcases h2 with h2 | ⟨b1, b2, b3⟩
      · right; exact ⟨a1, by rw [h2.2]; exact a2, by rw [h2.1]; exact a3⟩
      · rw [a2] at b1; exact absurd b1 (by simp)

/-- While the silence flag is set, an operation that is not a play start fires PLAY and
clears the flag if it places a non-silent frame, and otherwise leaves events and flag
alone. -/
theorem step_armed (alac_decode : List Int → List Int) (ctx : raopst_t) (o : op)
    (h : starts_play ctx o = false) (hs : ctx.silence = true) :
    (places_loud alac_decode ctx o = false → same_play ctx (step alac_decode ctx o)) ∧
    (places_loud alac_decode ctx o = true →
      (step alac_decode ctx o).events = ctx.events ++ [RAOP_STREAMER_PLAY] ∧
      (step alac_decode ctx o).silence = false) := by
  cases ho : o with
  | put t q r f d =>
    subst ho
    simp only [starts_play] at h
    have hp := put_play_event alac_decode ctx t q r f d
    simp only [h, Bool.false_or, hs, true_and, Bool.true_and] at hp
    simp only [step, same_play, places_loud]
    rw [hp.1, hp.2]
    cases (put_slot ctx t q r).isSome <;> cases memcmp_silence (alac_decode d) <;> simp [hs]
  | get now =>
    exact ⟨fun _ => step_play alac_decode ctx _ (by intro _ _ _ _ _ hc; cases hc),
      fun hc => by simp [places_loud] at hc⟩
  | flush now q r sil =>
    exact ⟨fun _ => step_play alac_decode ctx _ (by intro _ _ _ _ _ hc; cases hc),
      fun hc => by simp [places_loud] at hc⟩
  | record now q r =>
    exact ⟨fun _ => step_play alac_decode ctx _ (by intro _ _ _ _ _ hc; cases hc),
      fun hc => by simp [places_loud] at hc⟩
  | timing now ref rem =>
    exact ⟨fun _ => step_play alac_decode ctx _ (by intro _ _ _ _ _ hc; cases hc),
      fun hc => by simp [places_loud] at hc⟩

/-- Once the flag is clear, a run without a play start fires nothing. -/
theorem run_fired (alac_decode : List Int → List Int) (ops : List op) (c : raopst_t)
    (hns : no_start alac_decode c ops) (hsil : c.silence = false) :
    (run alac_decode c ops).events = c.events ∧ (run alac_decode c ops).silence = false := by
  rcases run_no_start alac_decode ops c hns with h | ⟨h1, -, -⟩
  · exact ⟨h.1, by rw [h.2]; exact hsil⟩
  · rw [hsil] at h1; exact absurd h1 (by simp)

/-- From a state with the silence flag set, in a run without a play start: as long as
no operation places a non-silent frame nothing is fired and the flag stays set; the
first operation that places one fires PLAY, and the rest of the run fires nothing. -/
theorem armed_run (alac_decode : List Int → List Int) :
    ∀ (pre : List op) (s : raopst_t) (o : op) (post : List op),
    s.silence = true → no_start alac_decode s (pre ++ o :: post) →
    all_quiet alac_decode s pre →
    (run alac_decode s pre).events = s.events ∧
    (run alac_decode s pre).silence = true ∧
    (places_loud alac_decode (run alac_decode s pre) o = false →
      (run alac_decode s (pre ++ [o])).events = s.events) ∧
    (places_loud alac_decode (run alac_decode s pre) o = true →
      (run alac_decode s (pre ++ [o])).events = s.events ++ [RAOP_STREAMER_PLAY] ∧
      (run alac_decode s (pre ++ o :: post)).events = s.events ++ [RAOP_STREAMER_PLAY]) := by
  intro pre
  induction pre with
  | nil =>
    intro s o post hs hns _
    have ha := step_armed alac_decode s o hns.1 hs
    refine ⟨rfl, hs, ?_, ?_⟩
    · intro hq
      exact (ha.1 hq).1
    · intro hl
      have h1 := ha.2 hl
      refine ⟨h1.1, ?_⟩
      have hr := run_fired alac_decode post (step alac_decode s o) hns.2 h1.2
      have e : run alac_decode s ([] ++ o :: post)
          = run alac_decode (step alac_decode s o) post := rfl
      rw [e, hr.1, h1.1]
  | cons p pre ih =>
    intro s o post hs hns hq
    have ha := (step_armed alac_decode s p hns.1 hs).1 hq.1
    have hs1 : (step alac_decode s p).silence = true := by rw [ha.2]; exact hs
    have h := ih (step alac_decode s p) o post hs1 hns.2 hq.2
    have e1 : run alac_decode s (p :: pre) = run alac_decode (step alac_decode s p) pre := rfl
    have e2 : run alac_decode s (p :: pre ++ [o])
        = run alac_decode (step alac_decode s p) (pre ++ [o]) := rfl
    have e3 : run alac_decode s (p :: pre ++ o :: post)
        = run alac_decode (step alac_decode s p) (pre ++ o :: post) := rfl
    rw [e1, e2, e3, ← ha.1]
    exact h

/-- A run without a play start and without a non-silent frame placed fires nothing. -/
theorem quiet_run (alac_decode : List Int → List Int) :
    ∀ (ops : List op) (s : raopst_t), s.silence = true → no_start alac_decode s ops →
    all_quiet alac_decode s ops →
    (run alac_decode s ops).events = s.events ∧ (run alac_decode s ops).silence = true := by
  intro ops
  induction ops with
  | nil => intro s hs _ _; exact ⟨rfl, hs⟩
  | cons p ops ih =>
    intro s hs hns hq
    have ha := (step_armed alac_decode s p hns.1 hs).1 hq.1
    have hs1 : (step alac_decode s p).silence = true := by rw [ha.2]; exact hs
    have h := ih (step alac_decode s p) hs1 hns.2 hq.2
    have e1 : run alac_decode s (p :: ops) = run alac_decode (step alac_decode s p) ops := rfl
    rw [e1, ← ha.1]
    exact h

/-- C13: PLAY event of a play-run.  One `buffer_put_packet` call invokes the callback
exactly when the silence flag is set while the frame is examined (it was set, or this
call is the play start), the packet is placed, and the decoded frame differs from the
all-zero frame; the flag is cleared by that call and by nothing else, and only a play
start sets it; pulls, flushes, records and timing replies neither invoke the callback
nor touch the flag.  Hence, from a play start up to (not including) the next one,
whatever packets, pulls, flushes, records and timing replies follow: the callback is
invoked at most once; as long as no frame that differs from the all-zero frame has been
placed it has not been invoked (so never for a frame equal to silence, and not at all
in a run that places no such frame); it is invoked by the operation that places the
first such frame of the run, and by no operation after it; and in a stretch without a
play start that begins with the flag clear it is not invoked at all. -/
theorem C13_play_event_once (alac_decode : List Int → List Int) (ctx : raopst_t)
    (now q rt : Int) (f : Bool) (d : List Int) (ops : List op)
    (hstart : put_starts ctx q = true)
    (hrun : no_start alac_decode (buffer_put_packet alac_decode ctx now q rt f d) ops) :
    ((buffer_put_packet alac_decode ctx now q rt f d).events
      = (if (put_slot ctx now q rt).isSome = true ∧ memcmp_silence (alac_decode d) = true
          then ctx.events ++ [RAOP_STREAMER_PLAY] else ctx.events)) ∧
    ((buffer_put_packet alac_decode ctx now q rt f d).silence
      = !((put_slot ctx now q rt).isSome && memcmp_silence (alac_decode d))) ∧
    ((run alac_decode ctx (op.put now q rt f d :: ops)).events = ctx.events ∨
      (run alac_decode ctx (op.put now q rt f d :: ops)).events
        = ctx.events ++ [RAOP_STREAMER_PLAY]) ∧
    (∀ (c : raopst_t) (t q' r : Int) (f' : Bool) (d' : List Int),
      put_starts c q' = false →
      (buffer_put_packet alac_decode c t q' r f' d').events
        = (if c.silence = true ∧ (put_slot c t q' r).isSome = true ∧
              memcmp_silence (alac_decode d') = true
            then c.events ++ [RAOP_STREAMER_PLAY] else c.events) ∧
      (buffer_put_packet alac_decode c t q' r f' d').silence
        = (c.silence && !((put_slot c t q' r).isSome && memcmp_silence (alac_decode d')))) ∧
    (∀ (c : raopst_t) (os : List op), no_start alac_decode c os → c.silence = false →
      (run alac_decode c os).events = c.events ∧ (run alac_decode c os).silence = false) ∧
    (∀ (c : raopst_t) (o : op), (∀ t q' r f' d', o ≠ op.put t q' r f' d') →
      (step alac_decode c o).events = c.events ∧
      (step alac_decode c o).silence = c.silence) ∧
    (all_quiet alac_decode ctx (op.put now q rt f d :: ops) →
      (run alac_decode ctx (op.put now q rt f d :: ops)).events = ctx.events ∧
      (run alac_decode ctx (op.put now q rt f d :: ops)).silence = true) ∧
    (∀ (pre : List op) (o : op) (post : List op),
      op.put now q rt f d :: ops = pre ++ o :: post → all_quiet alac_decode ctx pre →
      (run alac_decode ctx pre).events = ctx.events ∧
      (places_loud alac_decode (run alac_decode ctx pre) o = false →
        (run alac_decode ctx (pre ++ [o])).events = ctx.events) ∧
      (places_loud alac_decode (run alac_decode ctx pre) o = true →
        (run alac_decode ctx (pre ++ [o])).events = ctx.events ++ [RAOP_STREAMER_PLAY] ∧
        (run alac_decode ctx (op.put now q rt f d :: ops)).events
          = ctx.events ++ [RAOP_STREAMER_PLAY])) := by
  have hp := put_play_event alac_decode ctx now q rt f d
  simp only [hstart, Bool.true_or, true_and, Bool.true_and] at hp
  have hr : run alac_decode ctx (op.put now q rt f d :: ops)
      = run alac_decode (buffer_put_packet alac_decode ctx now q rt f d) ops := rfl
  have hquiet : places_loud alac_decode ctx (op.put now q rt f d) = false →
      (buffer_put_packet alac_decode ctx now q rt f d).events = ctx.events ∧
      (buffer_put_packet alac_decode ctx now q rt f d).silence = true := by
    intro hq
    simp only [places_loud] at hq
    rw [hp.1, hp.2, hq]
    refine ⟨?_, rfl⟩
    have : ¬ ((put_slot ctx now q rt).isSome = true ∧
        memcmp_silence (alac_decode d) = true) := by
      intro hc
      simp [hc.1, hc.2] at hq
    simp only [this, if_false]
  have hloud : places_loud alac_decode ctx (op.put now q rt f d) = true →
      (buffer_put_packet alac_decode ctx now q rt f d).events
        = ctx.events ++ [RAOP_STREAMER_PLAY] ∧
      (buffer_put_packet alac_decode ctx now q rt f d).silence = false := by
    intro hq
    simp only [places_loud] at hq
    rw [hp.1, hp.2, hq]
    refine ⟨?_, rfl⟩
    have : (put_slot ctx now q rt).isSome = true ∧
        memcmp_silence (alac_decode d) = true := by
      simpa using hq
    simp only [this, and_self, if_true]
  refine ⟨hp.1, hp.2, ?_, ?_, ?_, ?_, ?_, ?_⟩
  · rw [hr]
    rcases run_no_start alac_decode ops _ hrun with h | ⟨h1, -, h3⟩
    · rw [h.1, hp.1]
      split_ifs
      · right; rfl
      · left; rfl
    · rw [h3, hp.1]
      rw [hp.2] at h1
      have : ¬ ((put_slot ctx now q rt).isSome = true ∧
          memcmp_silence (alac_decode d) = true) := by
        intro hc
        simp [hc.1, hc.2] at h1
      simp only [this, if_false]
      right; trivial
  · intro c t q' r f' d' hns
    have hq := put_play_event alac_decode c t q' r f' d'
    simp only [hns, Bool.false_or] at hq
    exact hq
  · intro c os hns hsil
    exact run_fired alac_decode os c hns hsil
  · intro c o ho
    exact step_play alac_decode c o ho
  · intro hq
    have h1 := hquiet hq.1
    have h2 := quiet_run alac_decode ops _ h1.2 hrun hq.2
    rw [hr, h2.1, h2.2]
    exact ⟨h1.1, rfl⟩
  · intro pre o post hsplit hq
    cases pre with
    | nil =>
      simp only [List.nil_append, List.cons.injEq] at hsplit
      obtain ⟨ho, hpost⟩ := hsplit
      subst ho
      refine ⟨rfl, ?_, ?_⟩
      · intro hl
        exact (hquiet hl).1
      · intro hl
        have h1 := hloud hl
        refine ⟨h1.1, ?_⟩
        have h2 := run_fired alac_decode ops _ hrun h1.2
        rw [hr, h2.1, h1.1]
    | cons p pre =>
      simp only [List.cons_append, List.cons.injEq] at hsplit
      obtain ⟨hp0, hops⟩ := hsplit
      subst hp0
      have h1 := hquiet hq.1
      rw [hops] at hrun
      have h := armed_run alac_decode pre _ o post h1.2 hrun hq.2
      have e1 : run alac_decode ctx (op.put now q rt f d :: pre)
          = run alac_decode (buffer_put_packet alac_decode ctx now q rt f d) pre := rfl
      have e2 : run alac_decode ctx (op.put now q rt f d :: pre ++ [o])
          = run alac_decode (buffer_put_packet alac_decode ctx now q rt f d) (pre ++ [o]) :=
        rfl
      rw [e1, e2, hr, hops, ← h1.1]
      exact ⟨h.1, h.2.2.1, h.2.2.2⟩

/-- C13 witness: a run started by a silent packet 10, followed by a silent packet 11,
a pull, the non-silent packet 12 and the non-silent packet 13: the start fires
nothing, nothing is fired up to the pull, packet 12 fires PLAY, and the whole run
fires PLAY exactly once. -/
theorem C13_play_event_once_witness :
    (buffer_put_packet id fresh_session 0 10 5000 true [0, 0]).events = [] ∧
    ((run id fresh_session
        [op.put 0 10 5000 true [0, 0], op.put 8 11 5352 false [0, 0], op.get 9,
         op.put 16 12 5704 false [1, 2], op.put 24 13 6056 false [3, 4]]).events
      = fresh_session.events ∨
     (run id fresh_session
        [op.put 0 10 5000 true [0, 0], op.put 8 11 5352 false [0, 0], op.get 9,
         op.put 16 12 5704 false [1, 2], op.put 24 13 6056 false [3, 4]]).events
      = fresh_session.events ++ [RAOP_STREAMER_PLAY]) ∧
    (run id fresh_session
        [op.put 0 10 5000 true [0, 0], op.put 8 11 5352 false [0, 0], op.get 9,
         op.put 16 12 5704 false [1, 2], op.put 24 13 6056 false [3, 4]]).events
      = [RAOP_STREAMER_PLAY] ∧
    (run id fresh_session
        [op.put 0 10 5000 true [0, 0], op.put 8 11 5352 false [0, 0], op.get 9]).events
      = fresh_session.events ∧
    (run id fresh_session
        ([op.put 0 10 5000 true [0, 0], op.put 8 11 5352 false [0, 0], op.get 9]
          ++ [op.put 16 12 5704 false [1, 2]])).events
      = fresh_session.events ++ [RAOP_STREAMER_PLAY] :=
  ⟨by decide,
   (C13_play_event_once id fresh_session 0 10 5000 true [0, 0]
      [op.put 8 11 5352 false [0, 0], op.get 9, op.put 16 12 5704 false [1, 2],
       op.put 24 13 6056 false [3, 4]]
      (by decide)
      ⟨by decide, by decide, by decide, by decide, trivial⟩).2.2.1,
   by decide,
   ((C13_play_event_once id fresh_session 0 10 5000 true [0, 0]
      [op.put 8 11 5352 false [0, 0], op.get 9, op.put 16 12 5704 false [1, 2],
       op.put 24 13 6056 false [3, 4]]
      (by decide)
      ⟨by decide, by decide, by decide, by decide, trivial⟩).2.2.2.2.2.2.2
      [op.put 0 10 5000 true [0, 0], op.put 8 11 5352 false [0, 0], op.get 9]
      (op.put 16 12 5704 false [1, 2]) [op.put 24 13 6056 false [3, 4]] rfl
      ⟨by decide, by decide, by decide, trivial⟩).1,
   (((C13_play_event_once id fresh_session 0 10 5000 true [0, 0]
      [op.put 8 11 5352 false [0, 0], op.get 9, op.put 16 12 5704 false [1, 2],
       op.put 24 13 6056 false [3, 4]]
      (by decide)
      ⟨by decide, by decide, by decide, by decide, trivial⟩).2.2.2.2.2.2.2
      [op.put 0 10 5000 true [0, 0], op.put 8 11 5352 false [0, 0], op.get 9]
      (op.put 16 12 5704 false [1, 2]) [op.put 24 13 6056 false [3, 4]] rfl
      ⟨by decide, by decide, by decide, trivial⟩).2.2 (by decide)).1⟩

/-! ### C14, C15: resend and timing requests -/

/-- C14 (code at the failing input): for first = 65000 and last = 100 the range wraps
past 65535 and spans 636 > BUFFER_FRAMES / 2 sequence numbers, last is not before
first, and `rtp_request_resend` returns true, adds 637 to resent_frames and emits a
request for 637 frames; the same happens inside `buffer_put_packet` when packet 101
follows packet 64999 on a session without latency cap. -/
theorem C14_resend_wrap_code :
    seq_order 100 65000 = false ∧
    seq_t (100 - 65000) = 636 ∧
    (rtp_request_resend playing_session 65000 100).1 = true ∧
    (rtp_request_resend playing_session 65000 100).2.resent_frames
      = playing_session.resent_frames + 637 ∧
    (rtp_request_resend playing_session 65000 100).2.sent
      = playing_session.sent ++ [(CONTROL, [0x80, 0xd5, 0, 1, 253, 232, 2, 125])] ∧
    (run id nolatency_session
        [op.put 0 64999 0 true [1], op.put 8 101 224576 false [1]]).resent_frames = 637 ∧
    (run id nolatency_session
        [op.put 0 64999 0 true [1], op.put 8 101 224576 false [1]]).sent
      = [(CONTROL, [0x80, 0xd5, 0, 1, 253, 232, 2, 125])] := by
  decide

/-- C15: the timing request built by `rtp_request_timing` is exactly 32 bytes: bytes
0-1 are 0x80, 0xD2, bytes 2-3 are 7 in network order, the 20 bytes that follow (and
the four after them, up to byte 27) are zero, and bytes 28-31 hold the millisecond
tick `now` in network order; the function returns false without sending when neither
a configured peer address nor a source address of a received packet is known, and
otherwise returns true and sends exactly this request on the timing socket. -/
theorem C15_timing_request (ctx : raopst_t) (now : Int) (h0 : 0 ≤ now)
    (h1 : now < 4294967296) :
    (timing_request now).length = 32 ∧
    (timing_request now).take 4 = [0x80, 0xd2, 0, 7] ∧
    ((timing_request now).drop 4).take 20 = List.replicate 20 0 ∧
    ((timing_request now).drop 24).take 4 = [0, 0, 0, 0] ∧
    (∃ b3 b2 b1 b0 : Int, (timing_request now).drop 28 = [b3, b2, b1, b0] ∧
      0 ≤ b3 ∧ b3 < 256 ∧ 0 ≤ b2 ∧ b2 < 256 ∧ 0 ≤ b1 ∧ b1 < 256 ∧ 0 ≤ b0 ∧ b0 < 256 ∧
      b3 * 16777216 + b2 * 65536 + b1 * 256 + b0 = now) ∧
    (ctx.peer = 0 → ctx.rtp_host = 0 → rtp_request_timing ctx now = (false, ctx)) ∧
    ((ctx.peer ≠ 0 ∨ ctx.rtp_host ≠ 0) →
      (rtp_request_timing ctx now).1 = true ∧
      (rtp_request_timing ctx now).2.sent = ctx.sent ++ [(TIMING, timing_request now)]) := by
  have hz : htonl 0 = [0, 0, 0, 0] := by decide
  have h7 : htons 7 = [0, 7] := by decide
  have hl : (htonl now).length = 4 := rfl
  refine ⟨by simp [timing_request, h7, hz, hl], by simp [timing_request, h7, hz],
    by simp [timing_request, h7, hz, List.replicate],
    by simp [timing_request, h7, hz, List.replicate], ?_, ?_, ?_⟩
  · refine ⟨now / 16777216 % 256, now / 65536 % 256, now / 256 % 256, now % 256, ?_, ?_⟩
    · have e : uint32_t now = now := by unfold uint32_t; omega
      simp [timing_request, h7, hz, List.replicate, htonl, e]
    · omega
  · intro hp hh
    simp [rtp_request_timing, hp, hh]
  · intro h
    unfold rtp_request_timing
    by_cases hp : ctx.peer = 0
    · have hh : ctx.rtp_host ≠ 0 := by
        rcases h with h | h
        · exact absurd hp h
        · exact h
      simp [hp, hh]
    · simp [hp]

/-- C15 witness: at tick 0x01020304 the request ends in 01 02 03 04; a session with no
peer and no packet received yet sends nothing, one with a known source address sends
the request. -/
theorem C15_timing_request_witness :
    (timing_request 16909060).drop 28 = [1, 2, 3, 4] ∧
    rtp_request_timing fresh_session 16909060 = (false, fresh_session) ∧
    (rtp_request_timing { fresh_session with rtp_host := 3232235777 } 16909060).2.sent
      = [(TIMING, timing_request 16909060)] :=
  ⟨by decide,
   (C15_timing_request fresh_session 16909060 (by decide) (by decide)).2.2.2.2.2.1
      (by decide) (by decide),
   ((C15_timing_request { fresh_session with rtp_host := 3232235777 } 16909060
      (by decide) (by decide)).2.2.2.2.2.2 (Or.inr (by decide))).2⟩

/-! ### C16: DAAP envelope -/

/-- Every `'s'` or `'i'` entry writes at least its 4 tag bytes. -/
theorem daap_write_arg_length (a : daap_arg) (rest : List daap_arg)
    (h : daap_args_ok (a :: rest)) : 4 ≤ (daap_write_arg a).length := by
  cases a with
  | s fmt data => simp [daap_args_ok] at h; simp [daap_write_arg, h.1]
  | i fmt data => simp [daap_args_ok] at h; simp [daap_write_arg, h.1]
  | other fmt => simp [daap_args_ok] at h

/-- The tail of a well-formed argument list is well-formed. -/
theorem daap_args_ok_tail (a : daap_arg) (rest : List daap_arg)
    (h : daap_args_ok (a :: rest)) : daap_args_ok rest := by
  cases a with
  | s fmt data => exact h.2
  | i fmt data => exact h.2
  | other fmt => exact absurd h (by simp [daap_args_ok])

/-- With room for all entries the loop writes every entry, in order. -/
theorem daap_loop_all (args : List daap_arg) : ∀ buf : List Int, daap_args_ok args →
    buf.length + ((args.map daap_write_arg).flatten).length ≤ 1024 →
    daap_loop args buf = buf ++ (args.map daap_write_arg).flatten := by
  induction args with
  | nil => intro buf _ _; simp [daap_loop]
  | cons a rest ih =>
    intro buf hok hfit
    have h4 := daap_write_arg_length a rest hok
    simp only [List.map_cons, List.flatten_cons, List.length_append] at hfit
    have hlt : (buf.length : Int) < 1024 := by omega
    rw [daap_loop, if_pos hlt, ih _ (daap_args_ok_tail a rest hok)
      (by simp only [List.length_append]; omega)]
    simp [List.append_assoc]

/-- For entries that fit, the bytes written are the claim's fields. -/
theorem daap_write_eq_entry (args : List daap_arg) : daap_args_ok args →
    ((args.map daap_entry).flatten).length ≤ 1024 →
    (args.map daap_write_arg).flatten = (args.map daap_entry).flatten := by
  induction args with
  | nil => intro _ _; rfl
  | cons a rest ih =>
    intro hok hfit
    simp only [List.map_cons, List.flatten_cons, List.length_append] at hfit ⊢
    rw [ih (daap_args_ok_tail a rest hok) (by omega)]
    congr 1
    cases a with
    | s fmt data =>
      simp only [daap_args_ok] at hok
      simp only [daap_entry, daap_field, List.length_append] at hfit
      have hl : uint32_t (data.length : Int) = data.length := by
        unfold uint32_t; omega
      simp [daap_write_arg, daap_entry, daap_field, BE32, hl, List.take_of_length_le, hok.1]
    | i fmt data =>
      simp only [daap_args_ok] at hok
      simp [daap_write_arg, daap_entry, daap_field, BE32, List.take_of_length_le, hok.1]
    | other fmt => simp [daap_args_ok] at hok

/-- On a usable socket `exec_request` writes the request text followed by `length`
bytes of the content (`strlen(content)` bytes when `length` is 0), whatever the
response; on an unusable one it writes nothing. -/
theorem exec_request_sent (p : rtspcl_t) (io : rtsp_reply) (cmd ct : String)
    (content : List Int) (length get_response : Int) (hds : List (String × String))
    (url : Option String) :
    (p.fd ≠ -1 → io.writable = true →
      (exec_request p io cmd (some ct) (some content) length get_response hds url).request
        = some (request_text p cmd (some ct) (some content) length hds url,
                content.take (if length ≠ 0 then length else strlen content).toNat)) ∧
    ((p.fd = -1 ∨ io.writable = false) →
      (exec_request p io cmd (some ct) (some content) length get_response hds url).request
        = none) := by
  constructor
  · intro h1 h2
    unfold exec_request
    by_cases hg : get_response = 0
    · simp [h1, h2, hg]
    · cases hs : io.status with
      | none => by_cases hg1 : get_response = 1 <;> simp [h1, h2, hg, hg1]
      | some line =>
        by_cases hc : status_token line ≠ some "200" ∧ get_response = 1
        · simp [h1, h2, hg, hc.1, hc.2]
        · cases hr : read_headers io.lines [] none 0 with
          | none =>
            simp only [h1, h2, hg, hc, if_false, Bool.not_true, Bool.false_eq_true]
          | some r =>
            simp only [h1, h2, hg, hc, if_false, Bool.not_true, Bool.false_eq_true]
  · intro h
    unfold exec_request
    rcases h with h | h
    · simp [h]
    · simp [h]

/-- C16: for every list of `'s'` and `'i'` entries with 4-byte tags whose encoding
fits the 1024-byte buffer, the body produced by `rtspcl_set_daap` is the envelope
'mlit' || BE32(n - 8) || 'mikd' || 00 00 00 01 || 02 || entries with n the total
length of the body, each `'s'` entry being tag || BE32(strlen(value)) || value and
each `'i'` entry tag || 00 00 00 02 || hi || lo: every field has the shape
tag(4) || size(u32 BE) || value with size the length of the value.  This body, all n
bytes of it, is what the call writes to the socket after the request text, whose
Content-Length is n, whatever the server answers; the return value of
`rtspcl_set_daap` is that of this call. -/
theorem C16_daap_envelope (p : rtspcl_t) (io : rtsp_reply) (timestamp : Int)
    (args : List daap_arg) (hok : daap_args_ok args)
    (hfit : (daap_envelope args).length ≤ 1024) :
    rtspcl_set_daap_body args = daap_envelope args ∧
    rtspcl_set_daap_body args
      = cstr "mlit" ++ BE32 ((rtspcl_set_daap_body args).length - 8) ++ cstr "mikd" ++
          [0, 0, 0, 1] ++ [2] ++ (args.map daap_entry).flatten ∧
    (∀ tag value, daap_entry (daap_arg.s tag value) = tag ++ BE32 value.length ++ value) ∧
    (∀ tag data, daap_entry (daap_arg.i tag data)
      = tag ++ [0, 0, 0, 2] ++ [data / 256 % 256, data % 256]) ∧
    rtspcl_set_daap (some p) io timestamp args
      = (rtspcl_set_daap_exec p io timestamp args).rc ∧
    (p.fd ≠ -1 → io.writable = true →
      (rtspcl_set_daap_exec p io timestamp args).request
        = some (request_text p "SET_PARAMETER" (some "application/x-dmap-tagged")
                  (some (daap_envelope args)) (daap_envelope args).length
                  [("RTP-Info", "rtptime=" ++ toString timestamp)] none,
                daap_envelope args)) := by
  have hm : cstr "mlit" = [109, 108, 105, 116] := by decide
  have hk : cstr "mikd" = [109, 105, 107, 100] := by decide
  have hlen : 17 + ((args.map daap_entry).flatten).length ≤ 1024 := by
    simp only [daap_envelope, daap_field, hm, hk, List.length_append, List.length_cons,
      List.length_nil, BE32] at hfit
    omega
  have hw := daap_write_eq_entry args hok (by omega)
  have hloop := daap_loop_all args
    (cstr "mlit" ++ [0, 0, 0, 0] ++ cstr "mikd" ++ [0, 0, 0, 1] ++ [2]) hok
    (by rw [hw]; simp only [hm, hk, List.length_append, List.length_cons, List.length_nil]
        omega)
  have hbody : rtspcl_set_daap_body args
      = cstr "mlit" ++ BE32 (17 + ((args.map daap_entry).flatten).length - 8) ++ cstr "mikd" ++
          [0, 0, 0, 1] ++ [2] ++ (args.map daap_entry).flatten := by
    unfold rtspcl_set_daap_body
    simp only [hloop, hw]
    generalize (args.map daap_entry).flatten = E
    simp only [hm, hk, BE32, List.length_append, List.length_cons, List.length_nil,
      List.cons_append, List.nil_append, List.take_succ_cons, List.take_zero,
      List.drop_succ_cons, List.drop_zero, Nat.cast_add, Nat.cast_ofNat, Nat.cast_one,
      Nat.cast_zero]
    have e : ((E.length : Int) + 1 + 1 + 1 + 1 + 1 + 1 + 1 + 1 + 1 + 1 + 1 + 1 + 1 + 1 + 1 + 1
        + 1 - 8) = 17 + (E.length : Int) - 8 := by omega
    simp [e]
  have hE : rtspcl_set_daap_body args = daap_envelope args := by
    rw [hbody]
    unfold daap_envelope
    generalize (args.map daap_entry).flatten = E
    have e : (17 + (E.length : Int) - 8) = (E.length : Int) + 1 + 1 + 1 + 1 + 1 + 1 + 1 + 1 + 1 := by
      omega
    simp [daap_field, hm, hk, BE32, e]
  have hl : ((rtspcl_set_daap_body args).length : Int)
      = 17 + (((args.map daap_entry).flatten).length : Int) := by
    rw [hbody]
    generalize (args.map daap_entry).flatten = E
    simp only [hm, hk, BE32, List.length_append, List.length_cons, List.length_nil,
      Nat.cast_add, Nat.cast_ofNat, Nat.cast_one, Nat.cast_zero]
    omega
  refine ⟨hE, ?_, fun _ _ => rfl, fun _ _ => ?_, rfl, ?_⟩
  · rw [hl]
    exact hbody
  · simp [daap_entry, daap_field, BE32]
  · intro h1 h2
    have hne : ((daap_envelope args).length : Int) ≠ 0 := by
      rw [← hE, hl]
      omega
    unfold rtspcl_set_daap_exec
    rw [(exec_request_sent p io _ _ _ _ _ _ _).1 h1 h2, hE]
    simp only [hne, ne_eq, not_false_eq_true, if_true, Int.toNat_ofNat, List.take_length]

/-- C16 witness: the title "Song" and track number 258 give a 39-byte body, which a
connected client writes after the request text. -/
theorem C16_daap_envelope_witness :
    rtspcl_set_daap_body [daap_arg.s (cstr "minm") (cstr "Song"), daap_arg.i (cstr "astn") 258]
      = daap_envelope [daap_arg.s (cstr "minm") (cstr "Song"), daap_arg.i (cstr "astn") 258] ∧
    rtspcl_set_daap_body [daap_arg.s (cstr "minm") (cstr "Song"), daap_arg.i (cstr "astn") 258]
      = [109, 108, 105, 116, 0, 0, 0, 31, 109, 105, 107, 100, 0, 0, 0, 1, 2,
         109, 105, 110, 109, 0, 0, 0, 4, 83, 111, 110, 103,
         97, 115, 116, 110, 0, 0, 0, 2, 1, 2] ∧
    (rtspcl_set_daap_exec connected_client reply_200 224576
        [daap_arg.s (cstr "minm") (cstr "Song"), daap_arg.i (cstr "astn") 258]).request.map
        (fun r => r.2)
      = some [109, 108, 105, 116, 0, 0, 0, 31, 109, 105, 107, 100, 0, 0, 0, 1, 2,
              109, 105, 110, 109, 0, 0, 0, 4, 83, 111, 110, 103,
              97, 115, 116, 110, 0, 0, 0, 2, 1, 2] ∧
    rtspcl_set_daap (some connected_client) reply_200 224576
        [daap_arg.s (cstr "minm") (cstr "Song"), daap_arg.i (cstr "astn") 258] = true :=
  ⟨(C16_daap_envelope connected_client reply_200 224576
      [daap_arg.s (cstr "minm") (cstr "Song"), daap_arg.i (cstr "astn") 258]
      ⟨by decide, by decide, trivial⟩ (by decide)).1,
   by decide,
   (congrArg (Option.map (fun r => r.2))
      ((C16_daap_envelope connected_client reply_200 224576
        [daap_arg.s (cstr "minm") (cstr "Song"), daap_arg.i (cstr "astn") 258]
        ⟨by decide, by decide, trivial⟩ (by decide)).2.2.2.2.2 (by decide) rfl)).trans
      (by decide),
   by decide⟩

/-! ### C17, C18: RTSP responses -/

/-- An `exec_request` call with `get_response` = 1 fails on a missing or non-200
status token. -/
theorem exec_request_status (p : rtspcl_t) (io : rtsp_reply) (cmd : String)
    (content_type : Option String) (content : Option (List Int)) (length : Int)
    (hds : List (String × String)) (url : Option String)
    (h : ∀ line, io.status = some line → status_token line ≠ some "200") :
    (exec_request p io cmd content_type content length 1 hds url).rc = false := by
  unfold exec_request
  by_cases h1 : p.fd = -1
  · simp [h1]
  · by_cases h2 : io.writable = false
    · simp [h1, h2]
    · cases hs : io.status with
      | none => simp [h1, h2]
      | some line => simp [h1, h2, h line hs]

/-- With `get_response` = 2 the status line does not enter the result of
`exec_request`: the call fails only on an unusable socket or a header line without a
colon. -/
theorem exec_request_tolerant (p : rtspcl_t) (io : rtsp_reply) (cmd : String)
    (content_type : Option String) (content : Option (List Int)) (length : Int)
    (hds : List (String × String)) (url : Option String)
    (h1 : p.fd ≠ -1) (h2 : io.writable = true) :
    (exec_request p io cmd content_type content length 2 hds url).rc =
      (io.status.isNone || (read_headers io.lines [] none 0).isSome) := by
  unfold exec_request
  cases hs : io.status with
  | none => simp [h1, h2]
  | some line =>
    cases hr : read_headers io.lines [] none 0 with
    | none => simp [h1, h2]
    | some r => simp [h1, h2]

/-- C17, counterexample: the server answers 500 to the artwork and to the DAAP
request; its status token is not "200", yet both calls return true. -/
theorem C17_status_counterexample :
    status_token "RTSP/1.0 500 Internal Server Error" = some "500" ∧
    rtspcl_set_artwork (some connected_client) reply_500 224576 "image/jpeg" 3
      [255, 216, 255] = true ∧
    rtspcl_set_daap (some connected_client) reply_500 224576
      [daap_arg.s (cstr "minm") (cstr "AB")] = true := by
  decide

/-- C17, amended: when the status line is missing, has no status token or has a token
other than "200", ANNOUNCE, SETUP, RECORD, SET_PARAMETER for text, OPTIONS, FLUSH and
TEARDOWN return false; SET_PARAMETER for artwork and for DAAP do not look at the
status: on a usable socket they return true unless a header line has no colon. -/
theorem C17_status_amended
    (kd_lookup : List (String × String) → String → Option String)
    (strtrim : String → String) (p : Option rtspcl_t) (io : rtsp_reply)
    (h : ∀ line, io.status = some line → status_token line ≠ some "200") :
    (∀ sdp, rtspcl_announce_sdp p io sdp = false) ∧
    (∀ c t, (rtspcl_setup kd_lookup strtrim p io c t).1 = false) ∧
    (∀ q t, rtspcl_record p io q t = false) ∧
    (∀ param, rtspcl_set_parameter p io param = false) ∧
    rtspcl_options p io = false ∧
    (∀ q t, rtspcl_flush p io q t = false) ∧
    rtspcl_teardown p io = false ∧
    (∀ c, p = some c → c.fd ≠ -1 → io.writable = true →
      (∀ t ct size image, rtspcl_set_artwork p io t ct size image =
        (io.status.isNone || (read_headers io.lines [] none 0).isSome)) ∧
      (∀ t args, rtspcl_set_daap p io t args =
        (io.status.isNone || (read_headers io.lines [] none 0).isSome))) := by
  cases p with
  | none =>
    refine ⟨fun _ => rfl, fun _ _ => rfl, fun _ _ => rfl, fun _ => rfl, rfl, fun _ _ => rfl,
      rfl, ?_⟩
    intro c hc
    cases hc
  | some c =>
    refine ⟨?_, ?_, ?_, ?_, ?_, ?_, ?_, ?_⟩
    · intro sdp
      exact exec_request_status c io _ _ _ _ _ _ h
    · intro a b
      simp [rtspcl_setup, exec_request_status c io _ _ _ _ _ _ h]
    · intro a b
      simp only [rtspcl_record]
      cases c.session with
      | none => rfl
      | some _ => exact exec_request_status c io _ _ _ _ _ _ h
    · intro param
      exact exec_request_status c io _ _ _ _ _ _ h
    · exact exec_request_status c io _ _ _ _ _ _ h
    · intro a b
      exact exec_request_status c io _ _ _ _ _ _ h
    · exact exec_request_status c io _ _ _ _ _ _ h
    · intro d hd h1 h2
      cases hd
      exact ⟨fun _ _ _ _ => exec_request_tolerant c io _ _ _ _ _ _ h1 h2,
        fun _ _ => exec_request_tolerant c io _ _ _ _ _ _ h1 h2⟩

/-- C17, witness: the 500 response on a connected client. -/
theorem C17_status_amended_witness :
    (∀ line, reply_500.status = some line → status_token line ≠ some "200") ∧
    rtspcl_teardown (some connected_client) reply_500 = false ∧
    rtspcl_set_artwork (some connected_client) reply_500 224576 "image/jpeg" 3
      [255, 216, 255] = true := by
  have h : ∀ line, reply_500.status = some line → status_token line ≠ some "200" := by
    intro line hl
    have e : line = "RTSP/1.0 500 Internal Server Error" := by
      simp only [reply_500, Option.some.injEq] at hl
      exact hl.symm
    subst e
    decide
  have t := C17_status_amended (fun _ _ => none) id (some connected_client) reply_500 h
  refine ⟨h, t.2.2.2.2.2.2.1, ?_⟩
  rw [(t.2.2.2.2.2.2.2 connected_client rfl (by decide) rfl).1]
  decide

/-- C18: a `Public` header continued on a second line.  The call succeeds and returns
three headers, as it does without the continuation line, but the value of `Public` is
the first line only: the continuation text is written to the data pointer of the next,
still unused entry, where the following header overwrites it. -/
theorem C18_continuation_code :
    (exec_request connected_client reply_continued "OPTIONS" none none 0 1 []
      (some "*")).rc = true ∧
    (exec_request connected_client reply_continued "OPTIONS" none none 0 1 []
      (some "*")).headers =
      [("CSeq", " 5"), ("Public", " ANNOUNCE, SETUP"), ("Server", " AirTunes/105.1")] ∧
    (exec_request connected_client reply_continued "OPTIONS" none none 0 1 []
      (some "*")).headers ≠
      [("CSeq", " 5"), ("Public", " ANNOUNCE, SETUP" ++ "RECORD, FLUSH"),
       ("Server", " AirTunes/105.1")] ∧
    (exec_request connected_client reply_plain "OPTIONS" none none 0 1 []
      (some "*")).headers =
      [("CSeq", " 5"), ("Public", " ANNOUNCE, SETUP"), ("Server", " AirTunes/105.1")] ∧
    read_headers ["Public: ANNOUNCE, SETUP", " RECORD, FLUSH"] [] none 0 =
      some ([("Public", " ANNOUNCE, SETUP")], some "RECORD, FLUSH", 0) := by
  decide

/-! ### C19: ICY metadata blocks -/

/-- The ICY counter stays in range: with ICY active and a block of at most
`ICY_INTERVAL` bytes, `0 ≤ icy.remain ≤ ICY_INTERVAL` is kept and `icy.interval` is
unchanged. -/
theorem http_send_remain (itoa : Int → List Int) (ctx : raopst_t) (m : raopsv_metadata_s)
    (stack inbuf : Int → Int) (len : Int)
    (hi : ctx.icy.interval = ICY_INTERVAL)
    (hr : 0 ≤ ctx.icy.remain ∧ ctx.icy.remain ≤ ICY_INTERVAL)
    (hl : 0 ≤ len ∧ len ≤ ICY_INTERVAL) :
    (http_send itoa ctx m stack inbuf len).1.icy.interval = ICY_INTERVAL ∧
    0 ≤ (http_send itoa ctx m stack inbuf len).1.icy.remain ∧
    (http_send itoa ctx m stack inbuf len).1.icy.remain ≤ ICY_INTERVAL := by
  unfold http_send http_tail_store
  simp only [ICY_INTERVAL, uint64_t, int32_t] at *
  split_ifs <;> (try dsimp only) <;> omega

/-- The metadata block is one length byte and 16 times as many bytes as it tells. -/
theorem icy_block_shape (itoa : Int → List Int) (stack : Int → Int)
    (text : Option (List Int)) (len_16 : Int) (h : 0 ≤ len_16 ∧ len_16 < 256) :
    (send_data itoa false (icy_buffer stack text len_16) (len_16 * 16 + 1)).length =
      (len_16 * 16 + 1).toNat ∧
    (send_data itoa false (icy_buffer stack text len_16) (len_16 * 16 + 1)).head? =
      some len_16 := by
  have e : (len_16 * 16 + 1).toNat = (len_16 * 16).toNat + 1 := by omega
  constructor
  · simp only [send_data, Bool.false_eq_true, if_false, List.length_map, List.length_range]
  · simp only [send_data, e, List.range_succ_eq_map]
    simp [icy_buffer]
    omega

/-- C19 (code at the failing input): ICY is active, 4 body bytes are left before the
next metadata block and the title "AB" is pending.  A 6-byte block is sent as 4 body
bytes, the metadata block and 2 body bytes, and 16382 bytes remain.  The metadata
block is the length byte 2, the 17 characters of the text, the NUL of `sprintf` and 14
bytes of what the stack held before; on a stack filled with 0xAA the padding is not
zero. -/
theorem C19_icy_padding_code (stack : Int → Int) :
    icy_text title_AB = cstr "StreamTitle='AB';" ∧
    (http_send itoa16 icy_session title_AB stack (fun i => 100 + i) 6).2 =
      [100, 101, 102, 103] ++ [2] ++ cstr "StreamTitle='AB';" ++ [0] ++
        [stack 19, stack 20, stack 21, stack 22, stack 23, stack 24, stack 25, stack 26,
         stack 27, stack 28, stack 29, stack 30, stack 31, stack 32] ++ [104, 105] ∧
    (http_send itoa16 icy_session title_AB stack (fun i => 100 + i) 6).1.icy.remain = 16382 ∧
    (http_send itoa16 icy_session title_AB (fun _ => 170) (fun i => 100 + i) 6).2 ≠
      [100, 101, 102, 103] ++ [2] ++ cstr "StreamTitle='AB';" ++ List.replicate 15 0 ++
        [104, 105] := by
  refine ⟨by decide, ?_, ?_, by decide⟩
  · rfl
  · rfl

/-! ### C20: port allocation -/

/-- A bind loop ends within its fuel and keeps `ports_inv`; it tries at least one
port. -/
theorem bind_loop_inv (bind_socket : Nat → Int → sock_mode → Int × Int) (mode : sock_mode)
    (port_base port_range off : Int) (hr : 1 ≤ port_range ∧ port_range ≤ 65535) :
    ∀ (fuel : Nat) (port : port_s) (tried : List Int),
    ports_inv port_base port_range off port tried →
    (if port.count < port_range then port_range - port.count
      else if port.count = 65535 then port_range + 1 else 1) ≤ (fuel : Int) →
    ∃ r, bind_loop bind_socket mode port_base port_range fuel port tried = some r ∧
      ports_inv port_base port_range off r.port r.tried ∧ tried.length < r.tried.length := by
  intro fuel
  induction fuel with
  | zero =>
    intro port tried _ hf
    exfalso
    split_ifs at hf <;> simp only [Nat.cast_zero] at hf <;> omega
  | succ n ih =>
    intro port tried hinv hf
    obtain ⟨ho, hc, ht⟩ := hinv
    have hinv2 : ports_inv port_base port_range off
        { port with count := unsigned_short (port.count + 1) }
        (tried ++ [unsigned_short (port_base + (port.offset + port.count) % port_range)]) := by
      refine ⟨ho, ?_, ?_⟩
      · simp only [unsigned_short, List.length_append, List.length_singleton, Nat.cast_add,
          Nat.cast_one, hc]
        omega
      · simp only [List.length_append, List.length_singleton, List.range_succ, List.map_append,
          List.map_cons, List.map_nil]
        rw [← ht]
        simp only [candidate, ho, hc]
    unfold bind_loop
    simp only []
    split_ifs with hcont
    · obtain ⟨r, h1, h2, h3⟩ := ih _ _ hinv2 (by
        have hcn := hcont.2
        simp only [unsigned_short] at hcn ⊢
        simp only [Nat.cast_add, Nat.cast_one] at hf
        split_ifs at hf ⊢ <;> omega)
      refine ⟨r, h1, h2, ?_⟩
      simp only [List.length_append, List.length_singleton] at h3
      omega
    · exact ⟨_, rfl, hinv2, by simp⟩

/-- The UDP loop ends and keeps `ports_inv`. -/
theorem bind_udp_inv (bind_socket : Nat → Int → sock_mode → Int × Int)
    (port_base port_range off : Int) (hr : 1 ≤ port_range ∧ port_range ≤ 65535) :
    ∀ (n : Nat) (rc : Bool) (port : port_s) (tried : List Int),
    ports_inv port_base port_range off port tried →
    ∃ r, bind_udp bind_socket port_base port_range n rc port tried = some r ∧
      ports_inv port_base port_range off r.2.1 r.2.2.1 := by
  intro n
  induction n with
  | zero =>
    intro rc port tried hinv
    exact ⟨_, rfl, hinv⟩
  | succ n ih =>
    intro rc port tried hinv
    unfold bind_udp
    cases rc with
    | false => exact ⟨_, rfl, hinv⟩
    | true =>
      obtain ⟨r, h1, h2, _⟩ := bind_loop_inv bind_socket sock_mode.SOCK_DGRAM port_base
        port_range off hr 65537 port tried hinv (by
          have hc := hinv.2.1
          split_ifs <;> simp only [Nat.cast_ofNat] <;> omega)
      obtain ⟨q, h3, h4⟩ := ih (true && decide (r.sock > 0)) r.port r.tried h2
      simp only [if_true, h1, h3]
      exact ⟨_, rfl, h4⟩

/-- C20, counterexample: with `port_base` = 6000 and `port_range` = 0 the offset
`rand() % port_range` divides by zero; with `port_base` = 65000 and `port_range` =
1000 a draw of 900 gives the candidate 65900, which the `unsigned short` port stores
as 364, below the window. -/
theorem C20_ports_counterexample :
    raopst_init_ports 1234567 (bind_busy []) true 6000 0 true = none ∧
    (raopst_init_ports 900 (bind_busy []) true 65000 1000 true).map (fun r => r.tried) =
      some [364, 365, 366, 367] := by
  decide

/-- C20, amended: for `unsigned short` arguments with `port_base` = 0 or `port_range`
at least 1 the allocation is defined and ends; with `port_range` read as 1 when
`port_base` is 0, the ports it tries are, in order, the candidates
`port_base + (rand mod port_range + k) mod port_range` for k = 0, 1, ..., as stored in
an `unsigned short` (k counted modulo 65536); at least one port is tried; and when
`port_base + port_range` does not exceed 65536 every port tried lies in
`[port_base, port_base + port_range)`. -/
theorem C20_ports_amended (rand : Int) (bind_socket : Nat → Int → sock_mode → Int × Int)
    (listen_ok : Bool) (port_base port_range : Int) (rc : Bool)
    (hb : 0 ≤ port_base ∧ port_base < 65536) (hr : 0 ≤ port_range ∧ port_range < 65536)
    (hrand : 0 ≤ rand) (hd : port_base = 0 ∨ 1 ≤ port_range) :
    ∃ r, raopst_init_ports rand bind_socket listen_ok port_base port_range rc = some r ∧
      1 ≤ r.tried.length ∧
      r.tried = (List.range r.tried.length).map
        (candidate port_base (if port_base = 0 then 1 else port_range)
          (rand % (if port_base = 0 then 1 else port_range))) ∧
      (port_base + (if port_base = 0 then 1 else port_range) ≤ 65536 →
        ∀ p ∈ r.tried, port_base ≤ p ∧
          p < port_base + (if port_base = 0 then 1 else port_range)) := by
  have hR : 1 ≤ (if port_base = 0 then 1 else port_range) ∧
      (if port_base = 0 then 1 else port_range) ≤ 65535 := by
    split_ifs <;> omega
  unfold raopst_init_ports
  simp only []
  generalize (if port_base = 0 then 1 else port_range) = R at hR
  have hoff : unsigned_short (Int.tmod rand R) = rand % R := by
    have h1 := Int.emod_nonneg rand (show R ≠ 0 by omega)
    have h2 := Int.emod_lt_of_pos rand (show 0 < R by omega)
    rw [Int.tmod_eq_emod hrand (by omega)]
    simp only [unsigned_short]
    omega
  have hinv0 : ports_inv port_base R (rand % R)
      { count := 0, offset := unsigned_short (Int.tmod rand R) } [] :=
    ⟨hoff, rfl, rfl⟩
  obtain ⟨q, h1, h2⟩ := bind_udp_inv bind_socket port_base R (rand % R) hR 3 rc _ _ hinv0
  obtain ⟨r, h3, h4, h5⟩ := bind_loop_inv bind_socket sock_mode.SOCK_STREAM port_base R
    (rand % R) hR 65537 q.2.1 q.2.2.1 h2 (by
      have hc := h2.2.1
      split_ifs <;> simp only [Nat.cast_ofNat] <;> omega)
  have hne : R ≠ 0 := by omega
  simp only [hne, if_false, h1, h3]
  refine ⟨_, rfl, ?_, h4.2.2, ?_⟩
  · simp only []
    omega
  · intro hw p hp
    simp only [] at hp
    rw [h4.2.2] at hp
    obtain ⟨k, _, hk⟩ := List.mem_map.1 hp
    have h1 := Int.emod_nonneg (rand % R + (k : Int) % 65536) (show R ≠ 0 by omega)
    have h2 := Int.emod_lt_of_pos (rand % R + (k : Int) % 65536) (show 0 < R by omega)
    simp only [candidate, unsigned_short] at hk
    omega

/-- C20, witness: base 6000, range 100, a draw of 1234567 (offset 67), ports 6067
and 6068 busy. -/
theorem C20_ports_amended_witness :
    (raopst_init_ports 1234567 (bind_busy [6067, 6068]) true 6000 100 true).map
        (fun r => r.tried) = some [6067, 6068, 6069, 6070, 6071, 6072] ∧
    ∃ r, raopst_init_ports 1234567 (bind_busy [6067, 6068]) true 6000 100 true = some r ∧
      r.tried = (List.range r.tried.length).map (candidate 6000 100 67) ∧
      ∀ p ∈ r.tried, 6000 ≤ p ∧ p < 6100 := by
  refine ⟨by decide, ?_⟩
  obtain ⟨r, h1, _, h3, h4⟩ :=
    C20_ports_amended 1234567 (bind_busy [6067, 6068]) true 6000 100 true
      (by decide) (by decide) (by decide) (by decide)
  exact ⟨r, h1, h3, h4 (by decide)⟩

/-! ### C21: roundtrip gate of the timing reply -/

/-- The drift adjustment changes neither the clock references, nor the reply count,
nor the synchro state. -/
theorem drift_adjust_clock (ctx : raopst_t) :
    (drift_adjust ctx).timing.remote = ctx.timing.remote ∧
    (drift_adjust ctx).timing.local_ = ctx.timing.local_ ∧
    (drift_adjust ctx).timing.count = ctx.timing.count ∧
    (drift_adjust ctx).timing.drift = ctx.timing.drift ∧
    (drift_adjust ctx).synchro = ctx.synchro := by
  unfold drift_adjust
  simp only []
  split_ifs <;> simp

/-- C21: a timing reply whose roundtrip `now - reference` (unsigned 32-bit) exceeds
100 ms leaves the whole session state unchanged, so timing.remote, timing.local,
timing.count, gap_sum, gap_count, gap_adjust, synchro.status, ab_read and skip are all
kept; every reply with a roundtrip of at most 100 ms sets timing.remote to the reported
remote NTP value and timing.local to `reference`, increments timing.count (a
`uint32_t`, so modulo 2^32) and leaves the NTP_SYNC bit set. -/
theorem C21_timing_roundtrip (ctx : raopst_t) (now reference remote : Int) :
    (100 < uint32_t (now - reference) → timing_reply ctx now reference remote = ctx) ∧
    (uint32_t (now - reference) ≤ 100 →
      (timing_reply ctx now reference remote).timing.remote = remote ∧
      (timing_reply ctx now reference remote).timing.local_ = reference ∧
      (timing_reply ctx now reference remote).timing.count
        = uint32_t (ctx.timing.count + 1) ∧
      (ctx.timing.count + 1 < 4294967296 → 0 ≤ ctx.timing.count →
        (timing_reply ctx now reference remote).timing.count = ctx.timing.count + 1) ∧
      bit_and (timing_reply ctx now reference remote).synchro.status NTP_SYNC = NTP_SYNC) := by
  constructor
  · intro h
    simp [timing_reply, h]
  · intro h
    have h2 : ¬ (uint32_t (now - reference) > 100) := by omega
    have key : (timing_reply ctx now reference remote).timing.remote = remote ∧
        (timing_reply ctx now reference remote).timing.local_ = reference ∧
        (timing_reply ctx now reference remote).timing.count
          = uint32_t (ctx.timing.count + 1) ∧
        bit_and (timing_reply ctx now reference remote).synchro.status NTP_SYNC
          = NTP_SYNC := by
      unfold timing_reply
      simp only [h2, if_false]
      split_ifs
      · simp only [(drift_adjust_clock _).1, (drift_adjust_clock _).2.1,
          (drift_adjust_clock _).2.2.1, (drift_adjust_clock _).2.2.2.2]
        refine ⟨trivial, trivial, trivial, ?_⟩
        simp only [bit_and, bit_or, NTP_SYNC]
        split_ifs <;> omega
      · refine ⟨rfl, rfl, rfl, ?_⟩
        simp only [bit_and, bit_or, NTP_SYNC]
        split_ifs <;> omega
    refine ⟨key.1, key.2.1, key.2.2.1, ?_, key.2.2.2⟩
    intro h3 h4
    rw [key.2.2.1]
    unfold uint32_t
    omega

/-- C21 witness: on a fresh session a reply with a roundtrip of 5000 ms changes
nothing, one with a roundtrip of 50 ms is taken. -/
theorem C21_timing_roundtrip_witness :
    timing_reply fresh_session 5000 0 7 = fresh_session ∧
    (timing_reply fresh_session 1050 1000 7).timing.remote = 7 ∧
    (timing_reply fresh_session 1050 1000 7).timing.local_ = 1000 ∧
    (timing_reply fresh_session 1050 1000 7).timing.count = 1 ∧
    (timing_reply fresh_session 1050 1000 7).synchro.status = NTP_SYNC :=
  ⟨(C21_timing_roundtrip fresh_session 5000 0 7).1 (by decide),
   ((C21_timing_roundtrip fresh_session 1050 1000 7).2 (by decide)).1,
   ((C21_timing_roundtrip fresh_session 1050 1000 7).2 (by decide)).2.1,
   by decide, by decide⟩

/-! ### C22: start of playback -/

/-- The start test of `buffer_put_packet` on a session that is not playing. -/
theorem put_starts_iff (ctx : raopst_t) (q : Int) (hp : ctx.playing = false) :
    put_starts ctx q = true ↔
      (ctx.flush_seqno = -1 ∨ seq_order ctx.flush_seqno (seq_t q) = true) ∧
      (ctx.synchro.required = true → ctx.synchro.first = true) := by
  unfold put_starts put_start
  cases hr : ctx.synchro.required <;> cases hf : ctx.synchro.first <;>
  by_cases h1 : ctx.flush_seqno = -1 <;>
  cases h2 : seq_order ctx.flush_seqno (seq_t q) <;>
  simp [hp, hr, hf, h1, h2]

/-- The state in which a starting packet is examined, and the state on return. -/
theorem put_started (alac_decode : List Int → List Int) (ctx : raopst_t)
    (now q rt : Int) (f : Bool) (d : List Int)
    (hp : ctx.playing = false) (hs : put_starts ctx q = true) :
    (∃ s, put_start ctx (seq_t q) = some s ∧ s.silence = true ∧ s.playing = true ∧
      s.ab_write = seq_t (seq_t q - 1) ∧ s.ab_read = seq_t q ∧
      s.audio_buffer = ctx.audio_buffer ∧ s.events = ctx.events ∧
      buffer_put_packet alac_decode ctx now q rt f d
        = buffer_put_packet alac_decode s now q rt f d) ∧
    (buffer_put_packet alac_decode ctx now q rt f d).skip = 0 ∧
    (buffer_put_packet alac_decode ctx now q rt f d).flush_seqno = -1 ∧
    (buffer_put_packet alac_decode ctx now q rt f d).http_count = 0 ∧
    (buffer_put_packet alac_decode ctx now q rt f d).resent_frames = 0 ∧
    (buffer_put_packet alac_decode ctx now q rt f d).silent_frames = 0 ∧
    (buffer_put_packet alac_decode ctx now q rt f d).silence
      = !memcmp_silence (alac_decode d) ∧
    (buffer_put_packet alac_decode ctx now q rt f d).events
      = ctx.events ++ (if memcmp_silence (alac_decode d) then [RAOP_STREAMER_PLAY] else []) := by
  have hc := (put_starts_iff ctx q hp).1 hs
  have hq : seq_t q = seq_t (seq_t (seq_t q - 1) + 1) := by
    unfold seq_t
    omega
  have hc2 : (ctx.synchro.required = true ∧ ctx.synchro.first = true) ∨
      ctx.synchro.required = false := by
    cases hr : ctx.synchro.required
    · exact Or.inr rfl
    · exact Or.inl ⟨rfl, hc.2 hr⟩
  unfold buffer_put_packet put_start put_place put_store
  cases hpa : ctx.pause <;>
  cases hm : memcmp_silence (alac_decode d) <;>
  cases ho : seq_order (-1) (seq_t q) <;>
  simp [hp, hpa, hm, ho, ← hq, hc.1, hc2]

/-- C22: when not playing, `buffer_put_packet` with sequence number `seqno` starts
playback if and only if (flush_seqno = -1 or seq_order(flush_seqno, seqno)) and
(synchro.required implies synchro.first).  When it does not start, the whole session
state is unchanged.  When it starts, the frame is examined in a state with silence =
true and ab_write = seqno - 1, and on return playing = true, ab_read = seqno,
ab_write = seqno, skip = 0, flush_seqno = -1, http_count = 0, resent_frames =
silent_frames = 0 and the slot seqno mod 1024 is ready with the packet's rtptime and
payload; silence is still true on return exactly when the decoded frame is all zero,
otherwise the PLAY event has been fired. -/
theorem C22_put_start (alac_decode : List Int → List Int) (ctx : raopst_t)
    (now q rt : Int) (f : Bool) (d : List Int) (hp : ctx.playing = false) :
    (put_starts ctx q = true ↔
      (ctx.flush_seqno = -1 ∨ seq_order ctx.flush_seqno (seq_t q) = true) ∧
      (ctx.synchro.required = true → ctx.synchro.first = true)) ∧
    (put_starts ctx q = false → buffer_put_packet alac_decode ctx now q rt f d = ctx) ∧
    (put_starts ctx q = true →
      (∃ s, put_start ctx (seq_t q) = some s ∧ s.silence = true ∧
        s.ab_write = seq_t (seq_t q - 1) ∧
        buffer_put_packet alac_decode ctx now q rt f d
          = buffer_put_packet alac_decode s now q rt f d) ∧
      (buffer_put_packet alac_decode ctx now q rt f d).playing = true ∧
      (buffer_put_packet alac_decode ctx now q rt f d).ab_read = seq_t q ∧
      (buffer_put_packet alac_decode ctx now q rt f d).ab_write = seq_t q ∧
      (buffer_put_packet alac_decode ctx now q rt f d).skip = 0 ∧
      (buffer_put_packet alac_decode ctx now q rt f d).flush_seqno = -1 ∧
      (buffer_put_packet alac_decode ctx now q rt f d).http_count = 0 ∧
      (buffer_put_packet alac_decode ctx now q rt f d).resent_frames = 0 ∧
      (buffer_put_packet alac_decode ctx now q rt f d).silent_frames = 0 ∧
      ((buffer_put_packet alac_decode ctx now q rt f d).audio_buffer (BUFIDX q)).ready
        = true ∧
      ((buffer_put_packet alac_decode ctx now q rt f d).audio_buffer (BUFIDX q)).rtptime
        = uint32_t rt ∧
      ((buffer_put_packet alac_decode ctx now q rt f d).audio_buffer (BUFIDX q)).data
        = alac_decode d ∧
      (buffer_put_packet alac_decode ctx now q rt f d).silence
        = !memcmp_silence (alac_decode d) ∧
      (buffer_put_packet alac_decode ctx now q rt f d).events
        = ctx.events ++
            (if memcmp_silence (alac_decode d) then [RAOP_STREAMER_PLAY] else [])) := by
  refine ⟨put_starts_iff ctx q hp, ?_, ?_⟩
  · intro h
    have hn : put_start ctx (seq_t q) = none := by
      simp only [put_starts, hp, Bool.not_false, Bool.true_and] at h
      cases hh : put_start ctx (seq_t q) with
      | none => rfl
      | some s => simp [hh] at h
    simp [buffer_put_packet, hn]
  · intro h
    obtain ⟨⟨s, h1, h2, h3, h4, h5, h6, h7, h8⟩, k1, k2, k3, k4, k5, k6, k7⟩ :=
      put_started alac_decode ctx now q rt f d hp h
    have hq : seq_t q = seq_t (s.ab_write + 1) := by
      rw [h4]
      unfold seq_t
      omega
    obtain ⟨e1, e2, e3, e4⟩ := put_expected alac_decode s now q rt f d h3 hq
    refine ⟨⟨s, h1, h2, h4, h8⟩, ?_, ?_, ?_, k1, k2, k3, k4, k5, ?_, ?_, ?_, k6, k7⟩
    · rw [h8]; exact e1
    · rw [h8, e2, h5]
    · rw [h8]; exact e3
    · rw [h8, e4]; simp
    · rw [h8, e4]; simp
    · rw [h8, e4]; simp

/-- C22 witness: a fresh session starts on packet 499; after a flush with mark 500 the
packet 500 is dropped and the state is unchanged. -/
theorem C22_put_start_witness :
    put_starts fresh_session 499 = true ∧
    (buffer_put_packet id fresh_session 0 499 175648 true [1, 2]).ab_write = 499 ∧
    (buffer_put_packet id fresh_session 0 499 175648 true [1, 2]).ab_read = 499 ∧
    (buffer_put_packet id fresh_session 0 499 175648 true [1, 2]).silence = false ∧
    put_starts { fresh_session with flush_seqno := 500 } 500 = false ∧
    buffer_put_packet id { fresh_session with flush_seqno := 500 } 0 500 176000 false [1, 2]
      = { fresh_session with flush_seqno := 500 } :=
  ⟨by decide,
   ((C22_put_start id fresh_session 0 499 175648 true [1, 2] rfl).2.2 (by decide)).2.2.2.1,
   ((C22_put_start id fresh_session 0 499 175648 true [1, 2] rfl).2.2 (by decide)).2.2.1,
   by decide, by decide,
   (C22_put_start id { fresh_session with flush_seqno := 500 } 0 500 176000 false [1, 2]
      rfl).2.1 (by decide)⟩

/-! ### C23: packet after a gap -/

/-- Storing the frame touches only the chosen slot, the silence flag and the events. -/
theorem put_store_fields (alac_decode : List Int → List Int) (c : raopst_t) (idx rt : Int)
    (d : List Int) :
    (put_store alac_decode c (some idx) rt d).ab_write = c.ab_write ∧
    (put_store alac_decode c (some idx) rt d).ab_read = c.ab_read ∧
    (put_store alac_decode c (some idx) rt d).sent = c.sent ∧
    (put_store alac_decode c (some idx) rt d).resent_frames = c.resent_frames ∧
    (put_store alac_decode c (some idx) rt d).audio_buffer
      = Function.update c.audio_buffer idx
          { c.audio_buffer idx with data := alac_decode d, len := (alac_decode d).length,
                                    ready := true, rtptime := rt } := by
  unfold put_store
  simp only []
  split_ifs <;> simp

/-- While playing, `buffer_put_packet` is the slot choice followed by the store, made
on the state in which a pending pause may have been released. -/
theorem put_playing (alac_decode : List Int → List Int) (ctx : raopst_t)
    (now q rt : Int) (f : Bool) (d : List Int) (hp : ctx.playing = true) :
    ∃ c, (c = ctx ∨ c = { ctx with pause := false }) ∧
      buffer_put_packet alac_decode ctx now q rt f d
        = put_store alac_decode
            { (put_place c now (seq_t q) (uint32_t rt)).2 with
              in_frames := (put_place c now (seq_t q) (uint32_t rt)).2.in_frames + 1 }
            (put_place c now (seq_t q) (uint32_t rt)).1 (uint32_t rt) d := by
  have hps : put_start ctx (seq_t q) = some ctx := by simp [put_start, hp]
  unfold buffer_put_packet
  simp only [hps]
  by_cases h : (ctx.pause && seq_order ctx.flush_seqno (seq_t q)) = true
  · exact ⟨{ ctx with pause := false }, Or.inr rfl, by simp only [h, if_true]⟩
  · exact ⟨ctx, Or.inl rfl, by simp only [h, if_false]; rfl⟩

/-- The test `seq_order(ab_read, seqno + 1)` of the source is the test
`seq_order(ab_read - 1, seqno)`. -/
theorem seq_order_shift (a q : Int) : seq_order a (q + 1) = seq_order (a - 1) q := by
  simp only [seq_order, seq_t, int16_t]
  congr 1
  apply propext
  constructor <;> intro h <;> omega

/-- C24: while playing, for a packet whose seqno is neither `ab_write + 1` nor after
`ab_write`: if seqno is at or after `ab_read` (seq_order(ab_read - 1, seqno)) the
packet is placed as a recovered frame, i.e. the slot seqno mod 1024 becomes ready with
the packet's rtptime and payload, every other slot is unchanged, and `ab_read` and
`ab_write` are unchanged; if it is older than `ab_read` it is dropped, i.e. `ab_read`,
`ab_write` and every slot (ready flag, rtptime, payload) are unchanged, and no PLAY
event is fired. -/
theorem C24_recovered_or_late (alac_decode : List Int → List Int) (ctx : raopst_t)
    (now q rt : Int) (f : Bool) (d : List Int)
    (hp : ctx.playing = true) (hq : 0 ≤ q ∧ q < 65536)
    (hn : q ≠ seq_t (ctx.ab_write + 1)) (hg : seq_order ctx.ab_write q = false) :
    (seq_order (ctx.ab_read - 1) q = true →
      (buffer_put_packet alac_decode ctx now q rt f d).ab_read = ctx.ab_read ∧
      (buffer_put_packet alac_decode ctx now q rt f d).ab_write = ctx.ab_write ∧
      (buffer_put_packet alac_decode ctx now q rt f d).audio_buffer
        = Function.update ctx.audio_buffer (BUFIDX q)
            { ctx.audio_buffer (BUFIDX q) with
              data := alac_decode d, len := (alac_decode d).length, ready := true,
              rtptime := uint32_t rt } ∧
      ((buffer_put_packet alac_decode ctx now q rt f d).audio_buffer (BUFIDX q)).ready
        = true ∧
      ((buffer_put_packet alac_decode ctx now q rt f d).audio_buffer (BUFIDX q)).rtptime
        = uint32_t rt) ∧
    (seq_order (ctx.ab_read - 1) q = false →
      (buffer_put_packet alac_decode ctx now q rt f d).ab_read = ctx.ab_read ∧
      (buffer_put_packet alac_decode ctx now q rt f d).ab_write = ctx.ab_write ∧
      (buffer_put_packet alac_decode ctx now q rt f d).audio_buffer = ctx.audio_buffer ∧
      (buffer_put_packet alac_decode ctx now q rt f d).events = ctx.events ∧
      (buffer_put_packet alac_decode ctx now q rt f d).sent = ctx.sent) := by
  have hsq : seq_t q = q := by unfold seq_t; omega
  obtain ⟨c, hc, hE⟩ := put_playing alac_decode ctx now q rt f d hp
  rw [hsq] at hE
  constructor
  · intro h
    rw [← seq_order_shift] at h
    have hP : put_place c now q (uint32_t rt) = (some (BUFIDX q), c) := by
      rcases hc with hc | hc <;>
      · subst hc
        simp [put_place, hn, hg, h]
    have hb : (buffer_put_packet alac_decode ctx now q rt f d).audio_buffer
        = Function.update ctx.audio_buffer (BUFIDX q)
            { ctx.audio_buffer (BUFIDX q) with
              data := alac_decode d, len := (alac_decode d).length, ready := true,
              rtptime := uint32_t rt } := by
      rw [hE, hP, (put_store_fields alac_decode _ _ _ _).2.2.2.2]
      rcases hc with hc | hc <;>
      · subst hc
        rfl
    refine ⟨?_, ?_, hb, ?_, ?_⟩
    · rw [hE, hP, (put_store_fields alac_decode _ _ _ _).2.1]
      rcases hc with hc | hc <;>
      · subst hc
        rfl
    · rw [hE, hP, (put_store_fields alac_decode _ _ _ _).1]
      rcases hc with hc | hc <;>
      · subst hc
        rfl
    · rw [hb]; simp
    · rw [hb]; simp
  · intro h
    rw [← seq_order_shift] at h
    have hP : put_place c now q (uint32_t rt) = (none, c) := by
      rcases hc with hc | hc <;>
      · subst hc
        simp [put_place, hn, hg, h]
    rw [hE, hP]
    rcases hc with hc | hc <;>
    · subst hc
      simp [put_store]

/-- C24 witness: a session playing since packet 499 with `ab_write` = 499 and `ab_read`
= 499 takes packet 499 again as a recovered frame and drops packet 498. -/
theorem C24_recovered_or_late_witness :
    (buffer_put_packet id playing_session 5 499 175648 false [7]).ab_write = 499 ∧
    ((buffer_put_packet id playing_session 5 499 175648 false [7]).audio_buffer
      (BUFIDX 499)).data = [7] ∧
    (buffer_put_packet id playing_session 5 498 175296 false [7]).audio_buffer
      = playing_session.audio_buffer :=
  ⟨((C24_recovered_or_late id playing_session 5 499 175648 false [7] (by decide)
      (by decide) (by decide) (by decide)).1 (by decide)).2.1,
   by decide,
   ((C24_recovered_or_late id playing_session 5 498 175296 false [7] (by decide)
      (by decide) (by decide) (by decide)).2 (by decide)).2.2.1⟩

/-! ### C25: buffer overrun -/

/-- C25: in `_buffer_get_frame` (playing, no pending startup silence, not paused) the
call continues from the state `s` left by the skip loop with the result of the overrun
step; if the fill (int16_t)(ab_write - ab_read + 1) of `s` is at least BUFFER_FRAMES
(1024), `ab_read` is rebased to `ab_write` - 960 (nothing else changes) and the fill
used for the rest of the call is 961; if the fill is below 1024 the overrun step leaves
the state unchanged and the fill used is the fill of `s`. -/
theorem C25_overrun (ctx : raopst_t) (now : Int) (hp : ctx.playing = true)
    (hs : ctx.silence_count = 0) (hpa : ctx.pause = false) :
    _buffer_get_frame ctx now
      = get_frame_play (overrun_cap (skip_frames 32768 ctx)).2
          (overrun_cap (skip_frames 32768 ctx)).1 now ∧
    (BUFFER_FRAMES ≤ buf_fill (skip_frames 32768 ctx) →
      (overrun_cap (skip_frames 32768 ctx)).2
        = { skip_frames 32768 ctx with
            ab_read := seq_t ((skip_frames 32768 ctx).ab_write - 960) } ∧
      (overrun_cap (skip_frames 32768 ctx)).1 = 961 ∧
      buf_fill (overrun_cap (skip_frames 32768 ctx)).2 = 961) ∧
    (buf_fill (skip_frames 32768 ctx) < BUFFER_FRAMES →
      (overrun_cap (skip_frames 32768 ctx)).2 = skip_frames 32768 ctx ∧
      (overrun_cap (skip_frames 32768 ctx)).1 = buf_fill (skip_frames 32768 ctx)) := by
  refine ⟨?_, ?_, ?_⟩
  · simp [_buffer_get_frame, hp, hs, hpa, get_frame_body]
  · generalize skip_frames 32768 ctx = s
    intro h
    have h2 : int16_t (s.ab_write - s.ab_read + 1) ≥ BUFFER_FRAMES := h
    have e : int16_t (s.ab_write - seq_t (s.ab_write - (BUFFER_FRAMES - 64)) + 1) = 961 := by
      simp only [int16_t, seq_t, BUFFER_FRAMES]
      omega
    have e2 : s.ab_write - (BUFFER_FRAMES - 64) = s.ab_write - 960 := by
      simp only [BUFFER_FRAMES]
      omega
    refine ⟨?_, ?_, ?_⟩
    · simp only [overrun_cap, h2, if_true, e2]
    · simp only [overrun_cap, h2, if_true, e]
    · simp only [overrun_cap, h2, if_true, buf_fill, e]
  · generalize skip_frames 32768 ctx = s
    intro h
    have h2 : ¬ int16_t (s.ab_write - s.ab_read + 1) ≥ BUFFER_FRAMES := by
      simp only [buf_fill] at h
      omega
    constructor
    · simp only [overrun_cap, h2, if_false]
    · simp only [overrun_cap, h2, if_false, buf_fill]

/-- C25 witness: with `ab_write` = 2000 and `ab_read` = 900 (fill 1101) the read cursor
is rebased to 1040; with `ab_write` = `ab_read` = 499 (fill 1) it stays. -/
theorem C25_overrun_witness :
    buf_fill (skip_frames 32768 overrun_session) = 1101 ∧
    (overrun_cap (skip_frames 32768 overrun_session)).2.ab_read = 1040 ∧
    (overrun_cap (skip_frames 32768 overrun_session)).1 = 961 ∧
    (overrun_cap (skip_frames 32768 playing_session)).2 = skip_frames 32768 playing_session :=
  ⟨by decide, by decide,
   ((C25_overrun overrun_session 0 rfl rfl rfl).2.1 (by decide)).2.1,
   ((C25_overrun playing_session 0 (by decide) (by decide) (by decide)).2.2 (by decide)).1⟩

/-! ### C26: sustained underflow -/

/-- With an empty buffer the skip loop does nothing. -/
theorem skip_frames_empty (ctx : raopst_t) (n : Nat) (h : buf_fill ctx = 0) :
    skip_frames n ctx = ctx := by
  have hso : seq_order ctx.ab_read ctx.ab_write = false := by
    simp only [buf_fill, seq_order, decide_eq_false_iff_not, seq_t, int16_t] at h ⊢
    omega
  cases n with
  | zero => rfl
  | succ n => simp [skip_frames, hso]

/-- The look-ahead resend loop does nothing when its condition fails at entry. -/
theorem resend_ahead_stop (now : Int) (n : Nat) (i : Int) (c : raopst_t)
    (h : seq_order (c.ab_read + i) c.ab_write = false) : resend_ahead now n i c = c := by
  cases n with
  | zero => rfl
  | succ n => simp [resend_ahead, h]

/-- C26: when playing with `http_fill` set, both sync bits set, no startup silence, no
pause, an empty buffer (fill = 0) and the slot at `ab_read` not ready, a call of
`_buffer_get_frame` whose computed playtime is not after `now` returns a frame of
frame_size * 4 zero bytes, advances `ab_write` and `ab_read` by one (the fill stays 0),
increments silent_frames and filled_frames by exactly one (both are `uint32_t`), and
has set the rtptime of the returned slot to the previous slot's rtptime + frame_size. -/
theorem C26_underflow (ctx : raopst_t) (now : Int)
    (hp : ctx.playing = true) (hf : ctx.http_fill = true)
    (hst : ctx.synchro.status = bit_or RTP_SYNC NTP_SYNC)
    (hs : ctx.silence_count = 0) (hpa : ctx.pause = false)
    (he : buf_fill ctx = 0)
    (hr : (ctx.audio_buffer (BUFIDX ctx.ab_read)).ready = false)
    (ht : frame_playtime (stamp_empty ctx 0) ≤ now) :
    (_buffer_get_frame ctx now).1 = some (List.replicate (ctx.frame_size * 4).toNat 0) ∧
    (_buffer_get_frame ctx now).2.ab_write = seq_t (ctx.ab_write + 1) ∧
    (_buffer_get_frame ctx now).2.ab_read = seq_t (ctx.ab_read + 1) ∧
    buf_fill (_buffer_get_frame ctx now).2 = 0 ∧
    (_buffer_get_frame ctx now).2.silent_frames = uint32_t (ctx.silent_frames + 1) ∧
    (_buffer_get_frame ctx now).2.filled_frames = uint32_t (ctx.filled_frames + 1) ∧
    ((_buffer_get_frame ctx now).2.audio_buffer (BUFIDX ctx.ab_read)).rtptime
      = uint32_t ((ctx.audio_buffer (BUFIDX (ctx.ab_read - 1))).rtptime + ctx.frame_size) ∧
    ((_buffer_get_frame ctx now).2.audio_buffer (BUFIDX ctx.ab_read)).ready = false := by
  have hsk : skip_frames 32768 ctx = ctx := skip_frames_empty ctx 32768 he
  have hov : overrun_cap ctx = (0, ctx) := by
    have h2 : ¬ ((0 : Int) ≥ BUFFER_FRAMES) := by decide
    simp only [buf_fill] at he
    simp only [overrun_cap, he, h2, if_false]
  have hnw : ¬ (now < frame_playtime (stamp_empty ctx 0)) := by omega
  have hra2 : seq_order (ctx.ab_read + 16) (seq_t (ctx.ab_write + 1)) = false := by
    simp only [buf_fill, seq_order, decide_eq_false_iff_not, seq_t, int16_t] at he ⊢
    omega
  have hfill : int16_t (seq_t (ctx.ab_write + 1) - seq_t (ctx.ab_read + 1) + 1) = 0 := by
    simp only [buf_fill, seq_t, int16_t] at he ⊢
    omega
  have hG : _buffer_get_frame ctx now = get_frame_play ctx 0 now := by
    simp [_buffer_get_frame, hp, hs, hpa, get_frame_body, hsk, hov]
  have hres : resend_ahead now 4096 16 (advance_write (stamp_empty ctx 0) 0)
      = advance_write (stamp_empty ctx 0) 0 :=
    resend_ahead_stop now 4096 16 _ (by simpa [advance_write, stamp_empty] using hra2)
  rw [hG]
  simp only [frame_playtime] at hnw
  unfold get_frame_play
  simp only [hres]
  simp only [stamp_empty, if_true] at hnw ⊢
  simp only [Function.update_same] at hnw
  simp [hf, hst, hnw, advance_write, zero_fill, silence_frame, buf_fill, hr, hfill]

/-- C26 witness: the buffer is empty after packet 100 (rtptime 35200) and nothing
arrives; the call at tick 900 returns 1408 zero bytes and moves both cursors, and so
does the next call. -/
theorem C26_underflow_witness :
    frame_playtime (stamp_empty underflow_session 0) = 806 ∧
    (_buffer_get_frame underflow_session 900).1 = some (List.replicate 1408 0) ∧
    (_buffer_get_frame underflow_session 900).2.ab_write = 101 ∧
    (_buffer_get_frame underflow_session 900).2.ab_read = 102 ∧
    (_buffer_get_frame underflow_session 900).2.silent_frames = 1 ∧
    (_buffer_get_frame underflow_session 900).2.filled_frames = 1 ∧
    (_buffer_get_frame (_buffer_get_frame underflow_session 900).2 900).2.silent_frames = 2 ∧
    (_buffer_get_frame (_buffer_get_frame underflow_session 900).2 900).2.filled_frames = 2 :=
  ⟨by decide,
   (C26_underflow underflow_session 900 rfl rfl (by decide) rfl rfl (by decide) (by decide)
      (by decide)).1,
   by decide, by decide, by decide, by decide, by decide, by decide⟩

/-! ### C27: startup silence at accept -/

/-- C27, counterexample: playing with a delay of 10 frames and a fill of 0, the accept
primes `silence_count` to 0, not to max(10 - 0, 0) = 10. -/
theorem C27_accept_counterexample :
    delay_session.playing = true ∧ delay_session.delay = 10 ∧ buf_fill delay_session = 0 ∧
    (http_accept delay_session).silence_count = 0 ∧
    (http_accept delay_session).silence_count ≠ max (delay_session.delay - 0) 0 := by
  decide

/-- C27, amended: for a delay that is not negative, the accept changes only
`silence_count`: it becomes delay when not playing, max(delay - fill, 0) when playing
with fill = (int16_t)(ab_write - ab_read + 1) > 0, and 0 when playing with a fill of 0
or less. -/
theorem C27_accept_amended (ctx : raopst_t)
    (hd : 0 ≤ ctx.delay ∧ ctx.delay < 4294967296) :
    http_accept ctx
      = { ctx with silence_count :=
            if ctx.playing = false then ctx.delay
            else if buf_fill ctx > 0 then max (ctx.delay - buf_fill ctx) 0
            else 0 } := by
  have e : uint32_t ctx.delay = ctx.delay := by unfold uint32_t; omega
  unfold http_accept buf_fill
  simp only [e]
  cases hp : ctx.playing
  · simp
  · by_cases hf : int16_t (ctx.ab_write - ctx.ab_read + 1) > 0
    · have e2 : uint32_t (ctx.delay - min ctx.delay (int16_t (ctx.ab_write - ctx.ab_read + 1)))
          = max (ctx.delay - int16_t (ctx.ab_write - ctx.ab_read + 1)) 0 := by
        unfold uint32_t
        rcases le_total ctx.delay (int16_t (ctx.ab_write - ctx.ab_read + 1)) with h | h
        · rw [min_eq_left h, max_eq_right (by omega)]
          omega
        · rw [min_eq_right h, max_eq_left (by omega)]
          omega
      simp [hf, e2]
    · simp [hf]

/-- C27 witness: with a delay of 10 frames, a playing session holding 1 frame is primed
to 9 and a session that is not playing to 10. -/
theorem C27_accept_amended_witness :
    (http_accept { playing_session with delay := 10 }).silence_count = 9 ∧
    (http_accept { fresh_session with delay := 10 }).silence_count = 10 :=
  ⟨(congrArg raopst_t.silence_count
      (C27_accept_amended { playing_session with delay := 10 } (by decide))).trans
      (by decide),
   (congrArg raopst_t.silence_count
      (C27_accept_amended { fresh_session with delay := 10 } (by decide))).trans
      (by decide)⟩

/-! ### C28: sync packet -/

/-- A timing request changes only the datagrams sent. -/
theorem rtp_request_timing_fields (ctx : raopst_t) (now : Int) :
    (rtp_request_timing ctx now).2.latency = ctx.latency ∧
    (rtp_request_timing ctx now).2.synchro = ctx.synchro ∧
    (rtp_request_timing ctx now).2.timing = ctx.timing ∧
    (rtp_request_timing ctx now).2.ab_read = ctx.ab_read ∧
    (rtp_request_timing ctx now).2.ab_write = ctx.ab_write := by
  unfold rtp_request_timing
  simp only []
  split_ifs <;> simp

/-- C28: a sync packet sets latency to `rtp_now - rtp_now_latency` (the 32-bit
difference stored in an `int`) only if latency was zero, and leaves it unchanged
otherwise; it then sets synchro.rtp = rtp_now - latency (mod 2^32) and synchro.time to
the low 32 bits of timing.local + (uint32) NTP2MS(remote - timing.remote); it sets the
RTP_SYNC bit and does not change the NTP_SYNC bit; synchro.first becomes true when bit
4 of byte 0 is set and keeps its value otherwise; `ab_read`, `ab_write` and the timing
state are unchanged. -/
theorem C28_sync_packet (ctx : raopst_t) (now byte0 rtp_now_latency remote rtp_now count : Int) :
    (sync_packet ctx now byte0 rtp_now_latency remote rtp_now count).1.latency
      = (if ctx.latency = 0 then int32_t (uint32_t (rtp_now - rtp_now_latency))
          else ctx.latency) ∧
    (0 ≤ rtp_now - rtp_now_latency → rtp_now - rtp_now_latency < 2147483648 →
      ctx.latency = 0 →
      (sync_packet ctx now byte0 rtp_now_latency remote rtp_now count).1.latency
        = rtp_now - rtp_now_latency) ∧
    (sync_packet ctx now byte0 rtp_now_latency remote rtp_now count).1.synchro.rtp
      = uint32_t (rtp_now
          - (sync_packet ctx now byte0 rtp_now_latency remote rtp_now count).1.latency) ∧
    (sync_packet ctx now byte0 rtp_now_latency remote rtp_now count).1.synchro.time
      = uint32_t (ctx.timing.local_
          + uint32_t (NTP2MS (uint64_t (remote - ctx.timing.remote)))) ∧
    bit_and (sync_packet ctx now byte0 rtp_now_latency remote rtp_now count).1.synchro.status
      RTP_SYNC = RTP_SYNC ∧
    bit_and (sync_packet ctx now byte0 rtp_now_latency remote rtp_now count).1.synchro.status
      NTP_SYNC = bit_and ctx.synchro.status NTP_SYNC ∧
    (sync_packet ctx now byte0 rtp_now_latency remote rtp_now count).1.synchro.first
      = (ctx.synchro.first || decide (bit_and byte0 16 ≠ 0)) ∧
    (sync_packet ctx now byte0 rtp_now_latency remote rtp_now count).1.synchro.required
      = ctx.synchro.required ∧
    (sync_packet ctx now byte0 rtp_now_latency remote rtp_now count).1.ab_read = ctx.ab_read ∧
    (sync_packet ctx now byte0 rtp_now_latency remote rtp_now count).1.ab_write
      = ctx.ab_write ∧
    (sync_packet ctx now byte0 rtp_now_latency remote rtp_now count).1.timing = ctx.timing := by
  have hlow : ∀ x : Int, uint32_t (uint64_t x) = uint32_t x := by
    intro x
    unfold uint32_t uint64_t
    omega
  have hb1 : ∀ s : Int, bit_and (bit_or s RTP_SYNC) RTP_SYNC = RTP_SYNC := by
    intro s
    simp only [bit_and, bit_or, RTP_SYNC]
    split_ifs <;> omega
  have hb2 : ∀ s : Int, bit_and (bit_or s RTP_SYNC) NTP_SYNC = bit_and s NTP_SYNC := by
    intro s
    simp only [bit_and, bit_or, RTP_SYNC, NTP_SYNC]
    split_ifs <;> omega
  have hlat : (sync_packet ctx now byte0 rtp_now_latency remote rtp_now count).1.latency
      = (if ctx.latency = 0 then int32_t (uint32_t (rtp_now - rtp_now_latency))
          else ctx.latency) := by
    unfold sync_packet
    simp only []
    split_ifs <;> simp [(rtp_request_timing_fields _ _).1]
  refine ⟨hlat, ?_, ?_, ?_, ?_, ?_, ?_, ?_, ?_, ?_, ?_⟩
  · intro h0 h1 hz
    rw [hlat, if_pos hz]
    unfold int32_t uint32_t
    omega
  · rw [hlat]
    unfold sync_packet
    simp only []
    split_ifs <;> simp [(rtp_request_timing_fields _ _).2.1]
  · unfold sync_packet
    simp only []
    split_ifs <;> simp [(rtp_request_timing_fields _ _).2.1, hlow]
  · unfold sync_packet
    simp only []
    split_ifs <;> simp [(rtp_request_timing_fields _ _).2.1, hb1]
  · unfold sync_packet
    simp only []
    split_ifs <;> simp [(rtp_request_timing_fields _ _).2.1, hb2]
  · unfold sync_packet
    simp only []
    clear hlat
    split_ifs <;> simp [*, (rtp_request_timing_fields _ _).2.1]
  · unfold sync_packet
    simp only []
    split_ifs <;> simp [(rtp_request_timing_fields _ _).2.1]
  · unfold sync_packet
    simp only []
    split_ifs <;> simp [(rtp_request_timing_fields _ _).2.2.2.1]
  · unfold sync_packet
    simp only []
    split_ifs <;> simp [(rtp_request_timing_fields _ _).2.2.2.2]
  · unfold sync_packet
    simp only []
    split_ifs <;> simp [(rtp_request_timing_fields _ _).2.2.1]

/-- C28 witness: the first sync packet (byte 0 = 0x90) on a session created without
latency: rtp_now = 100000 and rtp_now_latency = 11800 give a latency of 88200. -/
theorem C28_sync_packet_witness :
    nolatency_session.latency = 0 ∧
    (sync_packet nolatency_session 0 144 11800 0 100000 0).1.latency = 88200 ∧
    (sync_packet nolatency_session 0 144 11800 0 100000 0).1.synchro.rtp = 11800 ∧
    (sync_packet nolatency_session 0 144 11800 0 100000 0).1.synchro.status = 1 ∧
    (sync_packet nolatency_session 0 144 11800 0 100000 0).1.synchro.first = true :=
  ⟨by decide,
   (C28_sync_packet nolatency_session 0 144 11800 0 100000 0).2.1 (by decide) (by decide)
      (by decide),
   by decide, by decide, by decide⟩

/-! ### C29: round trip of the clock macros -/

/-- C29: for every x with 0 ≤ x < 2^32, `NTP2MS (MS2NTP x)` is either x or x - 1, so
never more than x and never less than x - 1, and it equals x exactly when x is a
multiple of 125. -/
theorem C29_roundtrip_floor (x : Int) (h0 : 0 ≤ x) (h1 : x < 4294967296) :
    (NTP2MS (MS2NTP x) = x ∨ NTP2MS (MS2NTP x) = x - 1) ∧
    NTP2MS (MS2NTP x) ≤ x ∧ x - 1 ≤ NTP2MS (MS2NTP x) ∧
    (NTP2MS (MS2NTP x) = x ↔ x % 125 = 0) := by
  rw [NTP2MS_MS2NTP_eq x h0 h1]
  by_cases h : x % 125 = 0
  · have e : x * 4194304 / 1000 * 1000 / 4194304 = x := by omega
    rw [e]
    exact ⟨Or.inl rfl, le_refl _, by omega, ⟨fun _ => h, fun _ => rfl⟩⟩
  · have hr : x * 4194304 % 1000 ≠ 0 := by omega
    have e : x * 4194304 / 1000 * 1000 / 4194304 = x - 1 := by omega
    rw [e]
    exact ⟨Or.inr rfl, by omega, le_refl _, ⟨fun hx => by omega, fun hx => absurd hx h⟩⟩

/-- C29 witness: 250 ms and 4294967250 ms come back unchanged, 4294967295 ms comes back
as 4294967294 ms. -/
theorem C29_roundtrip_floor_witness :
    NTP2MS (MS2NTP 250) = 250 ∧ NTP2MS (MS2NTP 4294967250) = 4294967250 ∧
    NTP2MS (MS2NTP 4294967295) = 4294967295 - 1 ∧
    (NTP2MS (MS2NTP 7) = 7 ↔ (7 : Int) % 125 = 0) :=
  ⟨by decide, by decide, by decide,
   (C29_roundtrip_floor 7 (by decide) (by decide)).2.2.2⟩

/-! ### C30: range replay with ICY metadata -/

/-- The replay loop only appends to the chunks sent so far. -/
theorem range_replay_prefix (offset : Int) (n : Nat) :
    ∀ (count : Int) (ctx : raopst_t) (out : List (List Int)),
    ∃ rest, (range_replay offset n count ctx out).2 = out ++ rest := by
  induction n with
  | zero => intro count ctx out; exact ⟨[], by simp [range_replay]⟩
  | succ n ih =>
    intro count ctx out
    unfold range_replay
    simp only []
    split_ifs
    · obtain ⟨rest, h⟩ := ih _ _ _
      exact ⟨_, by rw [h, List.append_assoc, List.append_assoc]⟩
    · obtain ⟨rest, h⟩ := ih _ _ _
      exact ⟨_, by rw [h, List.append_assoc]⟩
    · obtain ⟨rest, h⟩ := ih _ _ _
      exact ⟨_, by rw [h, List.append_assoc]⟩
    · exact ⟨[], by simp⟩

/-- One turn of the replay loop with ICY active, a full interval left before the next
metadata block and at least one interval still to replay: `ICY_INTERVAL` bytes of the
tail are sent, then the single byte 1. -/
theorem range_replay_step (offset : Int) (m : Nat) (count : Int) (ctx : raopst_t)
    (out : List (List Int)) (h1 : ctx.icy.interval = ICY_INTERVAL)
    (h2 : ctx.icy.remain = ICY_INTERVAL)
    (h3 : count + ICY_INTERVAL ≤ ctx.http_count - offset) :
    range_replay offset (m + 1) count ctx out
      = range_replay offset m (count + ICY_INTERVAL) ctx
          (out ++ [tail_chunk ctx.http_tail ((offset + count) % TAIL_SIZE) ICY_INTERVAL,
                   [1]]) := by
  have hne : count ≠ ctx.http_count - offset := by
    simp only [ICY_INTERVAL] at h3
    omega
  have hmin : min ICY_INTERVAL (ctx.http_count - offset - count) = ICY_INTERVAL :=
    min_eq_left (by omega)
  have hi : ICY_INTERVAL ≠ 0 := by decide
  have hctx : { ctx with icy := { ctx.icy with remain := ctx.icy.interval } } = ctx := by
    rw [h1, ← h2]
  rw [range_replay]
  simp only [hne, h1, h2, hi, hmin, ne_eq, not_false_eq_true, if_true, sub_self,
    List.append_assoc, List.singleton_append]
  rw [← h1, hctx]

/-- The body of the response to a range request with ICY metadata is the result of the
replay loop entered with `icy.interval` = `icy.remain` = `ICY_INTERVAL`. -/
theorem handle_http_replay (ctx : raopst_t) (req : http_request) (n : Int)
    (hparsed : req.parsed = true) (hhead : req.head = false) (hrange : ctx.range = true)
    (hreq : req.range = some n) (hoff : range_offset ctx n ≠ 0)
    (hc : ctx.encode.codec = codec_t.CODEC_MP3) (hm : ctx.encode.mp3_icy = true)
    (hi : req.icy_metadata ≠ 0) :
    (handle_http ctx req).2.1.map (fun r => r.body)
      = some (range_replay (range_offset ctx n)
          (ctx.http_count - range_offset ctx n).toNat 0
          { ctx with
            icy := { ctx.icy with interval := ICY_INTERVAL, remain := ICY_INTERVAL },
            silence_count := 0 } []).2 := by
  unfold handle_http
  simp [hparsed, hhead, hrange, hreq, hoff, hc, hm, hi]

/-- C30 (code at the failing input): ICY active, 3000000 bytes emitted, request with
`Range: bytes=2900000` and `Icy-MetaData: 1`.  The replay starts at offset 902847, so
it covers 2097153 bytes, one more than the tail holds.  It sends 16384 bytes of the
tail, then the single byte 1, then the next 16384 bytes of the tail, then again the
single byte 1: each metadata block is the length byte L = 1 with none of the 16
metadata bytes it announces. -/
theorem C30_replay_icy_code :
    range_offset icy_replay_session 2900000 = 902847 ∧
    icy_replay_session.http_count - range_offset icy_replay_session 2900000
      = TAIL_SIZE + 1 ∧
    (handle_http icy_replay_session icy_replay_request).2.1.map (fun r => r.status)
      = some "HTTP/1.0 206 Partial Content" ∧
    ∃ rest, (handle_http icy_replay_session icy_replay_request).2.1.map (fun r => r.body)
      = some (tail_chunk icy_replay_session.http_tail 902847 16384 :: [1] ::
              tail_chunk icy_replay_session.http_tail (902847 + 16384) 16384 :: [1] ::
              rest) := by
  refine ⟨by decide, by decide, by decide, ?_⟩
  have hoff : range_offset icy_replay_session 2900000 = 902847 := by decide
  have hE := handle_http_replay icy_replay_session icy_replay_request 2900000 rfl rfl rfl rfl
    (by decide) rfl rfl (by decide)
  rw [hoff] at hE
  have hfuel : (icy_replay_session.http_count - 902847).toNat = 2097151 + 1 + 1 := by decide
  rw [hfuel] at hE
  have s1 := range_replay_step 902847 (2097151 + 1) 0 icy_replay_entry [] rfl rfl
    (by decide)
  have s2 := range_replay_step 902847 2097151 (0 + ICY_INTERVAL) icy_replay_entry
    ([] ++ [tail_chunk icy_replay_entry.http_tail ((902847 + 0) % TAIL_SIZE) ICY_INTERVAL,
            [1]]) rfl rfl (by decide)
  obtain ⟨rest, hr⟩ := range_replay_prefix 902847 2097151 (0 + ICY_INTERVAL + ICY_INTERVAL)
    icy_replay_entry
    ([] ++ [tail_chunk icy_replay_entry.http_tail ((902847 + 0) % TAIL_SIZE) ICY_INTERVAL,
            [1]] ++
      [tail_chunk icy_replay_entry.http_tail ((902847 + (0 + ICY_INTERVAL)) % TAIL_SIZE)
        ICY_INTERVAL, [1]])
  refine ⟨rest, ?_⟩
  have hent : ({ icy_replay_session with
      icy := { icy_replay_session.icy with interval := ICY_INTERVAL, remain := ICY_INTERVAL },
      silence_count := 0 } : raopst_t) = icy_replay_entry := rfl
  rw [hE, hent, s1, s2, hr]
  rfl

end Raop
